import Mathlib

/-!
# library-api: request handlers and data-access layer

A shallow embedding of `internal/model`, `internal/handler`, `internal/store` and, of
`internal/app`, the route registrations and the health check.

Conventions of the embedding

* A Go `error` is `GoError = Option String`: `none` is `nil`, `some t` is an error whose
  `Error()` text is `t`.
* A Go slice is `Slice α = Option (List α)`: `none` is the nil slice, `some l` a non-nil slice
  with elements `l`; `Slice.len` is Go's `len`.
* A handler depends on its store only through the interface declared next to it
  (`authorStore`, `bookStore`, `memberStore`, `borrowedStore`).  An implementation is a
  state machine over a state `σ`; operations that receive a pointer to an entity also return
  the entity as it stands after the call.
* A handler returns the HTTP response, the store calls it made in order, and the final state.
  A `journaled` store or database keeps, beside its state, the list of the calls or
  statements it has received; what a handler did to its store is read off that journal.
* What the request context decides (the outcome of `c.BodyParser`, the route parameters) and
  the identifier `uuid.New().String()` would yield are inputs.  Logging is not modelled.
* The database is a state machine `store.DB`; the conversions `rows.Scan` performs on a
  column are inputs of the model.
-/

/-- Go's `error`: `none` is nil, `some t` carries the text `Error()` returns. -/
abbrev GoError := Option String

/-- Go's slice: `none` is the nil slice. -/
abbrev Slice (α : Type) := Option (List α)

/-- Go's `len` on a slice. -/
def Slice.len {α : Type} : Slice α → Nat
  | none => 0
  | some l => l.length

/-- Go's `append(s, x)`. -/
def Slice.append {α : Type} : Slice α → α → Slice α
  | none, x => some [x]
  | some l, x => some (l ++ [x])

/-- The elements of a slice, in order. -/
def Slice.elems {α : Type} : Slice α → List α
  | none => []
  | some l => l

namespace strings

/-- True when `p` is an initial segment of the second list. -/
def startsWith : List Char → List Char → Bool
  | [], _ => true
  | _ :: _, [] => false
  | p :: ps, c :: cs => p == c && startsWith ps cs

/-- True when `sub` occurs as a contiguous run inside the second list. -/
def containsChars (sub : List Char) : List Char → Bool
  | [] => sub.isEmpty
  | c :: cs => startsWith sub (c :: cs) || containsChars sub cs

/-- Go's `strings.Contains(s, substr)`. -/
def Contains (s substr : String) : Bool :=
  containsChars substr.data s.data

end strings

namespace model

/-- The `model.Author` struct; `FullName` is a `*string`. -/
structure Author where
  ID : String
  FullName : Option String
  NickName : String
  Specialization : String
deriving DecidableEq, Repr

/-- The zero value of `model.Author`. -/
def Author.zero : Author := ⟨"", none, "", ""⟩

/-- The `model.Book` struct. -/
structure Book where
  ID : String
  AuthorsID : String
  Title : String
  Genre : String
  ISBN : String
  Author : Author
deriving DecidableEq, Repr

/-- The zero value of `model.Book`. -/
def Book.zero : Book := ⟨"", "", "", "", "", Author.zero⟩

/-- Modelled from the spec: the `model.Member` struct, whose declaration
(`internal/model/member.go`) is absent: an id and a full_name, read as the string fields
`ID` and `FullName` by the stores and the tests. -/
structure Member where
  ID : String
  FullName : String
deriving DecidableEq, Repr

/-- Modelled from the spec: the `model.Borrowed` struct, whose declaration
(`internal/model/borrowed.go`) is absent: the (member_id, book_id) pair, read as the string
fields `MemberID` and `BookID` by the stores and the tests. -/
structure Borrowed where
  MemberID : String
  BookID : String
deriving DecidableEq, Repr

end model

namespace fiber

def StatusOK : Nat := 200
def StatusCreated : Nat := 201
def StatusBadRequest : Nat := 400
def StatusNotFound : Nat := 404
def StatusInternalServerError : Nat := 500

/-- What is handed to `c.JSON`: a `fiber.Map` with string values (keys in encoding order),
or one of the slices the list handlers encode. -/
inductive Body where
  | map (kvs : List (String × String))
  | authors (l : Slice model.Author)
  | books (l : Slice model.Book)
  | members (l : Slice model.Member)
  | strings (l : Slice String)
deriving DecidableEq, Repr

/-- The keys of a response body that is a `fiber.Map`; a slice payload has none. -/
def Body.keys : Body → List String
  | .map kvs => kvs.map Prod.fst
  | _ => []

/-- The value stored under key `k` of a `fiber.Map` body. -/
def Body.get (k : String) : Body → Option String
  | .map kvs => (kvs.find? (fun p => p.1 == k)).map Prod.snd
  | _ => none

/-- The response written by `c.Status(code).JSON(body)`. -/
structure Response where
  status : Nat
  body : Body
deriving DecidableEq, Repr

/-- The part of `*fiber.Ctx` the handlers read: the outcome of `c.BodyParser(&v)` (the decoded
value, or the text of the parse error) and the route parameters `c.Params`. -/
structure Ctx (α : Type) where
  BodyParser : Except String α
  Params : String → String

end fiber

namespace handler

open model fiber

/-- What a handler run yields: the response, the store calls made (in order), the final
state of the store. -/
structure Result (C σ : Type) where
  resp : Response
  calls : List C
  st : σ

/-- The `authorStore` interface. -/
structure authorStore (σ : Type) where
  Create : Author → σ → (GoError × Author) × σ
  Get : σ → (Slice Author × GoError) × σ
  Exists : String → σ → GoError × σ
  Update : String → Author → σ → (GoError × Author) × σ
  Delete : String → σ → GoError × σ
  GetAuthorsBooks : String → σ → (Slice String × GoError) × σ

/-- A call on an `authorStore`, with its arguments. -/
inductive AuthorCall where
  | Create (author : Author)
  | Get
  | Exists (id : String)
  | Update (id : String) (author : Author)
  | Delete (id : String)
  | GetAuthorsBooks (id : String)
deriving DecidableEq, Repr

def AuthorHandler.Create {σ : Type} (s : authorStore σ) (c : Ctx Author) (uuidNew : String)
    (st : σ) : Result AuthorCall σ :=
  match c.BodyParser with
  | .error _ =>
    ⟨⟨StatusBadRequest, .map [("error", "author creation failed")]⟩, [], st⟩
  | .ok parsed =>
    let author : Author := { parsed with ID := uuidNew }
    match s.Create author st with
    | ((some _, _), st1) =>
      ⟨⟨StatusBadRequest, .map [("error", "author creation failed")]⟩, [.Create author], st1⟩
    | ((none, _), st1) =>
      ⟨⟨StatusCreated, .map [("message", "author created")]⟩, [.Create author], st1⟩

def AuthorHandler.Get {σ α : Type} (s : authorStore σ) (_c : Ctx α) (st : σ) :
    Result AuthorCall σ :=
  match s.Get st with
  | ((_, some _), st1) =>
    ⟨⟨StatusInternalServerError, .map [("error", "server error")]⟩, [.Get], st1⟩
  | ((authors, none), st1) =>
    if authors.len = 0 then
      ⟨⟨StatusNotFound, .map [("message", "authors not found")]⟩, [.Get], st1⟩
    else
      ⟨⟨StatusOK, .authors authors⟩, [.Get], st1⟩

def AuthorHandler.Update {σ : Type} (s : authorStore σ) (c : Ctx Author) (st : σ) :
    Result AuthorCall σ :=
  match c.BodyParser with
  | .error _ =>
    ⟨⟨StatusBadRequest, .map [("error", "author update failed")]⟩, [], st⟩
  | .ok author =>
    let id := c.Params "id"
    match s.Exists id st with
    | (some _, st1) =>
      ⟨⟨StatusNotFound, .map [("error", "author not found")]⟩, [.Exists id], st1⟩
    | (none, st1) =>
      match s.Update id author st1 with
      | ((some _, _), st2) =>
        ⟨⟨StatusBadRequest, .map [("error", "author update failed")]⟩,
          [.Exists id, .Update id author], st2⟩
      | ((none, _), st2) =>
        ⟨⟨StatusOK, .map [("message", "author updated")]⟩,
          [.Exists id, .Update id author], st2⟩

def AuthorHandler.Delete {σ α : Type} (s : authorStore σ) (c : Ctx α) (st : σ) :
    Result AuthorCall σ :=
  let id := c.Params "id"
  match s.Delete id st with
  | (some e, st1) =>
    if strings.Contains e "violates foreign key constraint" then
      ⟨⟨StatusBadRequest, .map [("message", "author has related recordings and cannot be deleted")]⟩,
        [.Delete id], st1⟩
    else
      ⟨⟨StatusInternalServerError, .map [("error", "server error")]⟩, [.Delete id], st1⟩
  | (none, st1) =>
    ⟨⟨StatusOK, .map [("message", "author deleted")]⟩, [.Delete id], st1⟩

def AuthorHandler.GetAuthorBooks {σ α : Type} (s : authorStore σ) (c : Ctx α) (st : σ) :
    Result AuthorCall σ :=
  let id := c.Params "id"
  match s.GetAuthorsBooks id st with
  | ((_, some _), st1) =>
    ⟨⟨StatusInternalServerError, .map [("error", "server error")]⟩, [.GetAuthorsBooks id], st1⟩
  | ((books, none), st1) =>
    if books.len = 0 then
      ⟨⟨StatusNotFound, .map [("error", "book not found")]⟩, [.GetAuthorsBooks id], st1⟩
    else
      ⟨⟨StatusOK, .strings books⟩, [.GetAuthorsBooks id], st1⟩

/-- The `bookStore` interface. -/
structure bookStore (σ : Type) where
  Create : Book → σ → (GoError × Book) × σ
  Get : σ → (Slice Book × GoError) × σ
  Delete : String → σ → GoError × σ
  Update : String → Book → σ → (GoError × Book) × σ
  Exists : String → σ → GoError × σ

/-- A call on a `bookStore`, with its arguments. -/
inductive BookCall where
  | Create (book : Book)
  | Get
  | Delete (id : String)
  | Update (id : String) (book : Book)
  | Exists (id : String)
deriving DecidableEq, Repr

def BookHandler.Create {σ : Type} (s : bookStore σ) (c : Ctx Book) (uuidNew : String)
    (st : σ) : Result BookCall σ :=
  match c.BodyParser with
  | .error _ =>
    ⟨⟨StatusBadRequest, .map [("error", "book creation failed")]⟩, [], st⟩
  | .ok parsed =>
    let book : Book := { parsed with ID := uuidNew }
    match s.Create book st with
    | ((some _, _), st1) =>
      ⟨⟨StatusBadRequest, .map [("error", "book creation failed")]⟩, [.Create book], st1⟩
    | ((none, book1), st1) =>
      ⟨⟨StatusCreated, .map [("id", book1.ID), ("message", "book created")]⟩,
        [.Create book], st1⟩

def BookHandler.Get {σ α : Type} (s : bookStore σ) (_c : Ctx α) (st : σ) :
    Result BookCall σ :=
  match s.Get st with
  | ((_, some _), st1) =>
    ⟨⟨StatusInternalServerError, .map [("error", "server error")]⟩, [.Get], st1⟩
  | ((books, none), st1) =>
    if books.len = 0 then
      ⟨⟨StatusNotFound, .map [("message", "no books found")]⟩, [.Get], st1⟩
    else
      ⟨⟨StatusOK, .books books⟩, [.Get], st1⟩

def BookHandler.Update {σ : Type} (s : bookStore σ) (c : Ctx Book) (st : σ) :
    Result BookCall σ :=
  match c.BodyParser with
  | .error _ =>
    ⟨⟨StatusBadRequest, .map [("error", "book update failed")]⟩, [], st⟩
  | .ok book =>
    let id := c.Params "id"
    match s.Exists id st with
    | (some _, st1) =>
      ⟨⟨StatusNotFound, .map [("error", "book not found")]⟩, [.Exists id], st1⟩
    | (none, st1) =>
      match s.Update id book st1 with
      | ((some _, _), st2) =>
        ⟨⟨StatusBadRequest, .map [("error", "book update failed")]⟩,
          [.Exists id, .Update id book], st2⟩
      | ((none, _), st2) =>
        ⟨⟨StatusOK, .map [("message", "book updated")]⟩,
          [.Exists id, .Update id book], st2⟩

def BookHandler.Delete {σ α : Type} (s : bookStore σ) (c : Ctx α) (st : σ) :
    Result BookCall σ :=
  let id := c.Params "id"
  match s.Delete id st with
  | (some e, st1) =>
    if strings.Contains e "violates foreign key constraint" then
      ⟨⟨StatusBadRequest, .map [("message", "book has related recordings and cannot be deleted")]⟩,
        [.Delete id], st1⟩
    else
      ⟨⟨StatusInternalServerError, .map [("error", "server error")]⟩, [.Delete id], st1⟩
  | (none, st1) =>
    ⟨⟨StatusOK, .map [("message", "book deleted")]⟩, [.Delete id], st1⟩

/-- The `memberStore` interface. -/
structure memberStore (σ : Type) where
  Create : Member → σ → (GoError × Member) × σ
  Get : σ → (Slice Member × GoError) × σ
  Exists : String → σ → GoError × σ
  Update : String → Member → σ → (GoError × Member) × σ
  Delete : String → σ → GoError × σ

/-- A call on a `memberStore`, with its arguments. -/
inductive MemberCall where
  | Create (member : Member)
  | Get
  | Exists (id : String)
  | Update (id : String) (member : Member)
  | Delete (id : String)
deriving DecidableEq, Repr

def MemberHandler.Create {σ : Type} (s : memberStore σ) (c : Ctx Member) (uuidNew : String)
    (st : σ) : Result MemberCall σ :=
  match c.BodyParser with
  | .error _ =>
    ⟨⟨StatusBadRequest, .map [("error", "member creation failed")]⟩, [], st⟩
  | .ok parsed =>
    let member : Member := { parsed with ID := uuidNew }
    match s.Create member st with
    | ((some _, _), st1) =>
      ⟨⟨StatusBadRequest, .map [("error", "member creation failed")]⟩, [.Create member], st1⟩
    | ((none, _), st1) =>
      ⟨⟨StatusCreated, .map [("message", "member created")]⟩, [.Create member], st1⟩

def MemberHandler.Get {σ α : Type} (s : memberStore σ) (_c : Ctx α) (st : σ) :
    Result MemberCall σ :=
  match s.Get st with
  | ((_, some _), st1) =>
    ⟨⟨StatusInternalServerError, .map [("error", "server error")]⟩, [.Get], st1⟩
  | ((members, none), st1) =>
    if members.len = 0 then
      ⟨⟨StatusNotFound, .map [("message", "no members found")]⟩, [.Get], st1⟩
    else
      ⟨⟨StatusOK, .members members⟩, [.Get], st1⟩

def MemberHandler.Update {σ : Type} (s : memberStore σ) (c : Ctx Member) (st : σ) :
    Result MemberCall σ :=
  match c.BodyParser with
  | .error _ =>
    ⟨⟨StatusBadRequest, .map [("error", "member update failed")]⟩, [], st⟩
  | .ok member =>
    let id := c.Params "id"
    match s.Exists id st with
    | (some _, st1) =>
      ⟨⟨StatusNotFound, .map [("message", "member not found")]⟩, [.Exists id], st1⟩
    | (none, st1) =>
      match s.Update id member st1 with
      | ((some _, _), st2) =>
        ⟨⟨StatusBadRequest, .map [("error", "member update failed")]⟩,
          [.Exists id, .Update id member], st2⟩
      | ((none, _), st2) =>
        ⟨⟨StatusOK, .map [("message", "member updated")]⟩,
          [.Exists id, .Update id member], st2⟩

def MemberHandler.Delete {σ α : Type} (s : memberStore σ) (c : Ctx α) (st : σ) :
    Result MemberCall σ :=
  let id := c.Params "id"
  match s.Delete id st with
  | (some e, st1) =>
    if strings.Contains e "violates foreign key constraint" then
      ⟨⟨StatusBadRequest, .map [("message", "member still has books, all books must be returned")]⟩,
        [.Delete id], st1⟩
    else
      ⟨⟨StatusInternalServerError, .map [("error", "server error")]⟩, [.Delete id], st1⟩
  | (none, st1) =>
    ⟨⟨StatusOK, .map [("message", "member deleted")]⟩, [.Delete id], st1⟩

/-- The `borrowedStore` interface. -/
structure borrowedStore (σ : Type) where
  Create : Borrowed → σ → (GoError × Borrowed) × σ
  Get : String → σ → (Slice Book × GoError) × σ
  Delete : String → String → σ → GoError × σ
  DeleteList : String → Slice String → σ → GoError × σ

/-- A call on a `borrowedStore`, with its arguments. -/
inductive BorrowedCall where
  | Create (book : Borrowed)
  | Get (id : String)
  | Delete (memberId : String) (bookId : String)
  | DeleteList (memberId : String) (books : Slice String)
deriving DecidableEq, Repr

def BorrowedHandler.Create {σ : Type} (s : borrowedStore σ) (c : Ctx Borrowed) (st : σ) :
    Result BorrowedCall σ :=
  match c.BodyParser with
  | .error _ =>
    ⟨⟨StatusBadRequest, .map [("error", "borrowed book creation failed")]⟩, [], st⟩
  | .ok borrowed =>
    match s.Create borrowed st with
    | ((some _, _), st1) =>
      ⟨⟨StatusBadRequest, .map [("error", "borrowed book creation failed")]⟩,
        [.Create borrowed], st1⟩
    | ((none, _), st1) =>
      ⟨⟨StatusCreated, .map [("message", "borrowed book created")]⟩, [.Create borrowed], st1⟩

def BorrowedHandler.Get {σ α : Type} (s : borrowedStore σ) (c : Ctx α) (st : σ) :
    Result BorrowedCall σ :=
  let id := c.Params "id"
  match s.Get id st with
  | ((_, some _), st1) =>
    ⟨⟨StatusInternalServerError, .map [("error", "server error")]⟩, [.Get id], st1⟩
  | ((books, none), st1) =>
    if books.len = 0 then
      ⟨⟨StatusNotFound, .map [("message", "no books found for this member")]⟩, [.Get id], st1⟩
    else
      ⟨⟨StatusOK, .books books⟩, [.Get id], st1⟩

def BorrowedHandler.Delete {σ α : Type} (s : borrowedStore σ) (c : Ctx α) (st : σ) :
    Result BorrowedCall σ :=
  let memberId := c.Params "id"
  let bookId := c.Params "book_id"
  match s.Delete memberId bookId st with
  | (some _, st1) =>
    ⟨⟨StatusInternalServerError, .map [("error", "server error")]⟩,
      [.Delete memberId bookId], st1⟩
  | (none, st1) =>
    ⟨⟨StatusOK, .map [("message", "borrowed book deleted")]⟩, [.Delete memberId bookId], st1⟩

def BorrowedHandler.DeleteList {σ : Type} (s : borrowedStore σ) (c : Ctx (Slice String))
    (st : σ) : Result BorrowedCall σ :=
  match c.BodyParser with
  | .error _ =>
    ⟨⟨StatusBadRequest, .map [("error", "borrowed book delete failed")]⟩, [], st⟩
  | .ok books =>
    let id := c.Params "id"
    match s.DeleteList id books st with
    | (some _, st1) =>
      ⟨⟨StatusInternalServerError, .map [("error", "server error")]⟩,
        [.DeleteList id books], st1⟩
    | (none, st1) =>
      ⟨⟨StatusOK, .map [("message", "borrowed books deleted")]⟩, [.DeleteList id books], st1⟩

end handler

namespace store

open model

/-- A statement parameter handed to `db.Query` or `db.Exec`. -/
inductive SqlArg where
  /-- A string, or the string a non-nil pointer to a string field points to. -/
  | str (s : String)
  /-- A `*string` field: NULL when nil. -/
  | nullStr (s : Option String)
  /-- The value `pq.Array(books)` of a string slice. -/
  | strArray (l : Slice String)
deriving DecidableEq, Repr

/-- The `*sql.Rows` of a query that started: the rows `rows.Next()` delivers before it returns
false, each a list of column values, and what `rows.Err()` reports after that. -/
structure Rows (V : Type) where
  delivered : List (List V)
  Err : GoError

/-- The `*sql.DB` the stores hold, as a state machine over `σ` with column values `V`.
`asBool`, `asString` and `asNullString` are the conversions `rows.Scan` applies to a column
for a `*bool`, `*string` and `**string` destination. -/
structure DB (σ V : Type) where
  Query : String → List SqlArg → σ → Except String (Rows V) × σ
  Exec : String → List SqlArg → σ → GoError × σ
  asBool : V → Except String Bool
  asString : V → Except String String
  asNullString : V → Except String (Option String)

/-- The error of `rows.Scan` when the row has `cols` columns and `dests` destinations are
passed. -/
def scanArity (cols dests : Nat) : String :=
  "sql: expected " ++ toString cols ++ " destination arguments in Scan, not " ++ toString dests

/-- The call `rows.Scan(&exists)`. -/
def scanExists {σ V : Type} (db : DB σ V) : List V → Except String Bool
  | [v] => db.asBool v
  | row => .error (scanArity row.length 1)

/-- The loop `for rows.Next() { ... }` of the three `Exists` methods; `notExist` is the text of
the error made with `errors.New`.  Falling out of the loop returns nil. -/
def existsLoop {σ V : Type} (db : DB σ V) (notExist : String) : List (List V) → GoError
  | [] => none
  | row :: rest =>
    match scanExists db row with
    | .error e => some e
    | .ok found => if !found then some notExist else existsLoop db notExist rest

/-- The loop `for rows.Next() { ... }` of the list reads: scan a row, give up with a nil slice
on a scan error, else append.  Falling out of the loop returns what was accumulated. -/
def scanLoop {V α : Type} (scan : List V → Except String α) :
    List (List V) → Slice α → Slice α × GoError
  | [], acc => (acc, none)
  | row :: rest, acc =>
    match scan row with
    | .error e => (none, some e)
    | .ok x => scanLoop scan rest (acc.append x)

/-- The call `rows.Scan(&author.ID, &author.FullName, &author.NickName,
&author.Specialization)` on a zero `author`. -/
def scanAuthor {σ V : Type} (db : DB σ V) : List V → Except String Author
  | [c1, c2, c3, c4] =>
    match db.asString c1 with
    | .error e => .error e
    | .ok id =>
      match db.asNullString c2 with
      | .error e => .error e
      | .ok fullName =>
        match db.asString c3 with
        | .error e => .error e
        | .ok nickName =>
          match db.asString c4 with
          | .error e => .error e
          | .ok specialization => .ok ⟨id, fullName, nickName, specialization⟩
  | row => .error (scanArity row.length 4)

def AuthorStore.Get {σ V : Type} (db : DB σ V) (st : σ) : (Slice Author × GoError) × σ :=
  match db.Query "SELECT * FROM authors" [] st with
  | (.error e, st1) => ((none, some e), st1)
  | (.ok rows, st1) => (scanLoop (scanAuthor db) rows.delivered none, st1)

def AuthorStore.Create {σ V : Type} (db : DB σ V) (author : Author) (st : σ) :
    (GoError × Author) × σ :=
  match db.Exec "INSERT INTO authors (id, full_name, nick_name, specialization) VALUES ($1, $2, $3, $4)"
      [.str author.ID, .nullStr author.FullName, .str author.NickName,
        .str author.Specialization] st with
  | (some e, st1) => ((some e, author), st1)
  | (none, st1) => ((none, author), st1)

def AuthorStore.Exists {σ V : Type} (db : DB σ V) (id : String) (st : σ) : GoError × σ :=
  match db.Query "SELECT EXISTS (SELECT 1 FROM authors WHERE id = $1)" [.str id] st with
  | (.error e, st1) => (some e, st1)
  | (.ok rows, st1) => (existsLoop db "author does not exist" rows.delivered, st1)

def AuthorStore.Update {σ V : Type} (db : DB σ V) (id : String) (author : Author) (st : σ) :
    (GoError × Author) × σ :=
  match db.Exec "UPDATE authors SET full_name = $1, nick_name = $2, specialization = $3 WHERE ID = $4"
      [.nullStr author.FullName, .str author.NickName, .str author.Specialization,
        .str id] st with
  | (some e, st1) => ((some e, author), st1)
  | (none, st1) => ((none, author), st1)

def AuthorStore.Delete {σ V : Type} (db : DB σ V) (id : String) (st : σ) : GoError × σ :=
  match db.Exec "DELETE FROM authors WHERE ID = $1" [.str id] st with
  | (some e, st1) => (some e, st1)
  | (none, st1) => (none, st1)

/-- The call `rows.Scan(&book.Title)` of `GetAuthorsBooks`, keeping `book.Title`. -/
def scanTitle {σ V : Type} (db : DB σ V) : List V → Except String String
  | [c1] => db.asString c1
  | row => .error (scanArity row.length 1)

def AuthorStore.GetAuthorsBooks {σ V : Type} (db : DB σ V) (id : String) (st : σ) :
    (Slice String × GoError) × σ :=
  match db.Query "SELECT title FROM books WHERE authors_id = $1" [.str id] st with
  | (.error e, st1) => ((none, some e), st1)
  | (.ok rows, st1) => (scanLoop (scanTitle db) rows.delivered none, st1)

/-- The `*AuthorStore` over `db`, as the handler's `authorStore`. -/
def NewAuthorStore {σ V : Type} (db : DB σ V) : handler.authorStore σ where
  Create := AuthorStore.Create db
  Get := AuthorStore.Get db
  Exists := AuthorStore.Exists db
  Update := AuthorStore.Update db
  Delete := AuthorStore.Delete db
  GetAuthorsBooks := AuthorStore.GetAuthorsBooks db

def BookStore.Create {σ V : Type} (db : DB σ V) (book : Book) (st : σ) :
    (GoError × Book) × σ :=
  match db.Exec
      "INSERT INTO books (id, authors_id, title, genre, isbn) \n\t\t\t\t\t\t\t\tVALUES ($1, $2, $3, $4, $5)"
      [.str book.ID, .str book.AuthorsID, .str book.Title, .str book.Genre,
        .str book.ISBN] st with
  | (some e, st1) => ((some e, book), st1)
  | (none, st1) => ((none, book), st1)

/-- The call `rows.Scan(&book.ID, &book.AuthorsID, &book.Title, &book.Genre, &book.ISBN)` on
a zero `book`. -/
def scanBook {σ V : Type} (db : DB σ V) : List V → Except String Book
  | [c1, c2, c3, c4, c5] =>
    match db.asString c1 with
    | .error e => .error e
    | .ok id =>
      match db.asString c2 with
      | .error e => .error e
      | .ok authorsID =>
        match db.asString c3 with
        | .error e => .error e
        | .ok title =>
          match db.asString c4 with
          | .error e => .error e
          | .ok genre =>
            match db.asString c5 with
            | .error e => .error e
            | .ok isbn => .ok ⟨id, authorsID, title, genre, isbn, Author.zero⟩
  | row => .error (scanArity row.length 5)

def BookStore.Get {σ V : Type} (db : DB σ V) (st : σ) : (Slice Book × GoError) × σ :=
  match db.Query "SELECT * FROM books" [] st with
  | (.error e, st1) => ((none, some e), st1)
  | (.ok rows, st1) => (scanLoop (scanBook db) rows.delivered none, st1)

def BookStore.Exists {σ V : Type} (db : DB σ V) (id : String) (st : σ) : GoError × σ :=
  match db.Query "SELECT EXISTS (SELECT 1 FROM books WHERE id = $1)" [.str id] st with
  | (.error e, st1) => (some e, st1)
  | (.ok rows, st1) => (existsLoop db "book does not exist" rows.delivered, st1)

def BookStore.Update {σ V : Type} (db : DB σ V) (id : String) (book : Book) (st : σ) :
    (GoError × Book) × σ :=
  match db.Exec "UPDATE books SET authors_id = $1, title = $2, genre = $3, ISBN = $4 WHERE id = $5"
      [.str book.AuthorsID, .str book.Title, .str book.Genre, .str book.ISBN, .str id] st with
  | (some e, st1) => ((some e, book), st1)
  | (none, st1) => ((none, book), st1)

def BookStore.Delete {σ V : Type} (db : DB σ V) (id : String) (st : σ) : GoError × σ :=
  match db.Exec "DELETE FROM books WHERE ID = $1" [.str id] st with
  | (some e, st1) => (some e, st1)
  | (none, st1) => (none, st1)

/-- The `*BookStore` over `db`, as the handler's `bookStore`. -/
def NewBookStore {σ V : Type} (db : DB σ V) : handler.bookStore σ where
  Create := BookStore.Create db
  Get := BookStore.Get db
  Delete := BookStore.Delete db
  Update := BookStore.Update db
  Exists := BookStore.Exists db

/-- The call `rows.Scan(&member.ID, &member.FullName)` on a zero `member`. -/
def scanMember {σ V : Type} (db : DB σ V) : List V → Except String Member
  | [c1, c2] =>
    match db.asString c1 with
    | .error e => .error e
    | .ok id =>
      match db.asString c2 with
      | .error e => .error e
      | .ok fullName => .ok ⟨id, fullName⟩
  | row => .error (scanArity row.length 2)

def MemberStore.Get {σ V : Type} (db : DB σ V) (st : σ) : (Slice Member × GoError) × σ :=
  match db.Query "SELECT * FROM members" [] st with
  | (.error e, st1) => ((none, some e), st1)
  | (.ok rows, st1) => (scanLoop (scanMember db) rows.delivered none, st1)

def MemberStore.Create {σ V : Type} (db : DB σ V) (member : Member) (st : σ) :
    (GoError × Member) × σ :=
  match db.Exec "INSERT INTO members(id, full_name) VALUES ($1, $2)"
      [.str member.ID, .str member.FullName] st with
  | (some e, st1) => ((some e, member), st1)
  | (none, st1) => ((none, member), st1)

def MemberStore.Exists {σ V : Type} (db : DB σ V) (id : String) (st : σ) : GoError × σ :=
  match db.Query "SELECT EXISTS (SELECT 1 FROM members WHERE id = $1)" [.str id] st with
  | (.error e, st1) => (some e, st1)
  | (.ok rows, st1) => (existsLoop db "member does not exist" rows.delivered, st1)

def MemberStore.Update {σ V : Type} (db : DB σ V) (id : String) (member : Member) (st : σ) :
    (GoError × Member) × σ :=
  match db.Exec "UPDATE members SET full_name = $1 WHERE id = $2"
      [.str member.FullName, .str id] st with
  | (some e, st1) => ((some e, member), st1)
  | (none, st1) => ((none, member), st1)

def MemberStore.Delete {σ V : Type} (db : DB σ V) (id : String) (st : σ) : GoError × σ :=
  match db.Exec "DELETE FROM members WHERE id = $1" [.str id] st with
  | (some e, st1) => (some e, st1)
  | (none, st1) => (none, st1)

/-- The `*MemberStore` over `db`, as the handler's `memberStore`. -/
def NewMemberStore {σ V : Type} (db : DB σ V) : handler.memberStore σ where
  Create := MemberStore.Create db
  Get := MemberStore.Get db
  Exists := MemberStore.Exists db
  Update := MemberStore.Update db
  Delete := MemberStore.Delete db

def BorrowedStore.Create {σ V : Type} (db : DB σ V) (book : Borrowed) (st : σ) :
    (GoError × Borrowed) × σ :=
  match db.Exec "INSERT INTO borrowed_books (member_id, book_id) VALUES ($1, $2)"
      [.str book.MemberID, .str book.BookID] st with
  | (some e, st1) => ((some e, book), st1)
  | (none, st1) => ((none, book), st1)

/-- The call `rows.Scan(&book.Title, &authorFullName, &book.Genre, &book.ISBN)` on a zero
`book`, followed by `book.Author = model.Author{FullName: authorFullName}`. -/
def scanBorrowed {σ V : Type} (db : DB σ V) : List V → Except String Book
  | [c1, c2, c3, c4] =>
    match db.asString c1 with
    | .error e => .error e
    | .ok title =>
      match db.asNullString c2 with
      | .error e => .error e
      | .ok authorFullName =>
        match db.asString c3 with
        | .error e => .error e
        | .ok genre =>
          match db.asString c4 with
          | .error e => .error e
          | .ok isbn =>
            .ok { Book.zero with
              Title := title, Genre := genre, ISBN := isbn,
              Author := { Author.zero with FullName := authorFullName } }
  | row => .error (scanArity row.length 4)

def BorrowedStore.Get {σ V : Type} (db : DB σ V) (id : String) (st : σ) :
    (Slice Book × GoError) × σ :=
  match db.Query
      "SELECT books.title, authors.full_name, books.genre, books.isbn\n\t\t\t\t\t\t\t\t\tFROM books, authors, borrowed_books\n\t\t\t\t\t\t\t\t\tWHERE (authors.id = books.authors_id \n\t\t\t\t\t\t\t\t\t           AND books.id = borrowed_books.book_id \n\t\t\t\t\t\t\t\t\t           AND borrowed_books.member_id = $1)"
      [.str id] st with
  | (.error e, st1) => ((none, some e), st1)
  | (.ok rows, st1) => (scanLoop (scanBorrowed db) rows.delivered none, st1)

def BorrowedStore.Delete {σ V : Type} (db : DB σ V) (memberId : String) (bookId : String)
    (st : σ) : GoError × σ :=
  match db.Exec "DELETE FROM borrowed_books WHERE member_id = $1 AND book_id = $2"
      [.str memberId, .str bookId] st with
  | (some e, st1) => (some e, st1)
  | (none, st1) => (none, st1)

def BorrowedStore.DeleteList {σ V : Type} (db : DB σ V) (id : String) (books : Slice String)
    (st : σ) : GoError × σ :=
  match db.Exec "DELETE FROM borrowed_books WHERE (member_id = $1 AND book_id = ANY($2))"
      [.str id, .strArray books] st with
  | (some e, st1) => (some e, st1)
  | (none, st1) => (none, st1)

/-- The `*BorrowedStore` over `db`, as the handler's `borrowedStore`. -/
def NewBorrowedStore {σ V : Type} (db : DB σ V) : handler.borrowedStore σ where
  Create := BorrowedStore.Create db
  Get := BorrowedStore.Get db
  Delete := BorrowedStore.Delete db
  DeleteList := BorrowedStore.DeleteList db

end store

namespace sample

open store

/-- A column value of the sample database. -/
inductive Val where
  | null
  | bool (b : Bool)
  | text (s : String)
deriving DecidableEq, Repr

def asBool : Val → Except String Bool
  | .bool b => .ok b
  | _ => .error "sql: Scan error: converting to bool"

def asString : Val → Except String String
  | .text s => .ok s
  | _ => .error "sql: Scan error: converting to string"

def asNullString : Val → Except String (Option String)
  | .null => .ok none
  | .text s => .ok (some s)
  | _ => .error "sql: Scan error: converting to *string"

/-- A database that answers every query with `q` and every exec with `x`; its state counts
the statements it has received. -/
def scripted (q : Except String (Rows Val)) (x : GoError) : DB Nat Val where
  Query := fun _ _ n => (q, n + 1)
  Exec := fun _ _ n => (x, n + 1)
  asBool := asBool
  asString := asString
  asNullString := asNullString

/-- A request context whose body decoded to `v` and whose route parameters are all `"7"`. -/
def parsed {α : Type} (v : α) : fiber.Ctx α := ⟨.ok v, fun _ => "7"⟩

/-- A request context whose body failed to decode. -/
def malformed (α : Type) : fiber.Ctx α :=
  ⟨.error "unexpected end of JSON input", fun _ => "7"⟩

def author : model.Author := ⟨"from-body", some "John Doe", "johndoe123", "Writer"⟩

def book : model.Book := ⟨"from-body", "a1", "perfect book title", "fantasy", "978", model.Author.zero⟩

def member : model.Member := ⟨"from-body", "Samir Kenzhe"⟩

def borrowed : model.Borrowed := ⟨"m1", "b1"⟩

/-- The text lib/pq reports when a delete is refused by a foreign key. -/
def fkText : String :=
  "pq: update or delete on table \"authors\" violates foreign key constraint \"books_authors_id_fkey\" on table \"books\""

end sample

/-- The slice reached from the nil slice by appending the elements of `l` one at a time:
nil when there is nothing to append. -/
def Slice.ofList {α : Type} : List α → Slice α
  | [] => none
  | x :: xs => some (x :: xs)

namespace handler

/-- The name of the `authorStore` method a call invokes. -/
def AuthorCall.op : AuthorCall → String
  | .Create _ => "Create"
  | .Get => "Get"
  | .Exists _ => "Exists"
  | .Update _ _ => "Update"
  | .Delete _ => "Delete"
  | .GetAuthorsBooks _ => "GetAuthorsBooks"

/-- The name of the `bookStore` method a call invokes. -/
def BookCall.op : BookCall → String
  | .Create _ => "Create"
  | .Get => "Get"
  | .Delete _ => "Delete"
  | .Update _ _ => "Update"
  | .Exists _ => "Exists"

/-- The name of the `memberStore` method a call invokes. -/
def MemberCall.op : MemberCall → String
  | .Create _ => "Create"
  | .Get => "Get"
  | .Exists _ => "Exists"
  | .Update _ _ => "Update"
  | .Delete _ => "Delete"

/-- The name of the `borrowedStore` method a call invokes. -/
def BorrowedCall.op : BorrowedCall → String
  | .Create _ => "Create"
  | .Get _ => "Get"
  | .Delete _ _ => "Delete"
  | .DeleteList _ _ => "DeleteList"

end handler

namespace store

/-- A statement as the database receives it: its text and its parameters. -/
abbrev Stmt := String × List SqlArg

/-- The database `db` with a journal: it answers as `db` does and appends every statement it
receives, query or exec, to the list kept beside the state of `db`. -/
def journaled {σ V : Type} (db : DB σ V) : DB (σ × List Stmt) V where
  Query := fun q args st => ((db.Query q args st.1).1, ((db.Query q args st.1).2, st.2 ++ [(q, args)]))
  Exec := fun q args st => ((db.Exec q args st.1).1, ((db.Exec q args st.1).2, st.2 ++ [(q, args)]))
  asBool := db.asBool
  asString := db.asString
  asNullString := db.asNullString

end store

namespace fiber

/-- Every string a response body carries: the keys and values of a `fiber.Map`, or the
string fields of the entities of a slice payload. -/
def Body.texts : Body → List String
  | .map kvs => kvs.map Prod.fst ++ kvs.map Prod.snd
  | .authors l =>
    (Slice.elems l).flatMap fun a => [a.ID, a.FullName.getD "", a.NickName, a.Specialization]
  | .books l =>
    (Slice.elems l).flatMap fun b =>
      [b.ID, b.AuthorsID, b.Title, b.Genre, b.ISBN, b.Author.ID, b.Author.FullName.getD "",
        b.Author.NickName, b.Author.Specialization]
  | .members l => (Slice.elems l).flatMap fun m => [m.ID, m.FullName]
  | .strings l => Slice.elems l

/-- True when some string of the body contains `t`. -/
def Body.containsText (b : Body) (t : String) : Bool :=
  b.texts.any fun s => strings.Contains s t

end fiber

namespace app

open fiber

/-- The `healthcheck` handler of the server; `Ping` is `s.postgres.Ping` as a state
machine. -/
def healthcheck {σ α : Type} (Ping : σ → GoError × σ) (_c : Ctx α) (st : σ) :
    Response × σ :=
  match Ping st with
  | (some _, st1) =>
    (⟨StatusInternalServerError, .map [("error", "error pinging database")]⟩, st1)
  | (none, st1) => (⟨StatusOK, .map [("message", "OK")]⟩, st1)

/-- The handler values `router` binds to routes. -/
inductive Handler where
  | healthcheck
  | authorHandlerGet
  | authorHandlerCreate
  | authorHandlerUpdate
  | authorHandlerDelete
  | authorHandlerGetAuthorBooks
  | bookHandlerGet
  | bookHandlerCreate
  | bookHandlerUpdate
  | bookHandlerDelete
  | memberHandlerGet
  | memberHandlerCreate
  | memberHandlerUpdate
  | memberHandlerDelete
  | borrowedHandlerGet
  | borrowedHandlerCreate
  | borrowedHandlerDelete
  | borrowedHandlerDeleteList
deriving DecidableEq, Repr

/-- A route of the application: the method, the path as written at registration, and the
handler bound to them. -/
structure Route where
  Method : String
  path : String
  handler : Handler
deriving DecidableEq, Repr

/-- The route stack of a `*fiber.App`, in registration order. -/
abbrev App := List Route

/-- The framework's `app.Add(method, path, h)`: one more route. -/
def App.Add (a : App) (method path : String) (h : Handler) : App :=
  a ++ [⟨method, path, h⟩]

/-- The framework's `app.Head(path, h)`. -/
def App.Head (a : App) (path : String) (h : Handler) : App :=
  App.Add a "HEAD" path h

/-- The framework's `app.Get(path, h)`, which is `app.Head(path, h).Add("GET", path, h)`:
the path is registered for HEAD as well as for GET, with the same handler. -/
def App.Get (a : App) (path : String) (h : Handler) : App :=
  App.Add (App.Head a path h) "GET" path h

/-- The framework's `app.Post(path, h)`. -/
def App.Post (a : App) (path : String) (h : Handler) : App :=
  App.Add a "POST" path h

/-- The framework's `app.Patch(path, h)`. -/
def App.Patch (a : App) (path : String) (h : Handler) : App :=
  App.Add a "PATCH" path h

/-- The framework's `app.Delete(path, h)`. -/
def App.Delete (a : App) (path : String) (h : Handler) : App :=
  App.Add a "DELETE" path h

/-- The `router` method of the server, on the route stack `s.app` has when it is called. -/
def router (a0 : App) : App :=
  let a := App.Get a0 "/healthz" .healthcheck
  let a := App.Get a "/authors" .authorHandlerGet
  let a := App.Post a "/author" .authorHandlerCreate
  let a := App.Patch a "/author/:id" .authorHandlerUpdate
  let a := App.Delete a "/author/:id" .authorHandlerDelete
  let a := App.Get a "/author/:id/books" .authorHandlerGetAuthorBooks
  let a := App.Get a "/books" .bookHandlerGet
  let a := App.Post a "/book" .bookHandlerCreate
  let a := App.Patch a "/book/:id" .bookHandlerUpdate
  let a := App.Delete a "/book/:id" .bookHandlerDelete
  let a := App.Get a "/members" .memberHandlerGet
  let a := App.Post a "/member" .memberHandlerCreate
  let a := App.Patch a "/member/:id" .memberHandlerUpdate
  let a := App.Delete a "/member/:id" .memberHandlerDelete
  let a := App.Get a "/member/:id/borrowed" .borrowedHandlerGet
  let a := App.Post a "/member/borrowed" .borrowedHandlerCreate
  let a := App.Delete a "/member/:id/borrowed/:book_id" .borrowedHandlerDelete
  App.Delete a "/member/:id/borrowed" .borrowedHandlerDeleteList

/-- The interface table of the specification (section 6), row by row in the order of the
table, each row with the handler its entity and verb imply; a row written with `:id` in the
table is the pattern of the same shape. -/
def specInterfaceTable : List Route :=
  [⟨"GET", "/authors", .authorHandlerGet⟩,
   ⟨"POST", "/author", .authorHandlerCreate⟩,
   ⟨"PATCH", "/author/:id", .authorHandlerUpdate⟩,
   ⟨"DELETE", "/author/:id", .authorHandlerDelete⟩,
   ⟨"GET", "/author/:id/books", .authorHandlerGetAuthorBooks⟩,
   ⟨"GET", "/books", .bookHandlerGet⟩,
   ⟨"POST", "/book", .bookHandlerCreate⟩,
   ⟨"PATCH", "/book/:id", .bookHandlerUpdate⟩,
   ⟨"DELETE", "/book/:id", .bookHandlerDelete⟩,
   ⟨"GET", "/members", .memberHandlerGet⟩,
   ⟨"POST", "/member", .memberHandlerCreate⟩,
   ⟨"PATCH", "/member/:id", .memberHandlerUpdate⟩,
   ⟨"DELETE", "/member/:id", .memberHandlerDelete⟩,
   ⟨"GET", "/member/:id/borrowed", .borrowedHandlerGet⟩,
   ⟨"POST", "/member/borrowed", .borrowedHandlerCreate⟩,
   ⟨"DELETE", "/member/:id/borrowed/:book_id", .borrowedHandlerDelete⟩,
   ⟨"DELETE", "/member/:id/borrowed", .borrowedHandlerDeleteList⟩,
   ⟨"GET", "/healthz", .healthcheck⟩]

/-- The HEAD routes that registering the GET rows of a table brings with it: one for each
GET row, on the same path and with the same handler. -/
def headTwins (table : List Route) : List Route :=
  (table.filter fun r => r.Method == "GET").map fun r => ⟨"HEAD", r.path, r.handler⟩

/-- A segment of a route pattern: a literal, or a parameter written `:name`. -/
inductive Seg where
  | lit (s : List Char)
  | param (name : List Char)
deriving DecidableEq, Repr

/-- The pieces of a list of characters between its `/` characters. -/
def splitSlash : List Char → List (List Char)
  | [] => [[]]
  | c :: cs =>
    match splitSlash cs with
    | [] => if c = '/' then [[], []] else [[c]]
    | seg :: segs => if c = '/' then [] :: seg :: segs else (c :: seg) :: segs

/-- The text without its trailing `/` characters. -/
def trimRightSlash (p : List Char) : List Char :=
  (p.reverse.dropWhile fun c => c == '/').reverse

/-- The path the framework matches on when `CaseSensitive` and `StrictRouting` are off, as
they are in the `fiber.Config` of `generate`: in lower case, and without trailing slashes
when it is longer than one character.  The framework treats a registered path and a request
path alike. -/
def detectionPath (path : String) : List Char :=
  if (path.data.map Char.toLower).length > 1 then
    trimRightSlash (path.data.map Char.toLower)
  else path.data.map Char.toLower

/-- The segments of a path or pattern that starts with `/`: the pieces of its detection path
after the leading slash. -/
def segments (path : String) : List (List Char) :=
  (splitSlash (detectionPath path)).drop 1

/-- A pattern segment read from its text. -/
def Seg.parse : List Char → Seg
  | ':' :: name => .param name
  | s => .lit s

/-- The pattern of a registered path. -/
def pattern (path : String) : List Seg :=
  (segments path).map Seg.parse

/-- A literal matches the equal segment; a parameter matches any one non-empty segment. -/
def Seg.accepts : Seg → List Char → Bool
  | .lit s, x => s == x
  | .param _, x => !x.isEmpty

/-- A pattern matches a path of as many segments, segment by segment. -/
def accepts : List Seg → List (List Char) → Bool
  | [], [] => true
  | p :: ps, x :: xs => p.accepts x && accepts ps xs
  | _, _ => false

/-- The route matches a request of the given method and path: the method is the route's,
and the pattern of the route matches the detection path of the request. -/
def Route.accepts (r : Route) (method path : String) : Bool :=
  r.Method == method && app.accepts (pattern r.path) (segments path)

/-- Two pattern segments that can match one and the same segment. -/
def Seg.overlaps : Seg → Seg → Bool
  | .lit a, .lit b => a == b
  | _, _ => true

/-- Two patterns that can match one and the same path. -/
def overlaps : List Seg → List Seg → Bool
  | [], [] => true
  | p :: ps, q :: qs => p.overlaps q && overlaps ps qs
  | _, _ => false

end app

namespace store

/-- The three tables the create and list handlers touch, each a list of rows; a row is the
parameter list of the INSERT that made it. -/
structure Tables where
  authors : List (List SqlArg)
  books : List (List SqlArg)
  members : List (List SqlArg)

/-- True when the statement `q` is an INSERT into `table`. -/
def insertsInto (table q : String) : Bool :=
  strings.startsWith ("INSERT INTO " ++ table).data q.data

/-- The table model of the database: an INSERT the database accepts (`refuse` answers nil)
appends its parameters as a row to its table, an INSERT it refuses changes nothing and
returns the refusal, `SELECT * FROM t` returns the rows of `t` in order, and a column reads
back as the parameter that was stored. -/
def tableDB (refuse : Stmt → GoError) : DB Tables SqlArg where
  Query := fun q _ t =>
    if q = "SELECT * FROM authors" then (.ok ⟨t.authors, none⟩, t)
    else if q = "SELECT * FROM books" then (.ok ⟨t.books, none⟩, t)
    else if q = "SELECT * FROM members" then (.ok ⟨t.members, none⟩, t)
    else (.error "unsupported query", t)
  Exec := fun q args t =>
    match refuse (q, args) with
    | some e => (some e, t)
    | none =>
      if insertsInto "authors" q then (none, { t with authors := t.authors ++ [args] })
      else if insertsInto "books" q then (none, { t with books := t.books ++ [args] })
      else if insertsInto "members" q then (none, { t with members := t.members ++ [args] })
      else (none, t)
  asBool := fun _ => .error "sql: Scan error: converting to bool"
  asString := fun
    | .str s => .ok s
    | _ => .error "sql: Scan error: converting to string"
  asNullString := fun
    | .nullStr s => .ok s
    | .str s => .ok (some s)
    | _ => .error "sql: Scan error: converting to *string"

/-- The row an author INSERT stores. -/
def authorRow (a : model.Author) : List SqlArg :=
  [.str a.ID, .nullStr a.FullName, .str a.NickName, .str a.Specialization]

/-- The row a book INSERT stores. -/
def bookRow (b : model.Book) : List SqlArg :=
  [.str b.ID, .str b.AuthorsID, .str b.Title, .str b.Genre, .str b.ISBN]

/-- The row a member INSERT stores. -/
def memberRow (m : model.Member) : List SqlArg :=
  [.str m.ID, .str m.FullName]

/-- Tables whose rows were all stored by INSERTs of the three stores. -/
def Tables.stored (t : Tables) : Prop :=
  (∀ row ∈ t.authors, ∃ a, row = authorRow a) ∧
  (∀ row ∈ t.books, ∃ b, row = bookRow b) ∧
  (∀ row ∈ t.members, ∃ m, row = memberRow m)

end store

namespace sample

/-- A book body that carries an author object. -/
def bookWithAuthor : model.Book :=
  ⟨"", "a1", "perfect book title", "fantasy", "978", ⟨"", some "John Doe", "", ""⟩⟩

/-- Tables with no row. -/
def emptyTables : store.Tables := ⟨[], [], []⟩

/-- A database that refuses nothing. -/
def accepting : store.DB store.Tables store.SqlArg := store.tableDB fun _ => none

end sample

namespace handler

open model

/-- The author store `s` with a journal: it answers as `s` does and appends every call it
receives, with its arguments, to the list kept beside the state of `s`. -/
def authorStore.journaled {σ : Type} (s : authorStore σ) :
    authorStore (σ × List AuthorCall) where
  Create := fun a st => ((s.Create a st.1).1, ((s.Create a st.1).2, st.2 ++ [.Create a]))
  Get := fun st => ((s.Get st.1).1, ((s.Get st.1).2, st.2 ++ [.Get]))
  Exists := fun id st => ((s.Exists id st.1).1, ((s.Exists id st.1).2, st.2 ++ [.Exists id]))
  Update := fun id a st =>
    ((s.Update id a st.1).1, ((s.Update id a st.1).2, st.2 ++ [.Update id a]))
  Delete := fun id st => ((s.Delete id st.1).1, ((s.Delete id st.1).2, st.2 ++ [.Delete id]))
  GetAuthorsBooks := fun id st =>
    ((s.GetAuthorsBooks id st.1).1,
      ((s.GetAuthorsBooks id st.1).2, st.2 ++ [.GetAuthorsBooks id]))

/-- The book store `s` with a journal of the calls it receives. -/
def bookStore.journaled {σ : Type} (s : bookStore σ) : bookStore (σ × List BookCall) where
  Create := fun b st => ((s.Create b st.1).1, ((s.Create b st.1).2, st.2 ++ [.Create b]))
  Get := fun st => ((s.Get st.1).1, ((s.Get st.1).2, st.2 ++ [.Get]))
  Delete := fun id st => ((s.Delete id st.1).1, ((s.Delete id st.1).2, st.2 ++ [.Delete id]))
  Update := fun id b st =>
    ((s.Update id b st.1).1, ((s.Update id b st.1).2, st.2 ++ [.Update id b]))
  Exists := fun id st => ((s.Exists id st.1).1, ((s.Exists id st.1).2, st.2 ++ [.Exists id]))

/-- The member store `s` with a journal of the calls it receives. -/
def memberStore.journaled {σ : Type} (s : memberStore σ) :
    memberStore (σ × List MemberCall) where
  Create := fun m st => ((s.Create m st.1).1, ((s.Create m st.1).2, st.2 ++ [.Create m]))
  Get := fun st => ((s.Get st.1).1, ((s.Get st.1).2, st.2 ++ [.Get]))
  Exists := fun id st => ((s.Exists id st.1).1, ((s.Exists id st.1).2, st.2 ++ [.Exists id]))
  Update := fun id m st =>
    ((s.Update id m st.1).1, ((s.Update id m st.1).2, st.2 ++ [.Update id m]))
  Delete := fun id st => ((s.Delete id st.1).1, ((s.Delete id st.1).2, st.2 ++ [.Delete id]))

/-- The borrowed store `s` with a journal of the calls it receives. -/
def borrowedStore.journaled {σ : Type} (s : borrowedStore σ) :
    borrowedStore (σ × List BorrowedCall) where
  Create := fun b st => ((s.Create b st.1).1, ((s.Create b st.1).2, st.2 ++ [.Create b]))
  Get := fun id st => ((s.Get id st.1).1, ((s.Get id st.1).2, st.2 ++ [.Get id]))
  Delete := fun m b st =>
    ((s.Delete m b st.1).1, ((s.Delete m b st.1).2, st.2 ++ [.Delete m b]))
  DeleteList := fun m bs st =>
    ((s.DeleteList m bs st.1).1, ((s.DeleteList m bs st.1).2, st.2 ++ [.DeleteList m bs]))

end handler

namespace store

/-- The table model of the existence query: over a table whose rows have the ids `ids`,
`SELECT EXISTS (SELECT 1 FROM t WHERE id = $1)` answers with one row of one boolean column,
true when some row of the table has the id asked for.  Nothing else is answered. -/
def existsDB (ids : List String) : DB Unit Bool where
  Query := fun _ args st =>
    match args with
    | [.str id] => (.ok ⟨[[ids.contains id]], none⟩, st)
    | _ => (.error "unsupported query", st)
  Exec := fun _ _ st => (some "unsupported statement", st)
  asBool := fun b => .ok b
  asString := fun _ => .error "sql: Scan error: converting to string"
  asNullString := fun _ => .error "sql: Scan error: converting to *string"

end store

/-! ## Theorems -/

namespace handler

open model fiber

/-- C1. Update on an id whose existence check fails: for the Author, Book and Member Update
handlers, whenever the body parsed and `Exists(id)` returns a non-nil error, the response
status is 404 and the store is left in the state `Exists` left it in; a store that keeps a
journal of the calls it receives has received that one `Exists` and nothing else, so no
`Update`; the handler's own record of its calls says the same. -/
theorem update_not_found_skips_update :
    (∀ {σ : Type} (s : authorStore σ) (c : Ctx Author) (st : σ) (b : Author),
      c.BodyParser = .ok b → (s.Exists (c.Params "id") st).1 ≠ none →
      (AuthorHandler.Update s c st).resp.status = 404 ∧
      (AuthorHandler.Update s c st).st = (s.Exists (c.Params "id") st).2 ∧
      (∀ log, (AuthorHandler.Update s.journaled c (st, log)).st =
        ((s.Exists (c.Params "id") st).2, log ++ [.Exists (c.Params "id")])) ∧
      (∀ log i x, AuthorCall.Update i x ∉ log →
        AuthorCall.Update i x ∉ (AuthorHandler.Update s.journaled c (st, log)).st.2) ∧
      (AuthorHandler.Update s c st).calls = [.Exists (c.Params "id")] ∧
      ∀ i x, AuthorCall.Update i x ∉ (AuthorHandler.Update s c st).calls) ∧
    (∀ {σ : Type} (s : bookStore σ) (c : Ctx Book) (st : σ) (b : Book),
      c.BodyParser = .ok b → (s.Exists (c.Params "id") st).1 ≠ none →
      (BookHandler.Update s c st).resp.status = 404 ∧
      (BookHandler.Update s c st).st = (s.Exists (c.Params "id") st).2 ∧
      (∀ log, (BookHandler.Update s.journaled c (st, log)).st =
        ((s.Exists (c.Params "id") st).2, log ++ [.Exists (c.Params "id")])) ∧
      (∀ log i x, BookCall.Update i x ∉ log →
        BookCall.Update i x ∉ (BookHandler.Update s.journaled c (st, log)).st.2) ∧
      (BookHandler.Update s c st).calls = [.Exists (c.Params "id")] ∧
      ∀ i x, BookCall.Update i x ∉ (BookHandler.Update s c st).calls) ∧
    (∀ {σ : Type} (s : memberStore σ) (c : Ctx Member) (st : σ) (b : Member),
      c.BodyParser = .ok b → (s.Exists (c.Params "id") st).1 ≠ none →
      (MemberHandler.Update s c st).resp.status = 404 ∧
      (MemberHandler.Update s c st).st = (s.Exists (c.Params "id") st).2 ∧
      (∀ log, (MemberHandler.Update s.journaled c (st, log)).st =
        ((s.Exists (c.Params "id") st).2, log ++ [.Exists (c.Params "id")])) ∧
      (∀ log i x, MemberCall.Update i x ∉ log →
        MemberCall.Update i x ∉ (MemberHandler.Update s.journaled c (st, log)).st.2) ∧
      (MemberHandler.Update s c st).calls = [.Exists (c.Params "id")] ∧
      ∀ i x, MemberCall.Update i x ∉ (MemberHandler.Update s c st).calls) := by
  refine ⟨?_, ?_, ?_⟩
  · intro σ s c st b hb hex
    rcases h : s.Exists (c.Params "id") st with ⟨_ | e, st1⟩
    · simp [h] at hex
    · refine ⟨?_, ?_, ?_, ?_, ?_, ?_⟩
      · simp [AuthorHandler.Update, hb, h, StatusNotFound]
      · simp [AuthorHandler.Update, hb, h]
      · intro log
        simp [AuthorHandler.Update, authorStore.journaled, hb, h]
      · intro log i x hlog
        simp [AuthorHandler.Update, authorStore.journaled, hb, h, hlog]
      · simp [AuthorHandler.Update, hb, h]
      · simp [AuthorHandler.Update, hb, h]
  · intro σ s c st b hb hex
    rcases h : s.Exists (c.Params "id") st with ⟨_ | e, st1⟩
    · simp [h] at hex
    · refine ⟨?_, ?_, ?_, ?_, ?_, ?_⟩
      · simp [BookHandler.Update, hb, h, StatusNotFound]
      · simp [BookHandler.Update, hb, h]
      · intro log
        simp [BookHandler.Update, bookStore.journaled, hb, h]
      · intro log i x hlog
        simp [BookHandler.Update, bookStore.journaled, hb, h, hlog]
      · simp [BookHandler.Update, hb, h]
      · simp [BookHandler.Update, hb, h]
  · intro σ s c st b hb hex
    rcases h : s.Exists (c.Params "id") st with ⟨_ | e, st1⟩
    · simp [h] at hex
    · refine ⟨?_, ?_, ?_, ?_, ?_, ?_⟩
      · simp [MemberHandler.Update, hb, h, StatusNotFound]
      · simp [MemberHandler.Update, hb, h]
      · intro log
        simp [MemberHandler.Update, memberStore.journaled, hb, h]
      · intro log i x hlog
        simp [MemberHandler.Update, memberStore.journaled, hb, h, hlog]
      · simp [MemberHandler.Update, hb, h]
      · simp [MemberHandler.Update, hb, h]

/-- Witness for C1: an author update against a database whose existence row is false; the
journal of the store holds the existence check only and the database has seen one
statement. -/
theorem update_not_found_skips_update_witness :
    (AuthorHandler.Update
        (store.NewAuthorStore (sample.scripted (.ok ⟨[[.bool false]], none⟩) none))
        (sample.parsed sample.author) 0).resp.status = 404 ∧
    (AuthorHandler.Update
        (store.NewAuthorStore (sample.scripted (.ok ⟨[[.bool false]], none⟩) none))
        (sample.parsed sample.author) 0).st = 1 ∧
    (AuthorHandler.Update
        (store.NewAuthorStore
          (sample.scripted (.ok ⟨[[.bool false]], none⟩) none)).journaled
        (sample.parsed sample.author) (0, [])).st = (1, [.Exists "7"]) :=
  ⟨(update_not_found_skips_update.1
      (store.NewAuthorStore (sample.scripted (.ok ⟨[[.bool false]], none⟩) none))
      (sample.parsed sample.author) 0 sample.author rfl (by decide)).1,
    (update_not_found_skips_update.1
      (store.NewAuthorStore (sample.scripted (.ok ⟨[[.bool false]], none⟩) none))
      (sample.parsed sample.author) 0 sample.author rfl (by decide)).2.1,
    (update_not_found_skips_update.1
      (store.NewAuthorStore (sample.scripted (.ok ⟨[[.bool false]], none⟩) none))
      (sample.parsed sample.author) 0 sample.author rfl (by decide)).2.2.1 []⟩

end handler

namespace store

/-- The existence loop returns nil exactly when every delivered row scans to `true`; in
particular it returns nil when no row is delivered. -/
theorem existsLoop_eq_none_iff {σ V : Type} (db : DB σ V) (notExist : String)
    (rows : List (List V)) :
    existsLoop db notExist rows = none ↔ ∀ row ∈ rows, scanExists db row = .ok true := by
  induction rows with
  | nil => simp [existsLoop]
  | cons row rest ih =>
    cases h : scanExists db row with
    | error e => simp [existsLoop, h]
    | ok found =>
      cases found with
      | false => simp [existsLoop, h]
      | true => simp [existsLoop, h, ih]

/-- C2. `Exists` succeeds only on a matching row: for the Author, Book and Member stores,
a query failure gives a non-nil error, and on the one-row result the existence query yields,
`Exists` returns nil exactly when that row scans to true, a row that scans to false (no row
of the table matches) gives a non-nil error, and so does a row that fails to scan.  Over a
table of rows with unique ids, `Exists` returns nil exactly when one row has the id, and the
"does not exist" error when none has. -/
theorem exists_succeeds_only_on_a_matching_row :
    (∀ {σ V : Type} (db : DB σ V) (id : String) (st st1 : σ),
      (∀ e, db.Query "SELECT EXISTS (SELECT 1 FROM authors WHERE id = $1)" [.str id] st = (.error e, st1) →
        (AuthorStore.Exists db id st).1 ≠ none) ∧
      (∀ (rows : Rows V) (row : List V),
        db.Query "SELECT EXISTS (SELECT 1 FROM authors WHERE id = $1)" [.str id] st = (.ok rows, st1) →
        rows.delivered = [row] →
        ((AuthorStore.Exists db id st).1 = none ↔ scanExists db row = .ok true) ∧
        (scanExists db row = .ok false → (AuthorStore.Exists db id st).1 ≠ none) ∧
        (∀ e, scanExists db row = .error e → (AuthorStore.Exists db id st).1 ≠ none))) ∧
    (∀ (ids : List String) (id : String),
      ((AuthorStore.Exists (existsDB ids) id ()).1 = none ↔ id ∈ ids) ∧
      (ids.Nodup → ((AuthorStore.Exists (existsDB ids) id ()).1 = none ↔ ids.count id = 1)) ∧
      (ids.count id = 0 →
        (AuthorStore.Exists (existsDB ids) id ()).1 = some "author does not exist")) ∧
    (∀ {σ V : Type} (db : DB σ V) (id : String) (st st1 : σ),
      (∀ e, db.Query "SELECT EXISTS (SELECT 1 FROM books WHERE id = $1)" [.str id] st = (.error e, st1) →
        (BookStore.Exists db id st).1 ≠ none) ∧
      (∀ (rows : Rows V) (row : List V),
        db.Query "SELECT EXISTS (SELECT 1 FROM books WHERE id = $1)" [.str id] st = (.ok rows, st1) →
        rows.delivered = [row] →
        ((BookStore.Exists db id st).1 = none ↔ scanExists db row = .ok true) ∧
        (scanExists db row = .ok false → (BookStore.Exists db id st).1 ≠ none) ∧
        (∀ e, scanExists db row = .error e → (BookStore.Exists db id st).1 ≠ none))) ∧
    (∀ (ids : List String) (id : String),
      ((BookStore.Exists (existsDB ids) id ()).1 = none ↔ id ∈ ids) ∧
      (ids.Nodup → ((BookStore.Exists (existsDB ids) id ()).1 = none ↔ ids.count id = 1)) ∧
      (ids.count id = 0 →
        (BookStore.Exists (existsDB ids) id ()).1 = some "book does not exist")) ∧
    (∀ {σ V : Type} (db : DB σ V) (id : String) (st st1 : σ),
      (∀ e, db.Query "SELECT EXISTS (SELECT 1 FROM members WHERE id = $1)" [.str id] st = (.error e, st1) →
        (MemberStore.Exists db id st).1 ≠ none) ∧
      (∀ (rows : Rows V) (row : List V),
        db.Query "SELECT EXISTS (SELECT 1 FROM members WHERE id = $1)" [.str id] st = (.ok rows, st1) →
        rows.delivered = [row] →
        ((MemberStore.Exists db id st).1 = none ↔ scanExists db row = .ok true) ∧
        (scanExists db row = .ok false → (MemberStore.Exists db id st).1 ≠ none) ∧
        (∀ e, scanExists db row = .error e → (MemberStore.Exists db id st).1 ≠ none))) ∧
    (∀ (ids : List String) (id : String),
      ((MemberStore.Exists (existsDB ids) id ()).1 = none ↔ id ∈ ids) ∧
      (ids.Nodup → ((MemberStore.Exists (existsDB ids) id ()).1 = none ↔ ids.count id = 1)) ∧
      (ids.count id = 0 →
        (MemberStore.Exists (existsDB ids) id ()).1 = some "member does not exist")) := by
  refine ⟨?_, ?_, ?_, ?_, ?_, ?_⟩
  · intro σ V db id st st1
    refine ⟨fun e hq => by simp [AuthorStore.Exists, hq], ?_⟩
    intro rows row hq hrows
    cases h : scanExists db row with
    | error e => simp [AuthorStore.Exists, hq, hrows, existsLoop, h]
    | ok found => cases found <;> simp [AuthorStore.Exists, hq, hrows, existsLoop, h]
  · intro ids id
    have hmem : (AuthorStore.Exists (existsDB ids) id ()).1 = none ↔ id ∈ ids := by
      by_cases hin : id ∈ ids <;>
        simp [AuthorStore.Exists, existsDB, existsLoop, scanExists, hin]
    refine ⟨hmem, ?_, ?_⟩
    · intro hnd
      rw [hmem]
      constructor
      · exact fun h => List.count_eq_one_of_mem hnd h
      · intro h
        exact List.count_pos_iff.1 (by omega)
    · intro hc
      have hin : id ∉ ids := List.count_eq_zero.1 hc
      simp [AuthorStore.Exists, existsDB, existsLoop, scanExists, hin]
  · intro σ V db id st st1
    refine ⟨fun e hq => by simp [BookStore.Exists, hq], ?_⟩
    intro rows row hq hrows
    cases h : scanExists db row with
    | error e => simp [BookStore.Exists, hq, hrows, existsLoop, h]
    | ok found => cases found <;> simp [BookStore.Exists, hq, hrows, existsLoop, h]
  · intro ids id
    have hmem : (BookStore.Exists (existsDB ids) id ()).1 = none ↔ id ∈ ids := by
      by_cases hin : id ∈ ids <;>
        simp [BookStore.Exists, existsDB, existsLoop, scanExists, hin]
    refine ⟨hmem, ?_, ?_⟩
    · intro hnd
      rw [hmem]
      constructor
      · exact fun h => List.count_eq_one_of_mem hnd h
      · intro h
        exact List.count_pos_iff.1 (by omega)
    · intro hc
      have hin : id ∉ ids := List.count_eq_zero.1 hc
      simp [BookStore.Exists, existsDB, existsLoop, scanExists, hin]
  · intro σ V db id st st1
    refine ⟨fun e hq => by simp [MemberStore.Exists, hq], ?_⟩
    intro rows row hq hrows
    cases h : scanExists db row with
    | error e => simp [MemberStore.Exists, hq, hrows, existsLoop, h]
    | ok found => cases found <;> simp [MemberStore.Exists, hq, hrows, existsLoop, h]
  · intro ids id
    have hmem : (MemberStore.Exists (existsDB ids) id ()).1 = none ↔ id ∈ ids := by
      by_cases hin : id ∈ ids <;>
        simp [MemberStore.Exists, existsDB, existsLoop, scanExists, hin]
    refine ⟨hmem, ?_, ?_⟩
    · intro hnd
      rw [hmem]
      constructor
      · exact fun h => List.count_eq_one_of_mem hnd h
      · intro h
        exact List.count_pos_iff.1 (by omega)
    · intro hc
      have hin : id ∉ ids := List.count_eq_zero.1 hc
      simp [MemberStore.Exists, existsDB, existsLoop, scanExists, hin]

/-- Witness for C2: a book existence query answered with a false row, and one answered with a
true row. -/
theorem exists_succeeds_only_on_a_matching_row_witness :
    (BookStore.Exists (sample.scripted (.ok ⟨[[.bool false]], none⟩) none) "7" 0).1 ≠ none ∧
    (BookStore.Exists (sample.scripted (.ok ⟨[[.bool true]], none⟩) none) "7" 0).1 = none :=
  ⟨((exists_succeeds_only_on_a_matching_row.2.2.1
      (sample.scripted (.ok ⟨[[.bool false]], none⟩) none) "7" 0 1).2
      ⟨[[.bool false]], none⟩ [.bool false] rfl rfl).2.1 rfl,
    (((exists_succeeds_only_on_a_matching_row.2.2.1
      (sample.scripted (.ok ⟨[[.bool true]], none⟩) none) "7" 0 1).2
      ⟨[[.bool true]], none⟩ [.bool true] rfl rfl).1).2 rfl⟩

end store

namespace handler

open model fiber

/-- C3. A body that fails to parse: for the Author, Book, Member and Borrowed Create
handlers, the Author, Book and Member Update handlers and the bulk DeleteList handler, the
response status is 400, no store operation is called and the store state is untouched,
whatever the store would have answered (so also when the id does not exist). -/
theorem malformed_body_is_400_before_any_store_call :
    (∀ {σ : Type} (s : authorStore σ) (c : Ctx Author) (g : String) (st : σ) (e : String),
      c.BodyParser = .error e →
      (AuthorHandler.Create s c g st).resp.status = 400 ∧
      (AuthorHandler.Create s c g st).calls = [] ∧ (AuthorHandler.Create s c g st).st = st) ∧
    (∀ {σ : Type} (s : bookStore σ) (c : Ctx Book) (g : String) (st : σ) (e : String),
      c.BodyParser = .error e →
      (BookHandler.Create s c g st).resp.status = 400 ∧
      (BookHandler.Create s c g st).calls = [] ∧ (BookHandler.Create s c g st).st = st) ∧
    (∀ {σ : Type} (s : memberStore σ) (c : Ctx Member) (g : String) (st : σ) (e : String),
      c.BodyParser = .error e →
      (MemberHandler.Create s c g st).resp.status = 400 ∧
      (MemberHandler.Create s c g st).calls = [] ∧ (MemberHandler.Create s c g st).st = st) ∧
    (∀ {σ : Type} (s : borrowedStore σ) (c : Ctx Borrowed) (st : σ) (e : String),
      c.BodyParser = .error e →
      (BorrowedHandler.Create s c st).resp.status = 400 ∧
      (BorrowedHandler.Create s c st).calls = [] ∧ (BorrowedHandler.Create s c st).st = st) ∧
    (∀ {σ : Type} (s : authorStore σ) (c : Ctx Author) (st : σ) (e : String),
      c.BodyParser = .error e →
      (AuthorHandler.Update s c st).resp.status = 400 ∧
      (AuthorHandler.Update s c st).calls = [] ∧ (AuthorHandler.Update s c st).st = st) ∧
    (∀ {σ : Type} (s : bookStore σ) (c : Ctx Book) (st : σ) (e : String),
      c.BodyParser = .error e →
      (BookHandler.Update s c st).resp.status = 400 ∧
      (BookHandler.Update s c st).calls = [] ∧ (BookHandler.Update s c st).st = st) ∧
    (∀ {σ : Type} (s : memberStore σ) (c : Ctx Member) (st : σ) (e : String),
      c.BodyParser = .error e →
      (MemberHandler.Update s c st).resp.status = 400 ∧
      (MemberHandler.Update s c st).calls = [] ∧ (MemberHandler.Update s c st).st = st) ∧
    (∀ {σ : Type} (s : borrowedStore σ) (c : Ctx (Slice String)) (st : σ) (e : String),
      c.BodyParser = .error e →
      (BorrowedHandler.DeleteList s c st).resp.status = 400 ∧
      (BorrowedHandler.DeleteList s c st).calls = [] ∧
      (BorrowedHandler.DeleteList s c st).st = st) := by
  refine ⟨?_, ?_, ?_, ?_, ?_, ?_, ?_, ?_⟩
  · intro σ s c g st e he
    simp [AuthorHandler.Create, he, StatusBadRequest]
  · intro σ s c g st e he
    simp [BookHandler.Create, he, StatusBadRequest]
  · intro σ s c g st e he
    simp [MemberHandler.Create, he, StatusBadRequest]
  · intro σ s c st e he
    simp [BorrowedHandler.Create, he, StatusBadRequest]
  · intro σ s c st e he
    simp [AuthorHandler.Update, he, StatusBadRequest]
  · intro σ s c st e he
    simp [BookHandler.Update, he, StatusBadRequest]
  · intro σ s c st e he
    simp [MemberHandler.Update, he, StatusBadRequest]
  · intro σ s c st e he
    simp [BorrowedHandler.DeleteList, he, StatusBadRequest]

/-- Witness for C3: a book update with a malformed body against a database in which the id
does not exist answers 400 and sends nothing to the store. -/
theorem malformed_body_is_400_before_any_store_call_witness :
    (BookHandler.Update
        (store.NewBookStore (sample.scripted (.ok ⟨[[.bool false]], none⟩) none))
        (sample.malformed Book) 0).resp.status = 400 ∧
    (BookHandler.Update
        (store.NewBookStore (sample.scripted (.ok ⟨[[.bool false]], none⟩) none))
        (sample.malformed Book) 0).calls = [] ∧
    (BookHandler.Update
        (store.NewBookStore (sample.scripted (.ok ⟨[[.bool false]], none⟩) none))
        (sample.malformed Book) 0).st = 0 :=
  malformed_body_is_400_before_any_store_call.2.2.2.2.2.1
    (store.NewBookStore (sample.scripted (.ok ⟨[[.bool false]], none⟩) none))
    (sample.malformed Book) 0 "unexpected end of JSON input" rfl

end handler

namespace handler

open model fiber

/-- C4. The Author, Book and Member Delete handlers classify the result `r` of
`store.Delete(id)`: the response is 200 with "<entity> deleted" exactly when `r` is nil; it
is 400 with the entity's referential-integrity message exactly when `r` is non-nil and its
text contains "violates foreign key constraint"; it is 500 "server error" exactly when `r`
is non-nil and its text does not contain that substring. -/
theorem delete_response_classifies_store_result :
    (∀ {σ α : Type} (s : authorStore σ) (c : Ctx α) (st : σ),
      ((AuthorHandler.Delete s c st).resp = ⟨200, .map [("message", "author deleted")]⟩ ↔
        (s.Delete (c.Params "id") st).1 = none) ∧
      ((AuthorHandler.Delete s c st).resp =
          ⟨400, .map [("message", "author has related recordings and cannot be deleted")]⟩ ↔
        ∃ e, (s.Delete (c.Params "id") st).1 = some e ∧
          strings.Contains e "violates foreign key constraint" = true) ∧
      ((AuthorHandler.Delete s c st).resp = ⟨500, .map [("error", "server error")]⟩ ↔
        ∃ e, (s.Delete (c.Params "id") st).1 = some e ∧
          strings.Contains e "violates foreign key constraint" = false)) ∧
    (∀ {σ α : Type} (s : bookStore σ) (c : Ctx α) (st : σ),
      ((BookHandler.Delete s c st).resp = ⟨200, .map [("message", "book deleted")]⟩ ↔
        (s.Delete (c.Params "id") st).1 = none) ∧
      ((BookHandler.Delete s c st).resp =
          ⟨400, .map [("message", "book has related recordings and cannot be deleted")]⟩ ↔
        ∃ e, (s.Delete (c.Params "id") st).1 = some e ∧
          strings.Contains e "violates foreign key constraint" = true) ∧
      ((BookHandler.Delete s c st).resp = ⟨500, .map [("error", "server error")]⟩ ↔
        ∃ e, (s.Delete (c.Params "id") st).1 = some e ∧
          strings.Contains e "violates foreign key constraint" = false)) ∧
    (∀ {σ α : Type} (s : memberStore σ) (c : Ctx α) (st : σ),
      ((MemberHandler.Delete s c st).resp = ⟨200, .map [("message", "member deleted")]⟩ ↔
        (s.Delete (c.Params "id") st).1 = none) ∧
      ((MemberHandler.Delete s c st).resp =
          ⟨400, .map [("message", "member still has books, all books must be returned")]⟩ ↔
        ∃ e, (s.Delete (c.Params "id") st).1 = some e ∧
          strings.Contains e "violates foreign key constraint" = true) ∧
      ((MemberHandler.Delete s c st).resp = ⟨500, .map [("error", "server error")]⟩ ↔
        ∃ e, (s.Delete (c.Params "id") st).1 = some e ∧
          strings.Contains e "violates foreign key constraint" = false)) := by
  refine ⟨?_, ?_, ?_⟩
  · intro σ α s c st
    rcases h : s.Delete (c.Params "id") st with ⟨_ | e, st1⟩
    · simp [AuthorHandler.Delete, h, StatusOK]
    · cases hc : strings.Contains e "violates foreign key constraint" <;>
        simp [AuthorHandler.Delete, h, hc, StatusBadRequest, StatusInternalServerError]
  · intro σ α s c st
    rcases h : s.Delete (c.Params "id") st with ⟨_ | e, st1⟩
    · simp [BookHandler.Delete, h, StatusOK]
    · cases hc : strings.Contains e "violates foreign key constraint" <;>
        simp [BookHandler.Delete, h, hc, StatusBadRequest, StatusInternalServerError]
  · intro σ α s c st
    rcases h : s.Delete (c.Params "id") st with ⟨_ | e, st1⟩
    · simp [MemberHandler.Delete, h, StatusOK]
    · cases hc : strings.Contains e "violates foreign key constraint" <;>
        simp [MemberHandler.Delete, h, hc, StatusBadRequest, StatusInternalServerError]

end handler

namespace store

open model fiber handler

/-- C5. Delete end to end for Author, Book and Member: the store's `Delete` returns exactly
what the database's exec returned for the delete statement (the same error text, nil exactly
when exec succeeded); composed with the handler, an exec error whose text contains "violates
foreign key constraint" gives the 400 referential-integrity response and not the 500 one,
and a successful exec gives the 200 response. -/
theorem delete_end_to_end :
    (∀ {σ V α : Type} (db : DB σ V) (c : Ctx α) (st : σ),
      AuthorStore.Delete db (c.Params "id") st =
        db.Exec "DELETE FROM authors WHERE ID = $1" [.str (c.Params "id")] st ∧
      (∀ e, (db.Exec "DELETE FROM authors WHERE ID = $1" [.str (c.Params "id")] st).1 = some e →
        strings.Contains e "violates foreign key constraint" = true →
        (AuthorHandler.Delete (NewAuthorStore db) c st).resp =
          ⟨400, .map [("message", "author has related recordings and cannot be deleted")]⟩ ∧
        (AuthorHandler.Delete (NewAuthorStore db) c st).resp.status ≠ 500) ∧
      ((db.Exec "DELETE FROM authors WHERE ID = $1" [.str (c.Params "id")] st).1 = none →
        (AuthorHandler.Delete (NewAuthorStore db) c st).resp =
          ⟨200, .map [("message", "author deleted")]⟩)) ∧
    (∀ {σ V α : Type} (db : DB σ V) (c : Ctx α) (st : σ),
      BookStore.Delete db (c.Params "id") st =
        db.Exec "DELETE FROM books WHERE ID = $1" [.str (c.Params "id")] st ∧
      (∀ e, (db.Exec "DELETE FROM books WHERE ID = $1" [.str (c.Params "id")] st).1 = some e →
        strings.Contains e "violates foreign key constraint" = true →
        (BookHandler.Delete (NewBookStore db) c st).resp =
          ⟨400, .map [("message", "book has related recordings and cannot be deleted")]⟩ ∧
        (BookHandler.Delete (NewBookStore db) c st).resp.status ≠ 500) ∧
      ((db.Exec "DELETE FROM books WHERE ID = $1" [.str (c.Params "id")] st).1 = none →
        (BookHandler.Delete (NewBookStore db) c st).resp =
          ⟨200, .map [("message", "book deleted")]⟩)) ∧
    (∀ {σ V α : Type} (db : DB σ V) (c : Ctx α) (st : σ),
      MemberStore.Delete db (c.Params "id") st =
        db.Exec "DELETE FROM members WHERE id = $1" [.str (c.Params "id")] st ∧
      (∀ e, (db.Exec "DELETE FROM members WHERE id = $1" [.str (c.Params "id")] st).1 = some e →
        strings.Contains e "violates foreign key constraint" = true →
        (MemberHandler.Delete (NewMemberStore db) c st).resp =
          ⟨400, .map [("message", "member still has books, all books must be returned")]⟩ ∧
        (MemberHandler.Delete (NewMemberStore db) c st).resp.status ≠ 500) ∧
      ((db.Exec "DELETE FROM members WHERE id = $1" [.str (c.Params "id")] st).1 = none →
        (MemberHandler.Delete (NewMemberStore db) c st).resp =
          ⟨200, .map [("message", "member deleted")]⟩)) := by
  refine ⟨?_, ?_, ?_⟩
  · intro σ V α db c st
    rcases h : db.Exec "DELETE FROM authors WHERE ID = $1" [.str (c.Params "id")] st
      with ⟨_ | e, st1⟩
    · simp [AuthorStore.Delete, AuthorHandler.Delete, NewAuthorStore, h, StatusOK]
    · refine ⟨by simp [AuthorStore.Delete, h], ?_, by simp⟩
      intro e1 he1 hc
      simp only [Option.some.injEq] at he1
      subst he1
      simp [AuthorStore.Delete, AuthorHandler.Delete, NewAuthorStore, h, hc, StatusBadRequest]
  · intro σ V α db c st
    rcases h : db.Exec "DELETE FROM books WHERE ID = $1" [.str (c.Params "id")] st
      with ⟨_ | e, st1⟩
    · simp [BookStore.Delete, BookHandler.Delete, NewBookStore, h, StatusOK]
    · refine ⟨by simp [BookStore.Delete, h], ?_, by simp⟩
      intro e1 he1 hc
      simp only [Option.some.injEq] at he1
      subst he1
      simp [BookStore.Delete, BookHandler.Delete, NewBookStore, h, hc, StatusBadRequest]
  · intro σ V α db c st
    rcases h : db.Exec "DELETE FROM members WHERE id = $1" [.str (c.Params "id")] st
      with ⟨_ | e, st1⟩
    · simp [MemberStore.Delete, MemberHandler.Delete, NewMemberStore, h, StatusOK]
    · refine ⟨by simp [MemberStore.Delete, h], ?_, by simp⟩
      intro e1 he1 hc
      simp only [Option.some.injEq] at he1
      subst he1
      simp [MemberStore.Delete, MemberHandler.Delete, NewMemberStore, h, hc, StatusBadRequest]

/-- Witness for C5: deleting an author while the database refuses with a foreign-key error. -/
theorem delete_end_to_end_witness :
    (AuthorHandler.Delete
        (NewAuthorStore (sample.scripted (.error "unused") (some sample.fkText)))
        (sample.parsed ()) 0).resp =
      ⟨400, .map [("message", "author has related recordings and cannot be deleted")]⟩ ∧
    (AuthorHandler.Delete
        (NewAuthorStore (sample.scripted (.error "unused") (some sample.fkText)))
        (sample.parsed ()) 0).resp.status ≠ 500 :=
  (delete_end_to_end.1 (sample.scripted (.error "unused") (some sample.fkText))
    (sample.parsed ()) 0).2.1 sample.fkText rfl (by decide)

end store

namespace handler

open model fiber

/-- C6. An empty result is 404: for `AuthorHandler.Get`, `BookHandler.Get`,
`MemberHandler.Get`, `BorrowedHandler.Get` and `AuthorHandler.GetAuthorBooks`, whenever the
store returns a nil error and a slice of length zero (nil or empty), the response is 404
(never 200) with the handler's own body. -/
theorem empty_list_is_404 :
    (∀ {σ α : Type} (s : authorStore σ) (c : Ctx α) (st : σ) (seq : Slice Author),
      (s.Get st).1 = (seq, none) → seq.len = 0 →
      (AuthorHandler.Get s c st).resp = ⟨404, .map [("message", "authors not found")]⟩ ∧
      (AuthorHandler.Get s c st).resp.status ≠ 200) ∧
    (∀ {σ α : Type} (s : bookStore σ) (c : Ctx α) (st : σ) (seq : Slice Book),
      (s.Get st).1 = (seq, none) → seq.len = 0 →
      (BookHandler.Get s c st).resp = ⟨404, .map [("message", "no books found")]⟩ ∧
      (BookHandler.Get s c st).resp.status ≠ 200) ∧
    (∀ {σ α : Type} (s : memberStore σ) (c : Ctx α) (st : σ) (seq : Slice Member),
      (s.Get st).1 = (seq, none) → seq.len = 0 →
      (MemberHandler.Get s c st).resp = ⟨404, .map [("message", "no members found")]⟩ ∧
      (MemberHandler.Get s c st).resp.status ≠ 200) ∧
    (∀ {σ α : Type} (s : borrowedStore σ) (c : Ctx α) (st : σ) (seq : Slice Book),
      (s.Get (c.Params "id") st).1 = (seq, none) → seq.len = 0 →
      (BorrowedHandler.Get s c st).resp =
        ⟨404, .map [("message", "no books found for this member")]⟩ ∧
      (BorrowedHandler.Get s c st).resp.status ≠ 200) ∧
    (∀ {σ α : Type} (s : authorStore σ) (c : Ctx α) (st : σ) (seq : Slice String),
      (s.GetAuthorsBooks (c.Params "id") st).1 = (seq, none) → seq.len = 0 →
      (AuthorHandler.GetAuthorBooks s c st).resp = ⟨404, .map [("error", "book not found")]⟩ ∧
      (AuthorHandler.GetAuthorBooks s c st).resp.status ≠ 200) := by
  refine ⟨?_, ?_, ?_, ?_, ?_⟩
  · intro σ α s c st seq h hlen
    rcases hg : s.Get st with ⟨⟨seq1, e1⟩, st1⟩
    simp only [hg, Prod.mk.injEq] at h
    obtain ⟨rfl, rfl⟩ := h
    simp [AuthorHandler.Get, hg, hlen, StatusNotFound]
  · intro σ α s c st seq h hlen
    rcases hg : s.Get st with ⟨⟨seq1, e1⟩, st1⟩
    simp only [hg, Prod.mk.injEq] at h
    obtain ⟨rfl, rfl⟩ := h
    simp [BookHandler.Get, hg, hlen, StatusNotFound]
  · intro σ α s c st seq h hlen
    rcases hg : s.Get st with ⟨⟨seq1, e1⟩, st1⟩
    simp only [hg, Prod.mk.injEq] at h
    obtain ⟨rfl, rfl⟩ := h
    simp [MemberHandler.Get, hg, hlen, StatusNotFound]
  · intro σ α s c st seq h hlen
    rcases hg : s.Get (c.Params "id") st with ⟨⟨seq1, e1⟩, st1⟩
    simp only [hg, Prod.mk.injEq] at h
    obtain ⟨rfl, rfl⟩ := h
    simp [BorrowedHandler.Get, hg, hlen, StatusNotFound]
  · intro σ α s c st seq h hlen
    rcases hg : s.GetAuthorsBooks (c.Params "id") st with ⟨⟨seq1, e1⟩, st1⟩
    simp only [hg, Prod.mk.injEq] at h
    obtain ⟨rfl, rfl⟩ := h
    simp [AuthorHandler.GetAuthorBooks, hg, hlen, StatusNotFound]

/-- Witness for C6: the borrowed-books read of a member with no loans. -/
theorem empty_list_is_404_witness :
    (BorrowedHandler.Get (store.NewBorrowedStore (sample.scripted (.ok ⟨[], none⟩) none))
        (sample.parsed ()) 0).resp =
      ⟨404, .map [("message", "no books found for this member")]⟩ ∧
    (BorrowedHandler.Get (store.NewBorrowedStore (sample.scripted (.ok ⟨[], none⟩) none))
        (sample.parsed ()) 0).resp.status ≠ 200 :=
  empty_list_is_404.2.2.2.1
    (store.NewBorrowedStore (sample.scripted (.ok ⟨[], none⟩) none))
    (sample.parsed ()) 0 none rfl rfl

/-- C7. The other two outcomes of a list read: for the same five handlers, a non-nil store
error gives 500 "server error" whatever slice came with it, and a nil error with a slice of
non-zero length gives 200 whose payload is that very slice. -/
theorem list_error_is_500_and_rows_are_200 :
    (∀ {σ α : Type} (s : authorStore σ) (c : Ctx α) (st : σ),
      (∀ seq e, (s.Get st).1 = (seq, some e) →
        (AuthorHandler.Get s c st).resp = ⟨500, .map [("error", "server error")]⟩) ∧
      (∀ seq, (s.Get st).1 = (seq, none) → seq.len ≠ 0 →
        (AuthorHandler.Get s c st).resp = ⟨200, .authors seq⟩)) ∧
    (∀ {σ α : Type} (s : bookStore σ) (c : Ctx α) (st : σ),
      (∀ seq e, (s.Get st).1 = (seq, some e) →
        (BookHandler.Get s c st).resp = ⟨500, .map [("error", "server error")]⟩) ∧
      (∀ seq, (s.Get st).1 = (seq, none) → seq.len ≠ 0 →
        (BookHandler.Get s c st).resp = ⟨200, .books seq⟩)) ∧
    (∀ {σ α : Type} (s : memberStore σ) (c : Ctx α) (st : σ),
      (∀ seq e, (s.Get st).1 = (seq, some e) →
        (MemberHandler.Get s c st).resp = ⟨500, .map [("error", "server error")]⟩) ∧
      (∀ seq, (s.Get st).1 = (seq, none) → seq.len ≠ 0 →
        (MemberHandler.Get s c st).resp = ⟨200, .members seq⟩)) ∧
    (∀ {σ α : Type} (s : borrowedStore σ) (c : Ctx α) (st : σ),
      (∀ seq e, (s.Get (c.Params "id") st).1 = (seq, some e) →
        (BorrowedHandler.Get s c st).resp = ⟨500, .map [("error", "server error")]⟩) ∧
      (∀ seq, (s.Get (c.Params "id") st).1 = (seq, none) → seq.len ≠ 0 →
        (BorrowedHandler.Get s c st).resp = ⟨200, .books seq⟩)) ∧
    (∀ {σ α : Type} (s : authorStore σ) (c : Ctx α) (st : σ),
      (∀ seq e, (s.GetAuthorsBooks (c.Params "id") st).1 = (seq, some e) →
        (AuthorHandler.GetAuthorBooks s c st).resp =
          ⟨500, .map [("error", "server error")]⟩) ∧
      (∀ seq, (s.GetAuthorsBooks (c.Params "id") st).1 = (seq, none) → seq.len ≠ 0 →
        (AuthorHandler.GetAuthorBooks s c st).resp = ⟨200, .strings seq⟩)) := by
  refine ⟨?_, ?_, ?_, ?_, ?_⟩
  · intro σ α s c st
    rcases hg : s.Get st with ⟨⟨seq1, e1⟩, st1⟩
    constructor
    · rintro seq e ⟨rfl, rfl⟩
      simp [AuthorHandler.Get, hg, StatusInternalServerError]
    · rintro seq ⟨rfl, rfl⟩ hlen
      simp [AuthorHandler.Get, hg, hlen, StatusOK]
  · intro σ α s c st
    rcases hg : s.Get st with ⟨⟨seq1, e1⟩, st1⟩
    constructor
    · rintro seq e ⟨rfl, rfl⟩
      simp [BookHandler.Get, hg, StatusInternalServerError]
    · rintro seq ⟨rfl, rfl⟩ hlen
      simp [BookHandler.Get, hg, hlen, StatusOK]
  · intro σ α s c st
    rcases hg : s.Get st with ⟨⟨seq1, e1⟩, st1⟩
    constructor
    · rintro seq e ⟨rfl, rfl⟩
      simp [MemberHandler.Get, hg, StatusInternalServerError]
    · rintro seq ⟨rfl, rfl⟩ hlen
      simp [MemberHandler.Get, hg, hlen, StatusOK]
  · intro σ α s c st
    rcases hg : s.Get (c.Params "id") st with ⟨⟨seq1, e1⟩, st1⟩
    constructor
    · rintro seq e ⟨rfl, rfl⟩
      simp [BorrowedHandler.Get, hg, StatusInternalServerError]
    · rintro seq ⟨rfl, rfl⟩ hlen
      simp [BorrowedHandler.Get, hg, hlen, StatusOK]
  · intro σ α s c st
    rcases hg : s.GetAuthorsBooks (c.Params "id") st with ⟨⟨seq1, e1⟩, st1⟩
    constructor
    · rintro seq e ⟨rfl, rfl⟩
      simp [AuthorHandler.GetAuthorBooks, hg, StatusInternalServerError]
    · rintro seq ⟨rfl, rfl⟩ hlen
      simp [AuthorHandler.GetAuthorBooks, hg, hlen, StatusOK]

end handler

namespace handler

open model fiber

/-- Witness for C7: two author rows come back in the order the database delivered them. -/
theorem list_error_is_500_and_rows_are_200_witness :
    (AuthorHandler.Get
        (store.NewAuthorStore (sample.scripted
          (.ok ⟨[[.text "1", .null, .text "n1", .text "s1"],
                 [.text "2", .text "John Doe", .text "n2", .text "s2"]], none⟩) none))
        (sample.parsed ()) 0).resp =
      ⟨200, .authors (some [⟨"1", none, "n1", "s1"⟩, ⟨"2", some "John Doe", "n2", "s2"⟩])⟩ :=
  (list_error_is_500_and_rows_are_200.1
    (store.NewAuthorStore (sample.scripted
      (.ok ⟨[[.text "1", .null, .text "n1", .text "s1"],
             [.text "2", .text "John Doe", .text "n2", .text "s2"]], none⟩) none))
    (sample.parsed ()) 0).2
    (some [⟨"1", none, "n1", "s1"⟩, ⟨"2", some "John Doe", "n2", "s2"⟩]) rfl (by decide)

/-- C8. Create failures are one 400: for the Author, Book, Member and Borrowed Create
handlers, every non-nil error from `store.Create`, whatever its text, gives 400 with
"<entity> creation failed", the very response a body-parse failure gives; a nil result
gives status 201. -/
theorem create_failure_is_generic_400 :
    (∀ {σ : Type} (s : authorStore σ) (c : Ctx Author) (g : String) (st : σ),
      (∀ e, c.BodyParser = .error e →
        (AuthorHandler.Create s c g st).resp =
          ⟨400, .map [("error", "author creation failed")]⟩) ∧
      (∀ b e, c.BodyParser = .ok b → (s.Create { b with ID := g } st).1.1 = some e →
        (AuthorHandler.Create s c g st).resp =
          ⟨400, .map [("error", "author creation failed")]⟩) ∧
      (∀ b, c.BodyParser = .ok b → (s.Create { b with ID := g } st).1.1 = none →
        (AuthorHandler.Create s c g st).resp.status = 201)) ∧
    (∀ {σ : Type} (s : bookStore σ) (c : Ctx Book) (g : String) (st : σ),
      (∀ e, c.BodyParser = .error e →
        (BookHandler.Create s c g st).resp =
          ⟨400, .map [("error", "book creation failed")]⟩) ∧
      (∀ b e, c.BodyParser = .ok b → (s.Create { b with ID := g } st).1.1 = some e →
        (BookHandler.Create s c g st).resp =
          ⟨400, .map [("error", "book creation failed")]⟩) ∧
      (∀ b, c.BodyParser = .ok b → (s.Create { b with ID := g } st).1.1 = none →
        (BookHandler.Create s c g st).resp.status = 201)) ∧
    (∀ {σ : Type} (s : memberStore σ) (c : Ctx Member) (g : String) (st : σ),
      (∀ e, c.BodyParser = .error e →
        (MemberHandler.Create s c g st).resp =
          ⟨400, .map [("error", "member creation failed")]⟩) ∧
      (∀ b e, c.BodyParser = .ok b → (s.Create { b with ID := g } st).1.1 = some e →
        (MemberHandler.Create s c g st).resp =
          ⟨400, .map [("error", "member creation failed")]⟩) ∧
      (∀ b, c.BodyParser = .ok b → (s.Create { b with ID := g } st).1.1 = none →
        (MemberHandler.Create s c g st).resp.status = 201)) ∧
    (∀ {σ : Type} (s : borrowedStore σ) (c : Ctx Borrowed) (st : σ),
      (∀ e, c.BodyParser = .error e →
        (BorrowedHandler.Create s c st).resp =
          ⟨400, .map [("error", "borrowed book creation failed")]⟩) ∧
      (∀ b e, c.BodyParser = .ok b → (s.Create b st).1.1 = some e →
        (BorrowedHandler.Create s c st).resp =
          ⟨400, .map [("error", "borrowed book creation failed")]⟩) ∧
      (∀ b, c.BodyParser = .ok b → (s.Create b st).1.1 = none →
        (BorrowedHandler.Create s c st).resp.status = 201)) := by
  refine ⟨?_, ?_, ?_, ?_⟩
  · intro σ s c g st
    refine ⟨?_, ?_, ?_⟩
    · intro e he
      simp [AuthorHandler.Create, he, StatusBadRequest]
    · intro b e hb hc
      rcases h : s.Create { b with ID := g } st with ⟨⟨e1, a1⟩, st1⟩
      simp only [h] at hc
      subst hc
      simp [AuthorHandler.Create, hb, h, StatusBadRequest]
    · intro b hb hc
      rcases h : s.Create { b with ID := g } st with ⟨⟨e1, a1⟩, st1⟩
      simp only [h] at hc
      subst hc
      simp [AuthorHandler.Create, hb, h, StatusCreated]
  · intro σ s c g st
    refine ⟨?_, ?_, ?_⟩
    · intro e he
      simp [BookHandler.Create, he, StatusBadRequest]
    · intro b e hb hc
      rcases h : s.Create { b with ID := g } st with ⟨⟨e1, a1⟩, st1⟩
      simp only [h] at hc
      subst hc
      simp [BookHandler.Create, hb, h, StatusBadRequest]
    · intro b hb hc
      rcases h : s.Create { b with ID := g } st with ⟨⟨e1, a1⟩, st1⟩
      simp only [h] at hc
      subst hc
      simp [BookHandler.Create, hb, h, StatusCreated]
  · intro σ s c g st
    refine ⟨?_, ?_, ?_⟩
    · intro e he
      simp [MemberHandler.Create, he, StatusBadRequest]
    · intro b e hb hc
      rcases h : s.Create { b with ID := g } st with ⟨⟨e1, a1⟩, st1⟩
      simp only [h] at hc
      subst hc
      simp [MemberHandler.Create, hb, h, StatusBadRequest]
    · intro b hb hc
      rcases h : s.Create { b with ID := g } st with ⟨⟨e1, a1⟩, st1⟩
      simp only [h] at hc
      subst hc
      simp [MemberHandler.Create, hb, h, StatusCreated]
  · intro σ s c st
    refine ⟨?_, ?_, ?_⟩
    · intro e he
      simp [BorrowedHandler.Create, he, StatusBadRequest]
    · intro b e hb hc
      rcases h : s.Create b st with ⟨⟨e1, a1⟩, st1⟩
      simp only [h] at hc
      subst hc
      simp [BorrowedHandler.Create, hb, h, StatusBadRequest]
    · intro b hb hc
      rcases h : s.Create b st with ⟨⟨e1, a1⟩, st1⟩
      simp only [h] at hc
      subst hc
      simp [BorrowedHandler.Create, hb, h, StatusCreated]

/-- Witness for C8: creating a loan that the database refuses with a foreign-key error
still answers the generic 400. -/
theorem create_failure_is_generic_400_witness :
    (BorrowedHandler.Create
        (store.NewBorrowedStore (sample.scripted (.error "unused") (some sample.fkText)))
        (sample.parsed sample.borrowed) 0).resp =
      ⟨400, .map [("error", "borrowed book creation failed")]⟩ :=
  (create_failure_is_generic_400.2.2.2
    (store.NewBorrowedStore (sample.scripted (.error "unused") (some sample.fkText)))
    (sample.parsed sample.borrowed) 0).2.1 sample.borrowed sample.fkText rfl rfl

end handler

namespace handler

open model fiber

/-- C9. What reaches `store.Create`: for the Author, Book and Member Create handlers and
every parsed body `b` and generated identifier `g`, the store ends in the state that
`Create` of the entity with ID `g` (whatever id the body carried) and the other fields of `b`
leaves, and a store that keeps a journal of the calls it receives has received exactly that
one `Create`; the Borrowed Create handler takes no generated identifier and the store
receives the parsed (member_id, book_id) pair as it is.  The handler's own record of its
calls says the same. -/
theorem create_passes_body_with_generated_id :
    (∀ {σ : Type} (s : authorStore σ) (c : Ctx Author) (g : String) (st : σ) (b : Author),
      c.BodyParser = .ok b →
      (AuthorHandler.Create s c g st).st = (s.Create ⟨g, b.FullName, b.NickName, b.Specialization⟩ st).2 ∧
      (∀ log, (AuthorHandler.Create s.journaled c g (st, log)).st =
        ((s.Create ⟨g, b.FullName, b.NickName, b.Specialization⟩ st).2, log ++ [.Create ⟨g, b.FullName, b.NickName, b.Specialization⟩])) ∧
      (AuthorHandler.Create s c g st).calls = [.Create ⟨g, b.FullName, b.NickName, b.Specialization⟩]) ∧
    (∀ {σ : Type} (s : bookStore σ) (c : Ctx Book) (g : String) (st : σ) (b : Book),
      c.BodyParser = .ok b →
      (BookHandler.Create s c g st).st = (s.Create ⟨g, b.AuthorsID, b.Title, b.Genre, b.ISBN, b.Author⟩ st).2 ∧
      (∀ log, (BookHandler.Create s.journaled c g (st, log)).st =
        ((s.Create ⟨g, b.AuthorsID, b.Title, b.Genre, b.ISBN, b.Author⟩ st).2, log ++ [.Create ⟨g, b.AuthorsID, b.Title, b.Genre, b.ISBN, b.Author⟩])) ∧
      (BookHandler.Create s c g st).calls = [.Create ⟨g, b.AuthorsID, b.Title, b.Genre, b.ISBN, b.Author⟩]) ∧
    (∀ {σ : Type} (s : memberStore σ) (c : Ctx Member) (g : String) (st : σ) (b : Member),
      c.BodyParser = .ok b →
      (MemberHandler.Create s c g st).st = (s.Create ⟨g, b.FullName⟩ st).2 ∧
      (∀ log, (MemberHandler.Create s.journaled c g (st, log)).st =
        ((s.Create ⟨g, b.FullName⟩ st).2, log ++ [.Create ⟨g, b.FullName⟩])) ∧
      (MemberHandler.Create s c g st).calls = [.Create ⟨g, b.FullName⟩]) ∧
    (∀ {σ : Type} (s : borrowedStore σ) (c : Ctx Borrowed) (st : σ) (b : Borrowed),
      c.BodyParser = .ok b →
      (BorrowedHandler.Create s c st).st = (s.Create ⟨b.MemberID, b.BookID⟩ st).2 ∧
      (∀ log, (BorrowedHandler.Create s.journaled c (st, log)).st =
        ((s.Create ⟨b.MemberID, b.BookID⟩ st).2, log ++ [.Create ⟨b.MemberID, b.BookID⟩])) ∧
      (BorrowedHandler.Create s c st).calls = [.Create ⟨b.MemberID, b.BookID⟩] ∧
      (BorrowedHandler.Create s c st).calls = [.Create b]) := by
  refine ⟨?_, ?_, ?_, ?_⟩
  · intro σ s c g st b hb
    rcases h : s.Create { b with ID := g } st with ⟨⟨_ | e1, a1⟩, st1⟩ <;>
      simp [AuthorHandler.Create, authorStore.journaled, hb, h]
  · intro σ s c g st b hb
    rcases h : s.Create { b with ID := g } st with ⟨⟨_ | e1, a1⟩, st1⟩ <;>
      simp [BookHandler.Create, bookStore.journaled, hb, h]
  · intro σ s c g st b hb
    rcases h : s.Create { b with ID := g } st with ⟨⟨_ | e1, a1⟩, st1⟩ <;>
      simp [MemberHandler.Create, memberStore.journaled, hb, h]
  · intro σ s c st b hb
    rcases h : s.Create b st with ⟨⟨_ | e1, a1⟩, st1⟩ <;>
      simp [BorrowedHandler.Create, borrowedStore.journaled, hb, h]

/-- Witness for C9: a book body that carries its own id reaches the store, and through it
the database, under the generated one. -/
theorem create_passes_body_with_generated_id_witness :
    (BookHandler.Create
        (store.NewBookStore (sample.scripted (.error "unused") none)).journaled
        (sample.parsed sample.book) "generated" (0, [])).st =
      (1, [.Create ⟨"generated", "a1", "perfect book title", "fantasy", "978",
        Author.zero⟩]) ∧
    (BookHandler.Create
        (store.NewBookStore (store.journaled (sample.scripted (.error "unused") none)))
        (sample.parsed sample.book) "generated" (0, [])).st =
      (1, [("INSERT INTO books (id, authors_id, title, genre, isbn) \n\t\t\t\t\t\t\t\tVALUES ($1, $2, $3, $4, $5)",
        [.str "generated", .str "a1", .str "perfect book title", .str "fantasy",
          .str "978"])]) :=
  ⟨(create_passes_body_with_generated_id.2.1
      (store.NewBookStore (sample.scripted (.error "unused") none))
      (sample.parsed sample.book) "generated" 0 sample.book rfl).2.1 [],
    (create_passes_body_with_generated_id.2.1
      (store.NewBookStore (store.journaled (sample.scripted (.error "unused") none)))
      (sample.parsed sample.book) "generated" (0, []) sample.book rfl).1⟩

/-- C10. The 201 bodies: when a Book is created (body parsed, `store.Create` returned nil)
the response is 201 with exactly the keys "id" and "message", the message is "book
created" and the id is the ID of the book as it stands after `store.Create`, which is the
generated identifier passed in whenever the store left that ID alone, as `BookStore.Create`
does for every database; so the id is non-empty when the generated identifier is.  The
Author and Member 201 bodies hold "message" only. -/
theorem book_created_body_has_id_and_message :
    (∀ {σ : Type} (s : bookStore σ) (c : Ctx Book) (g : String) (st : σ) (b : Book),
      c.BodyParser = .ok b → (s.Create { b with ID := g } st).1.1 = none →
      (BookHandler.Create s c g st).resp.status = 201 ∧
      (BookHandler.Create s c g st).resp.body.keys = ["id", "message"] ∧
      (BookHandler.Create s c g st).resp.body.get "message" = some "book created" ∧
      (BookHandler.Create s c g st).resp.body.get "id" =
        some ((s.Create { b with ID := g } st).1.2).ID ∧
      (BookHandler.Create s c g st).calls = [.Create { b with ID := g }] ∧
      (((s.Create { b with ID := g } st).1.2).ID = g →
        (BookHandler.Create s c g st).resp =
          ⟨201, .map [("id", g), ("message", "book created")]⟩)) ∧
    (∀ {σ V : Type} (db : store.DB σ V) (c : Ctx Book) (g : String) (st : σ) (b : Book),
      c.BodyParser = .ok b →
      ((store.NewBookStore db).Create { b with ID := g } st).1.2 = { b with ID := g } ∧
      ((BookHandler.Create (store.NewBookStore db) c g st).resp.status = 201 →
        (BookHandler.Create (store.NewBookStore db) c g st).resp =
          ⟨201, .map [("id", g), ("message", "book created")]⟩ ∧
        (g ≠ "" →
          (BookHandler.Create (store.NewBookStore db) c g st).resp.body.get "id" ≠
            some ""))) ∧
    (∀ {σ : Type} (s : authorStore σ) (c : Ctx Author) (g : String) (st : σ) (b : Author),
      c.BodyParser = .ok b → (s.Create { b with ID := g } st).1.1 = none →
      (AuthorHandler.Create s c g st).resp = ⟨201, .map [("message", "author created")]⟩ ∧
      (AuthorHandler.Create s c g st).resp.body.keys = ["message"]) ∧
    (∀ {σ : Type} (s : memberStore σ) (c : Ctx Member) (g : String) (st : σ) (b : Member),
      c.BodyParser = .ok b → (s.Create { b with ID := g } st).1.1 = none →
      (MemberHandler.Create s c g st).resp = ⟨201, .map [("message", "member created")]⟩ ∧
      (MemberHandler.Create s c g st).resp.body.keys = ["message"]) := by
  refine ⟨?_, ?_, ?_, ?_⟩
  · intro σ s c g st b hb hc
    rcases h : s.Create { b with ID := g } st with ⟨⟨e1, b1⟩, st1⟩
    simp only [h] at hc
    subst hc
    simp [BookHandler.Create, hb, h, StatusCreated, Body.keys, Body.get, List.find?]
  · intro σ V db c g st b hb
    rcases hx : db.Exec
      "INSERT INTO books (id, authors_id, title, genre, isbn) \n\t\t\t\t\t\t\t\tVALUES ($1, $2, $3, $4, $5)"
      [.str g, .str b.AuthorsID, .str b.Title, .str b.Genre, .str b.ISBN] st
      with ⟨_ | e, st1⟩
    · simp [BookHandler.Create, store.NewBookStore, store.BookStore.Create, hb, hx,
        StatusCreated, Body.get, List.find?]
    · simp [BookHandler.Create, store.NewBookStore, store.BookStore.Create, hb, hx,
        StatusBadRequest]
  · intro σ s c g st b hb hc
    rcases h : s.Create { b with ID := g } st with ⟨⟨e1, b1⟩, st1⟩
    simp only [h] at hc
    subst hc
    simp [AuthorHandler.Create, hb, h, StatusCreated, Body.keys]
  · intro σ s c g st b hb hc
    rcases h : s.Create { b with ID := g } st with ⟨⟨e1, b1⟩, st1⟩
    simp only [h] at hc
    subst hc
    simp [MemberHandler.Create, hb, h, StatusCreated, Body.keys]

/-- Witness for C10: a book created against a database that accepts the insert. -/
theorem book_created_body_has_id_and_message_witness :
    (BookHandler.Create (store.NewBookStore (sample.scripted (.error "unused") none))
        (sample.parsed sample.book) "generated" 0).resp =
      ⟨201, .map [("id", "generated"), ("message", "book created")]⟩ ∧
    (BookHandler.Create (store.NewBookStore (sample.scripted (.error "unused") none))
        (sample.parsed sample.book) "generated" 0).resp.body.get "id" ≠ some "" :=
  ⟨((book_created_body_has_id_and_message.2.1
      (sample.scripted (.error "unused") none)
      (sample.parsed sample.book) "generated" 0 sample.book rfl).2 rfl).1,
    ((book_created_body_has_id_and_message.2.1
      (sample.scripted (.error "unused") none)
      (sample.parsed sample.book) "generated" 0 sample.book rfl).2 rfl).2 (by decide)⟩

end handler

namespace handler

open model fiber

/-- C11. Update after a passed existence check: for the Author, Book and Member Update
handlers, when the body parsed and `Exists(id)` returned nil, the response is 200 with
"<entity> updated" exactly when `store.Update` returns nil, and it is 400 with
"<entity> update failed" for every non-nil error of `store.Update`, whatever its text. -/
theorem update_result_decides_200_or_400 :
    (∀ {σ : Type} (s : authorStore σ) (c : Ctx Author) (st : σ) (b : Author),
      c.BodyParser = .ok b → (s.Exists (c.Params "id") st).1 = none →
      ((AuthorHandler.Update s c st).resp = ⟨200, .map [("message", "author updated")]⟩ ↔
        (s.Update (c.Params "id") b (s.Exists (c.Params "id") st).2).1.1 = none) ∧
      (∀ e, (s.Update (c.Params "id") b (s.Exists (c.Params "id") st).2).1.1 = some e →
        (AuthorHandler.Update s c st).resp =
          ⟨400, .map [("error", "author update failed")]⟩)) ∧
    (∀ {σ : Type} (s : bookStore σ) (c : Ctx Book) (st : σ) (b : Book),
      c.BodyParser = .ok b → (s.Exists (c.Params "id") st).1 = none →
      ((BookHandler.Update s c st).resp = ⟨200, .map [("message", "book updated")]⟩ ↔
        (s.Update (c.Params "id") b (s.Exists (c.Params "id") st).2).1.1 = none) ∧
      (∀ e, (s.Update (c.Params "id") b (s.Exists (c.Params "id") st).2).1.1 = some e →
        (BookHandler.Update s c st).resp =
          ⟨400, .map [("error", "book update failed")]⟩)) ∧
    (∀ {σ : Type} (s : memberStore σ) (c : Ctx Member) (st : σ) (b : Member),
      c.BodyParser = .ok b → (s.Exists (c.Params "id") st).1 = none →
      ((MemberHandler.Update s c st).resp = ⟨200, .map [("message", "member updated")]⟩ ↔
        (s.Update (c.Params "id") b (s.Exists (c.Params "id") st).2).1.1 = none) ∧
      (∀ e, (s.Update (c.Params "id") b (s.Exists (c.Params "id") st).2).1.1 = some e →
        (MemberHandler.Update s c st).resp =
          ⟨400, .map [("error", "member update failed")]⟩)) := by
  refine ⟨?_, ?_, ?_⟩
  · intro σ s c st b hb hex
    rcases h : s.Exists (c.Params "id") st with ⟨e0, st1⟩
    simp only [h] at hex
    subst hex
    rcases hu : s.Update (c.Params "id") b st1 with ⟨⟨_ | e1, b1⟩, st2⟩ <;>
      simp [AuthorHandler.Update, hb, h, hu, StatusOK, StatusBadRequest]
  · intro σ s c st b hb hex
    rcases h : s.Exists (c.Params "id") st with ⟨e0, st1⟩
    simp only [h] at hex
    subst hex
    rcases hu : s.Update (c.Params "id") b st1 with ⟨⟨_ | e1, b1⟩, st2⟩ <;>
      simp [BookHandler.Update, hb, h, hu, StatusOK, StatusBadRequest]
  · intro σ s c st b hb hex
    rcases h : s.Exists (c.Params "id") st with ⟨e0, st1⟩
    simp only [h] at hex
    subst hex
    rcases hu : s.Update (c.Params "id") b st1 with ⟨⟨_ | e1, b1⟩, st2⟩ <;>
      simp [MemberHandler.Update, hb, h, hu, StatusOK, StatusBadRequest]

/-- Witness for C11: a member update whose existence check passes and whose UPDATE the
database refuses. -/
theorem update_result_decides_200_or_400_witness :
    (MemberHandler.Update
        (store.NewMemberStore
          (sample.scripted (.ok ⟨[[.bool true]], none⟩) (some "pq: connection reset")))
        (sample.parsed sample.member) 0).resp =
      ⟨400, .map [("error", "member update failed")]⟩ :=
  (update_result_decides_200_or_400.2.2
    (store.NewMemberStore
      (sample.scripted (.ok ⟨[[.bool true]], none⟩) (some "pq: connection reset")))
    (sample.parsed sample.member) 0 sample.member rfl rfl).2 "pq: connection reset" rfl

/-- C12. Which row an update touches: for the Author, Book and Member Update handlers with
a parsed body `b`, the store ends in the state that `Exists` on the path id and then (when
that returned nil) `Update` on the same path id with `b` itself leave, and a store that keeps
a journal of the calls it receives has received exactly those calls with those arguments; the
ID field of `b` plays no part in either identifier.  The handler's own record of its calls
says the same. -/
theorem update_uses_path_id_and_parsed_body :
    (∀ {σ : Type} (s : authorStore σ) (c : Ctx Author) (st : σ) (b : Author),
      c.BodyParser = .ok b →
      ((s.Exists (c.Params "id") st).1 = none →
        (AuthorHandler.Update s c st).st =
          (s.Update (c.Params "id") b (s.Exists (c.Params "id") st).2).2 ∧
        (∀ log, (AuthorHandler.Update s.journaled c (st, log)).st =
          ((s.Update (c.Params "id") b (s.Exists (c.Params "id") st).2).2,
            log ++ [.Exists (c.Params "id"), .Update (c.Params "id") b])) ∧
        (AuthorHandler.Update s c st).calls =
          [.Exists (c.Params "id"), .Update (c.Params "id") b]) ∧
      ((s.Exists (c.Params "id") st).1 ≠ none →
        (AuthorHandler.Update s c st).st = (s.Exists (c.Params "id") st).2 ∧
        (∀ log, (AuthorHandler.Update s.journaled c (st, log)).st =
          ((s.Exists (c.Params "id") st).2, log ++ [.Exists (c.Params "id")])) ∧
        (AuthorHandler.Update s c st).calls = [.Exists (c.Params "id")])) ∧
    (∀ {σ : Type} (s : bookStore σ) (c : Ctx Book) (st : σ) (b : Book),
      c.BodyParser = .ok b →
      ((s.Exists (c.Params "id") st).1 = none →
        (BookHandler.Update s c st).st =
          (s.Update (c.Params "id") b (s.Exists (c.Params "id") st).2).2 ∧
        (∀ log, (BookHandler.Update s.journaled c (st, log)).st =
          ((s.Update (c.Params "id") b (s.Exists (c.Params "id") st).2).2,
            log ++ [.Exists (c.Params "id"), .Update (c.Params "id") b])) ∧
        (BookHandler.Update s c st).calls =
          [.Exists (c.Params "id"), .Update (c.Params "id") b]) ∧
      ((s.Exists (c.Params "id") st).1 ≠ none →
        (BookHandler.Update s c st).st = (s.Exists (c.Params "id") st).2 ∧
        (∀ log, (BookHandler.Update s.journaled c (st, log)).st =
          ((s.Exists (c.Params "id") st).2, log ++ [.Exists (c.Params "id")])) ∧
        (BookHandler.Update s c st).calls = [.Exists (c.Params "id")])) ∧
    (∀ {σ : Type} (s : memberStore σ) (c : Ctx Member) (st : σ) (b : Member),
      c.BodyParser = .ok b →
      ((s.Exists (c.Params "id") st).1 = none →
        (MemberHandler.Update s c st).st =
          (s.Update (c.Params "id") b (s.Exists (c.Params "id") st).2).2 ∧
        (∀ log, (MemberHandler.Update s.journaled c (st, log)).st =
          ((s.Update (c.Params "id") b (s.Exists (c.Params "id") st).2).2,
            log ++ [.Exists (c.Params "id"), .Update (c.Params "id") b])) ∧
        (MemberHandler.Update s c st).calls =
          [.Exists (c.Params "id"), .Update (c.Params "id") b]) ∧
      ((s.Exists (c.Params "id") st).1 ≠ none →
        (MemberHandler.Update s c st).st = (s.Exists (c.Params "id") st).2 ∧
        (∀ log, (MemberHandler.Update s.journaled c (st, log)).st =
          ((s.Exists (c.Params "id") st).2, log ++ [.Exists (c.Params "id")])) ∧
        (MemberHandler.Update s c st).calls = [.Exists (c.Params "id")])) := by
  refine ⟨?_, ?_, ?_⟩
  · intro σ s c st b hb
    rcases h : s.Exists (c.Params "id") st with ⟨_ | e0, st1⟩
    · rcases hu : s.Update (c.Params "id") b st1 with ⟨⟨_ | e1, b1⟩, st2⟩ <;>
        simp [AuthorHandler.Update, authorStore.journaled, hb, h, hu]
    · simp [AuthorHandler.Update, authorStore.journaled, hb, h]
  · intro σ s c st b hb
    rcases h : s.Exists (c.Params "id") st with ⟨_ | e0, st1⟩
    · rcases hu : s.Update (c.Params "id") b st1 with ⟨⟨_ | e1, b1⟩, st2⟩ <;>
        simp [BookHandler.Update, bookStore.journaled, hb, h, hu]
    · simp [BookHandler.Update, bookStore.journaled, hb, h]
  · intro σ s c st b hb
    rcases h : s.Exists (c.Params "id") st with ⟨_ | e0, st1⟩
    · rcases hu : s.Update (c.Params "id") b st1 with ⟨⟨_ | e1, b1⟩, st2⟩ <;>
        simp [MemberHandler.Update, memberStore.journaled, hb, h, hu]
    · simp [MemberHandler.Update, memberStore.journaled, hb, h]

/-- Witness for C12: a book body carrying the id "from-body" sent to the path id "7" checks
and updates row "7", at the store and at the database. -/
theorem update_uses_path_id_and_parsed_body_witness :
    (BookHandler.Update
        (store.NewBookStore (sample.scripted (.ok ⟨[[.bool true]], none⟩) none)).journaled
        (sample.parsed sample.book) (0, [])).st =
      (2, [.Exists "7", .Update "7" sample.book]) ∧
    (BookHandler.Update
        (store.NewBookStore
          (store.journaled (sample.scripted (.ok ⟨[[.bool true]], none⟩) none)))
        (sample.parsed sample.book) (0, [])).st =
      (2, [("SELECT EXISTS (SELECT 1 FROM books WHERE id = $1)", [.str "7"]),
        ("UPDATE books SET authors_id = $1, title = $2, genre = $3, ISBN = $4 WHERE id = $5",
          [.str "a1", .str "perfect book title", .str "fantasy", .str "978", .str "7"])]) :=
  ⟨((update_uses_path_id_and_parsed_body.2.1
      (store.NewBookStore (sample.scripted (.ok ⟨[[.bool true]], none⟩) none))
      (sample.parsed sample.book) 0 sample.book rfl).1 rfl).2.1 [],
    ((update_uses_path_id_and_parsed_body.2.1
      (store.NewBookStore
        (store.journaled (sample.scripted (.ok ⟨[[.bool true]], none⟩) none)))
      (sample.parsed sample.book) (0, []) sample.book rfl).1 rfl).1⟩

/-- C13. The 404 of a failed existence check: with a parsed body and any non-nil error from
`Exists`, whatever its text, the response is 404 with "error": "author not found" for Author,
"error": "book not found" for Book and "message": "member not found" for Member. -/
theorem update_not_found_body_is_entity_specific :
    (∀ {σ : Type} (s : authorStore σ) (c : Ctx Author) (st : σ) (b : Author) (e : String),
      c.BodyParser = .ok b → (s.Exists (c.Params "id") st).1 = some e →
      (AuthorHandler.Update s c st).resp = ⟨404, .map [("error", "author not found")]⟩) ∧
    (∀ {σ : Type} (s : bookStore σ) (c : Ctx Book) (st : σ) (b : Book) (e : String),
      c.BodyParser = .ok b → (s.Exists (c.Params "id") st).1 = some e →
      (BookHandler.Update s c st).resp = ⟨404, .map [("error", "book not found")]⟩) ∧
    (∀ {σ : Type} (s : memberStore σ) (c : Ctx Member) (st : σ) (b : Member) (e : String),
      c.BodyParser = .ok b → (s.Exists (c.Params "id") st).1 = some e →
      (MemberHandler.Update s c st).resp =
        ⟨404, .map [("message", "member not found")]⟩) := by
  refine ⟨?_, ?_, ?_⟩
  · intro σ s c st b e hb hex
    rcases h : s.Exists (c.Params "id") st with ⟨e0, st1⟩
    simp only [h] at hex
    subst hex
    simp [AuthorHandler.Update, hb, h, StatusNotFound]
  · intro σ s c st b e hb hex
    rcases h : s.Exists (c.Params "id") st with ⟨e0, st1⟩
    simp only [h] at hex
    subst hex
    simp [BookHandler.Update, hb, h, StatusNotFound]
  · intro σ s c st b e hb hex
    rcases h : s.Exists (c.Params "id") st with ⟨e0, st1⟩
    simp only [h] at hex
    subst hex
    simp [MemberHandler.Update, hb, h, StatusNotFound]

/-- Witness for C13: a member update whose existence query itself fails. -/
theorem update_not_found_body_is_entity_specific_witness :
    (MemberHandler.Update
        (store.NewMemberStore (sample.scripted (.error "select error") none))
        (sample.parsed sample.member) 0).resp =
      ⟨404, .map [("message", "member not found")]⟩ :=
  update_not_found_body_is_entity_specific.2.2
    (store.NewMemberStore (sample.scripted (.error "select error") none))
    (sample.parsed sample.member) 0 sample.member "select error" rfl rfl

end handler

namespace handler

open model fiber

/-- C14. Store calls per request: a store that keeps a journal of the calls it receives has
received, when a handler returns, exactly the calls the handler records, and the state of the
store is the state those calls leave; every handler makes at most one store call, except the
Author, Book and Member Update handlers, which make at most two, and then `Exists` first and
`Update` second; in no handler does the name of a store method occur twice among the calls
of one request. -/
theorem store_calls_per_request :
    (∀ {σ : Type} (s : authorStore σ) (c : Ctx Author) (g : String) (st : σ) (log : List AuthorCall),
      (AuthorHandler.Create s.journaled c g (st, log)).st =
        ((AuthorHandler.Create s c g st).st, log ++ (AuthorHandler.Create s c g st).calls) ∧
      (AuthorHandler.Create s c g st).calls.length ≤ 1 ∧
      ((AuthorHandler.Create s c g st).calls.map AuthorCall.op).Nodup) ∧
    (∀ {σ α : Type} (s : authorStore σ) (c : Ctx α) (st : σ) (log : List AuthorCall),
      (AuthorHandler.Get s.journaled c (st, log)).st =
        ((AuthorHandler.Get s c st).st, log ++ (AuthorHandler.Get s c st).calls) ∧
      (AuthorHandler.Get s c st).calls.length ≤ 1 ∧
      ((AuthorHandler.Get s c st).calls.map AuthorCall.op).Nodup) ∧
    (∀ {σ : Type} (s : authorStore σ) (c : Ctx Author) (st : σ) (log : List AuthorCall),
      (AuthorHandler.Update s.journaled c (st, log)).st =
        ((AuthorHandler.Update s c st).st, log ++ (AuthorHandler.Update s c st).calls) ∧
      (AuthorHandler.Update s c st).calls.length ≤ 2 ∧
      (((AuthorHandler.Update s c st).calls.map AuthorCall.op = [] ∨
        (AuthorHandler.Update s c st).calls.map AuthorCall.op = ["Exists"]) ∨
        (AuthorHandler.Update s c st).calls.map AuthorCall.op = ["Exists", "Update"]) ∧
      ((AuthorHandler.Update s c st).calls.map AuthorCall.op).Nodup) ∧
    (∀ {σ α : Type} (s : authorStore σ) (c : Ctx α) (st : σ) (log : List AuthorCall),
      (AuthorHandler.Delete s.journaled c (st, log)).st =
        ((AuthorHandler.Delete s c st).st, log ++ (AuthorHandler.Delete s c st).calls) ∧
      (AuthorHandler.Delete s c st).calls.length ≤ 1 ∧
      ((AuthorHandler.Delete s c st).calls.map AuthorCall.op).Nodup) ∧
    (∀ {σ α : Type} (s : authorStore σ) (c : Ctx α) (st : σ) (log : List AuthorCall),
      (AuthorHandler.GetAuthorBooks s.journaled c (st, log)).st =
        ((AuthorHandler.GetAuthorBooks s c st).st, log ++ (AuthorHandler.GetAuthorBooks s c st).calls) ∧
      (AuthorHandler.GetAuthorBooks s c st).calls.length ≤ 1 ∧
      ((AuthorHandler.GetAuthorBooks s c st).calls.map AuthorCall.op).Nodup) ∧
    (∀ {σ : Type} (s : bookStore σ) (c : Ctx Book) (g : String) (st : σ) (log : List BookCall),
      (BookHandler.Create s.journaled c g (st, log)).st =
        ((BookHandler.Create s c g st).st, log ++ (BookHandler.Create s c g st).calls) ∧
      (BookHandler.Create s c g st).calls.length ≤ 1 ∧
      ((BookHandler.Create s c g st).calls.map BookCall.op).Nodup) ∧
    (∀ {σ α : Type} (s : bookStore σ) (c : Ctx α) (st : σ) (log : List BookCall),
      (BookHandler.Get s.journaled c (st, log)).st =
        ((BookHandler.Get s c st).st, log ++ (BookHandler.Get s c st).calls) ∧
      (BookHandler.Get s c st).calls.length ≤ 1 ∧
      ((BookHandler.Get s c st).calls.map BookCall.op).Nodup) ∧
    (∀ {σ : Type} (s : bookStore σ) (c : Ctx Book) (st : σ) (log : List BookCall),
      (BookHandler.Update s.journaled c (st, log)).st =
        ((BookHandler.Update s c st).st, log ++ (BookHandler.Update s c st).calls) ∧
      (BookHandler.Update s c st).calls.length ≤ 2 ∧
      (((BookHandler.Update s c st).calls.map BookCall.op = [] ∨
        (BookHandler.Update s c st).calls.map BookCall.op = ["Exists"]) ∨
        (BookHandler.Update s c st).calls.map BookCall.op = ["Exists", "Update"]) ∧
      ((BookHandler.Update s c st).calls.map BookCall.op).Nodup) ∧
    (∀ {σ α : Type} (s : bookStore σ) (c : Ctx α) (st : σ) (log : List BookCall),
      (BookHandler.Delete s.journaled c (st, log)).st =
        ((BookHandler.Delete s c st).st, log ++ (BookHandler.Delete s c st).calls) ∧
      (BookHandler.Delete s c st).calls.length ≤ 1 ∧
      ((BookHandler.Delete s c st).calls.map BookCall.op).Nodup) ∧
    (∀ {σ : Type} (s : memberStore σ) (c : Ctx Member) (g : String) (st : σ) (log : List MemberCall),
      (MemberHandler.Create s.journaled c g (st, log)).st =
        ((MemberHandler.Create s c g st).st, log ++ (MemberHandler.Create s c g st).calls) ∧
      (MemberHandler.Create s c g st).calls.length ≤ 1 ∧
      ((MemberHandler.Create s c g st).calls.map MemberCall.op).Nodup) ∧
    (∀ {σ α : Type} (s : memberStore σ) (c : Ctx α) (st : σ) (log : List MemberCall),
      (MemberHandler.Get s.journaled c (st, log)).st =
        ((MemberHandler.Get s c st).st, log ++ (MemberHandler.Get s c st).calls) ∧
      (MemberHandler.Get s c st).calls.length ≤ 1 ∧
      ((MemberHandler.Get s c st).calls.map MemberCall.op).Nodup) ∧
    (∀ {σ : Type} (s : memberStore σ) (c : Ctx Member) (st : σ) (log : List MemberCall),
      (MemberHandler.Update s.journaled c (st, log)).st =
        ((MemberHandler.Update s c st).st, log ++ (MemberHandler.Update s c st).calls) ∧
      (MemberHandler.Update s c st).calls.length ≤ 2 ∧
      (((MemberHandler.Update s c st).calls.map MemberCall.op = [] ∨
        (MemberHandler.Update s c st).calls.map MemberCall.op = ["Exists"]) ∨
        (MemberHandler.Update s c st).calls.map MemberCall.op = ["Exists", "Update"]) ∧
      ((MemberHandler.Update s c st).calls.map MemberCall.op).Nodup) ∧
    (∀ {σ α : Type} (s : memberStore σ) (c : Ctx α) (st : σ) (log : List MemberCall),
      (MemberHandler.Delete s.journaled c (st, log)).st =
        ((MemberHandler.Delete s c st).st, log ++ (MemberHandler.Delete s c st).calls) ∧
      (MemberHandler.Delete s c st).calls.length ≤ 1 ∧
      ((MemberHandler.Delete s c st).calls.map MemberCall.op).Nodup) ∧
    (∀ {σ : Type} (s : borrowedStore σ) (c : Ctx Borrowed) (st : σ) (log : List BorrowedCall),
      (BorrowedHandler.Create s.journaled c (st, log)).st =
        ((BorrowedHandler.Create s c st).st, log ++ (BorrowedHandler.Create s c st).calls) ∧
      (BorrowedHandler.Create s c st).calls.length ≤ 1 ∧
      ((BorrowedHandler.Create s c st).calls.map BorrowedCall.op).Nodup) ∧
    (∀ {σ α : Type} (s : borrowedStore σ) (c : Ctx α) (st : σ) (log : List BorrowedCall),
      (BorrowedHandler.Get s.journaled c (st, log)).st =
        ((BorrowedHandler.Get s c st).st, log ++ (BorrowedHandler.Get s c st).calls) ∧
      (BorrowedHandler.Get s c st).calls.length ≤ 1 ∧
      ((BorrowedHandler.Get s c st).calls.map BorrowedCall.op).Nodup) ∧
    (∀ {σ α : Type} (s : borrowedStore σ) (c : Ctx α) (st : σ) (log : List BorrowedCall),
      (BorrowedHandler.Delete s.journaled c (st, log)).st =
        ((BorrowedHandler.Delete s c st).st, log ++ (BorrowedHandler.Delete s c st).calls) ∧
      (BorrowedHandler.Delete s c st).calls.length ≤ 1 ∧
      ((BorrowedHandler.Delete s c st).calls.map BorrowedCall.op).Nodup) ∧
    (∀ {σ : Type} (s : borrowedStore σ) (c : Ctx (Slice String)) (st : σ) (log : List BorrowedCall),
      (BorrowedHandler.DeleteList s.journaled c (st, log)).st =
        ((BorrowedHandler.DeleteList s c st).st, log ++ (BorrowedHandler.DeleteList s c st).calls) ∧
      (BorrowedHandler.DeleteList s c st).calls.length ≤ 1 ∧
      ((BorrowedHandler.DeleteList s c st).calls.map BorrowedCall.op).Nodup) := by
  refine ⟨?_, ?_, ?_, ?_, ?_, ?_, ?_, ?_, ?_, ?_, ?_, ?_, ?_, ?_, ?_, ?_, ?_⟩
  · intro σ s c g st log
    cases hb : c.BodyParser with
    | error e => simp [AuthorHandler.Create, hb]
    | ok b =>
      rcases h : s.Create { b with ID := g } st with ⟨⟨_ | e1, a1⟩, st1⟩ <;>
        simp [AuthorHandler.Create, authorStore.journaled, hb, h, AuthorCall.op]
  · intro σ α s c st log
    rcases h : s.Get st with ⟨⟨seq, _ | e1⟩, st1⟩
    · by_cases hl : seq.len = 0 <;> simp [AuthorHandler.Get, authorStore.journaled, h, hl, AuthorCall.op]
    · simp [AuthorHandler.Get, authorStore.journaled, h, AuthorCall.op]
  · intro σ s c st log
    cases hb : c.BodyParser with
    | error e => simp [AuthorHandler.Update, hb]
    | ok b =>
      rcases h : s.Exists (c.Params "id") st with ⟨_ | e0, st1⟩
      · rcases hu : s.Update (c.Params "id") b st1 with ⟨⟨_ | e1, b1⟩, st2⟩ <;>
          simp [AuthorHandler.Update, authorStore.journaled, hb, h, hu, AuthorCall.op]
      · simp [AuthorHandler.Update, authorStore.journaled, hb, h, AuthorCall.op]
  · intro σ α s c st log
    rcases h : s.Delete (c.Params "id") st with ⟨_ | e1, st1⟩
    · simp [AuthorHandler.Delete, authorStore.journaled, h, AuthorCall.op]
    · cases hc : strings.Contains e1 "violates foreign key constraint" <;>
        simp [AuthorHandler.Delete, authorStore.journaled, h, hc, AuthorCall.op]
  · intro σ α s c st log
    rcases h : s.GetAuthorsBooks (c.Params "id") st with ⟨⟨seq, _ | e1⟩, st1⟩
    · by_cases hl : seq.len = 0 <;> simp [AuthorHandler.GetAuthorBooks, authorStore.journaled, h, hl, AuthorCall.op]
    · simp [AuthorHandler.GetAuthorBooks, authorStore.journaled, h, AuthorCall.op]
  · intro σ s c g st log
    cases hb : c.BodyParser with
    | error e => simp [BookHandler.Create, hb]
    | ok b =>
      rcases h : s.Create { b with ID := g } st with ⟨⟨_ | e1, a1⟩, st1⟩ <;>
        simp [BookHandler.Create, bookStore.journaled, hb, h, BookCall.op]
  · intro σ α s c st log
    rcases h : s.Get st with ⟨⟨seq, _ | e1⟩, st1⟩
    · by_cases hl : seq.len = 0 <;> simp [BookHandler.Get, bookStore.journaled, h, hl, BookCall.op]
    · simp [BookHandler.Get, bookStore.journaled, h, BookCall.op]
  · intro σ s c st log
    cases hb : c.BodyParser with
    | error e => simp [BookHandler.Update, hb]
    | ok b =>
      rcases h : s.Exists (c.Params "id") st with ⟨_ | e0, st1⟩
      · rcases hu : s.Update (c.Params "id") b st1 with ⟨⟨_ | e1, b1⟩, st2⟩ <;>
          simp [BookHandler.Update, bookStore.journaled, hb, h, hu, BookCall.op]
      · simp [BookHandler.Update, bookStore.journaled, hb, h, BookCall.op]
  · intro σ α s c st log
    rcases h : s.Delete (c.Params "id") st with ⟨_ | e1, st1⟩
    · simp [BookHandler.Delete, bookStore.journaled, h, BookCall.op]
    · cases hc : strings.Contains e1 "violates foreign key constraint" <;>
        simp [BookHandler.Delete, bookStore.journaled, h, hc, BookCall.op]
  · intro σ s c g st log
    cases hb : c.BodyParser with
    | error e => simp [MemberHandler.Create, hb]
    | ok b =>
      rcases h : s.Create { b with ID := g } st with ⟨⟨_ | e1, a1⟩, st1⟩ <;>
        simp [MemberHandler.Create, memberStore.journaled, hb, h, MemberCall.op]
  · intro σ α s c st log
    rcases h : s.Get st with ⟨⟨seq, _ | e1⟩, st1⟩
    · by_cases hl : seq.len = 0 <;> simp [MemberHandler.Get, memberStore.journaled, h, hl, MemberCall.op]
    · simp [MemberHandler.Get, memberStore.journaled, h, MemberCall.op]
  · intro σ s c st log
    cases hb : c.BodyParser with
    | error e => simp [MemberHandler.Update, hb]
    | ok b =>
      rcases h : s.Exists (c.Params "id") st with ⟨_ | e0, st1⟩
      · rcases hu : s.Update (c.Params "id") b st1 with ⟨⟨_ | e1, b1⟩, st2⟩ <;>
          simp [MemberHandler.Update, memberStore.journaled, hb, h, hu, MemberCall.op]
      · simp [MemberHandler.Update, memberStore.journaled, hb, h, MemberCall.op]
  · intro σ α s c st log
    rcases h : s.Delete (c.Params "id") st with ⟨_ | e1, st1⟩
    · simp [MemberHandler.Delete, memberStore.journaled, h, MemberCall.op]
    · cases hc : strings.Contains e1 "violates foreign key constraint" <;>
        simp [MemberHandler.Delete, memberStore.journaled, h, hc, MemberCall.op]
  · intro σ s c st log
    cases hb : c.BodyParser with
    | error e => simp [BorrowedHandler.Create, hb]
    | ok b =>
      rcases h : s.Create b st with ⟨⟨_ | e1, a1⟩, st1⟩ <;>
        simp [BorrowedHandler.Create, borrowedStore.journaled, hb, h, BorrowedCall.op]
  · intro σ α s c st log
    rcases h : s.Get (c.Params "id") st with ⟨⟨seq, _ | e1⟩, st1⟩
    · by_cases hl : seq.len = 0 <;> simp [BorrowedHandler.Get, borrowedStore.journaled, h, hl, BorrowedCall.op]
    · simp [BorrowedHandler.Get, borrowedStore.journaled, h, BorrowedCall.op]
  · intro σ α s c st log
    rcases h : s.Delete (c.Params "id") (c.Params "book_id") st with ⟨_ | e1, st1⟩ <;>
      simp [BorrowedHandler.Delete, borrowedStore.journaled, h, BorrowedCall.op]
  · intro σ s c st log
    cases hb : c.BodyParser with
    | error e => simp [BorrowedHandler.DeleteList, hb]
    | ok b =>
      rcases h : s.DeleteList (c.Params "id") b st with ⟨_ | e1, st1⟩ <;>
        simp [BorrowedHandler.DeleteList, borrowedStore.journaled, hb, h, BorrowedCall.op]

/-- The calls a member store received during one Create request against a database that
accepts the insert, and the statements that database received. -/
theorem store_calls_per_request_at_member_create :
    (MemberHandler.Create
        (store.NewMemberStore (sample.scripted (.error "unused") none)).journaled
        (sample.parsed sample.member) "generated" (0, [])).st =
      (1, [.Create ⟨"generated", "Samir Kenzhe"⟩]) ∧
    (MemberHandler.Create
        (store.NewMemberStore (store.journaled (sample.scripted (.error "unused") none)))
        (sample.parsed sample.member) "generated" (0, [])).st =
      (1, [("INSERT INTO members(id, full_name) VALUES ($1, $2)",
        [.str "generated", .str "Samir Kenzhe"])]) :=
  ⟨rfl, rfl⟩

end handler

namespace store

open model

/-- Appending to a slice appends to its elements. -/
theorem elems_append {α : Type} (s : Slice α) (x : α) :
    (Slice.append s x).elems = s.elems ++ [x] := by
  cases s <;> simp [Slice.append, Slice.elems]

/-- Appending to a slice gives a non-nil slice. -/
theorem append_eq_some {α : Type} (s : Slice α) (x : α) :
    Slice.append s x = some (s.elems ++ [x]) := by
  cases s <;> simp [Slice.append, Slice.elems]

/-- The read loop over rows that all scan: nothing is lost, nothing is reordered, and the
error is nil.  With no row the accumulator comes back as it was. -/
theorem scanLoop_all_ok {V α : Type} (scan : List V → Except String α) :
    ∀ (rows : List (List V)) (ents : List α) (acc : Slice α),
      rows.map scan = ents.map Except.ok →
      (ents = [] → scanLoop scan rows acc = (acc, none)) ∧
      (ents ≠ [] → scanLoop scan rows acc = (some (acc.elems ++ ents), none)) := by
  intro rows
  induction rows with
  | nil =>
    intro ents acc h
    cases ents with
    | nil => simp [scanLoop]
    | cons a rest => simp at h
  | cons row rest ih =>
    intro ents acc h
    cases ents with
    | nil => simp at h
    | cons a as =>
      simp only [List.map_cons, List.cons.injEq] at h
      obtain ⟨h1, h2⟩ := h
      have ih1 := ih as (Slice.append acc a) h2
      refine ⟨by simp, fun _ => ?_⟩
      cases as with
      | nil =>
        rw [scanLoop, h1]
        simp only
        rw [ih1.1 rfl, append_eq_some]
      | cons a2 as2 =>
        rw [scanLoop, h1]
        simp only
        rw [ih1.2 (by simp), elems_append]
        simp

/-- The read loop started from the nil slice over rows that all scan. -/
theorem scanLoop_from_nil {V α : Type} (scan : List V → Except String α)
    (rows : List (List V)) (ents : List α) (h : rows.map scan = ents.map Except.ok) :
    scanLoop scan rows none = (Slice.ofList ents, none) := by
  cases ents with
  | nil => simpa [Slice.ofList] using (scanLoop_all_ok scan rows [] none h).1 rfl
  | cons a as =>
    simpa [Slice.ofList, Slice.elems] using
      (scanLoop_all_ok scan rows (a :: as) none h).2 (by simp)

/-- The read loop when a row fails to scan after rows that scanned: the accumulated rows are
dropped and the scan error is returned. -/
theorem scanLoop_scan_error {V α : Type} (scan : List V → Except String α) :
    ∀ (pre : List (List V)) (ents : List α) (row : List V) (post : List (List V))
      (e : String) (acc : Slice α),
      pre.map scan = ents.map Except.ok → scan row = .error e →
      scanLoop scan (pre ++ row :: post) acc = (none, some e) := by
  intro pre
  induction pre with
  | nil =>
    intro ents row post e acc _ he
    simp [scanLoop, he]
  | cons r rs ih =>
    intro ents row post e acc h he
    cases ents with
    | nil => simp at h
    | cons a as =>
      simp only [List.map_cons, List.cons.injEq] at h
      obtain ⟨h1, h2⟩ := h
      rw [List.cons_append, scanLoop, h1]
      simp only
      exact ih as row post e (Slice.append acc a) h2 he

/-- The length of the slice built from a list. -/
theorem len_ofList {α : Type} (l : List α) : (Slice.ofList l).len = l.length := by
  cases l <;> simp [Slice.ofList, Slice.len]

/-- The elements of the slice built from a list. -/
theorem elems_ofList {α : Type} (l : List α) : (Slice.ofList l).elems = l := by
  cases l <;> simp [Slice.ofList, Slice.elems]

/-- A row scans to an author exactly when it has four columns that convert, by position, to
the id, full_name, nick_name and specialization of that author. -/
theorem scanAuthor_ok_iff {σ V : Type} (db : DB σ V) (row : List V) (a : Author) :
    scanAuthor db row = .ok a ↔
      ∃ c1 c2 c3 c4, row = [c1, c2, c3, c4] ∧ db.asString c1 = .ok a.ID ∧
        db.asNullString c2 = .ok a.FullName ∧ db.asString c3 = .ok a.NickName ∧
        db.asString c4 = .ok a.Specialization := by
  rcases row with _ | ⟨c1, _ | ⟨c2, _ | ⟨c3, _ | ⟨c4, _ | ⟨c5, rest⟩⟩⟩⟩⟩ <;>
    first | (simp [scanAuthor]; done) | skip
  constructor
  · intro h
    simp only [scanAuthor] at h
    refine ⟨c1, c2, c3, c4, rfl, ?_⟩
    cases h1 : db.asString c1 <;> cases h2 : db.asNullString c2 <;>
      cases h3 : db.asString c3 <;> cases h4 : db.asString c4 <;> simp_all
    subst h
    exact ⟨rfl, rfl, rfl, rfl⟩
  · rintro ⟨d1, d2, d3, d4, hrow, g1, g2, g3, g4⟩
    simp only [List.cons.injEq, and_true] at hrow
    obtain ⟨rfl, rfl, rfl, rfl⟩ := hrow
    simp [scanAuthor, g1, g2, g3, g4]

end store

namespace store

open model

/-- A row scans to a book exactly when it has five columns that convert, by position, to the
id, authors_id, title, genre and isbn of that book, whose embedded author is the zero value. -/
theorem scanBook_ok_iff {σ V : Type} (db : DB σ V) (row : List V) (b : Book) :
    scanBook db row = .ok b ↔
      ∃ c1 c2 c3 c4 c5, row = [c1, c2, c3, c4, c5] ∧ db.asString c1 = .ok b.ID ∧
        db.asString c2 = .ok b.AuthorsID ∧ db.asString c3 = .ok b.Title ∧
        db.asString c4 = .ok b.Genre ∧ db.asString c5 = .ok b.ISBN ∧
        b.Author = Author.zero := by
  rcases row with _ | ⟨c1, _ | ⟨c2, _ | ⟨c3, _ | ⟨c4, _ | ⟨c5, _ | ⟨c6, rest⟩⟩⟩⟩⟩⟩ <;>
    first | (simp [scanBook]; done) | skip
  constructor
  · intro h
    simp only [scanBook] at h
    refine ⟨c1, c2, c3, c4, c5, rfl, ?_⟩
    cases h1 : db.asString c1 <;> cases h2 : db.asString c2 <;>
      cases h3 : db.asString c3 <;> cases h4 : db.asString c4 <;>
      cases h5 : db.asString c5 <;> simp_all
    subst h
    exact ⟨rfl, rfl, rfl, rfl, rfl, rfl⟩
  · rintro ⟨d1, d2, d3, d4, d5, hrow, g1, g2, g3, g4, g5, g6⟩
    simp only [List.cons.injEq, and_true] at hrow
    obtain ⟨rfl, rfl, rfl, rfl, rfl⟩ := hrow
    cases b
    simp_all [scanBook]

/-- A row scans to a member exactly when it has two columns that convert, by position, to
the id and full_name of that member. -/
theorem scanMember_ok_iff {σ V : Type} (db : DB σ V) (row : List V) (m : Member) :
    scanMember db row = .ok m ↔
      ∃ c1 c2, row = [c1, c2] ∧ db.asString c1 = .ok m.ID ∧
        db.asString c2 = .ok m.FullName := by
  rcases row with _ | ⟨c1, _ | ⟨c2, _ | ⟨c3, rest⟩⟩⟩ <;>
    first | (simp [scanMember]; done) | skip
  constructor
  · intro h
    simp only [scanMember] at h
    refine ⟨c1, c2, rfl, ?_⟩
    cases h1 : db.asString c1 <;> cases h2 : db.asString c2 <;> simp_all
    subst h
    exact ⟨rfl, rfl⟩
  · rintro ⟨d1, d2, hrow, g1, g2⟩
    simp only [List.cons.injEq, and_true] at hrow
    obtain ⟨rfl, rfl⟩ := hrow
    simp [scanMember, g1, g2]

/-- A row of the borrowed-books read scans to a book exactly when it has four columns that
convert, by position, to the title, the author's full_name, the genre and the isbn, every
other field of the book and of its embedded author being empty. -/
theorem scanBorrowed_ok_iff {σ V : Type} (db : DB σ V) (row : List V) (b : Book) :
    scanBorrowed db row = .ok b ↔
      ∃ c1 c2 c3 c4, row = [c1, c2, c3, c4] ∧ db.asString c1 = .ok b.Title ∧
        db.asNullString c2 = .ok b.Author.FullName ∧ db.asString c3 = .ok b.Genre ∧
        db.asString c4 = .ok b.ISBN ∧ b.ID = "" ∧ b.AuthorsID = "" ∧ b.Author.ID = "" ∧
        b.Author.NickName = "" ∧ b.Author.Specialization = "" := by
  rcases row with _ | ⟨c1, _ | ⟨c2, _ | ⟨c3, _ | ⟨c4, _ | ⟨c5, rest⟩⟩⟩⟩⟩ <;>
    first | (simp [scanBorrowed]; done) | skip
  constructor
  · intro h
    simp only [scanBorrowed] at h
    refine ⟨c1, c2, c3, c4, rfl, ?_⟩
    cases h1 : db.asString c1 <;> cases h2 : db.asNullString c2 <;>
      cases h3 : db.asString c3 <;> cases h4 : db.asString c4 <;> simp_all
    subst h
    exact ⟨rfl, rfl, rfl, rfl, rfl, rfl, rfl, rfl, rfl⟩
  · rintro ⟨d1, d2, d3, d4, hrow, g1, g2, g3, g4, g5, g6, g7, g8, g9⟩
    simp only [List.cons.injEq, and_true] at hrow
    obtain ⟨rfl, rfl, rfl, rfl⟩ := hrow
    obtain ⟨id, aid, title, genre, isbn, ⟨xid, xfn, xnn, xsp⟩⟩ := b
    simp_all [scanBorrowed, Book.zero, Author.zero]

/-- A row of the titles read scans exactly when it has one column, to what that column
converts to. -/
theorem scanTitle_ok_iff {σ V : Type} (db : DB σ V) (row : List V) (t : String) :
    scanTitle db row = .ok t ↔ ∃ c1, row = [c1] ∧ db.asString c1 = .ok t := by
  rcases row with _ | ⟨c1, _ | ⟨c2, rest⟩⟩ <;> simp [scanTitle]

end store

namespace store

open model

/-- Rows that scan one by one to the entities of `ents` scan as a whole to `ents`. -/
theorem map_scan_of_forall₂ {V α : Type} {scan : List V → Except String α}
    {rows : List (List V)} {ents : List α}
    (h : List.Forall₂ (fun r a => scan r = .ok a) rows ents) :
    rows.map scan = ents.map Except.ok := by
  induction h with
  | nil => rfl
  | cons h1 _ ih => simp [h1, ih]

/-- C15. The three list reads on success: when the query succeeds and every delivered row
converts, column by column in position, to an entity (Author: id, full_name, nick_name,
specialization; Book: id, authors_id, title, genre, isbn, embedded Author zero; Member: id,
full_name), `Get` returns exactly those entities, one per row and in row order, with a nil
error. -/
theorem get_returns_one_entity_per_row_in_order :
    (∀ {σ V : Type} (db : DB σ V) (st st1 : σ) (rows : Rows V) (ents : List Author),
      db.Query "SELECT * FROM authors" [] st = (.ok rows, st1) →
      List.Forall₂ (fun row a => ∃ c1 c2 c3 c4, row = [c1, c2, c3, c4] ∧
        db.asString c1 = .ok a.ID ∧ db.asNullString c2 = .ok a.FullName ∧
        db.asString c3 = .ok a.NickName ∧ db.asString c4 = .ok a.Specialization)
        rows.delivered ents →
      AuthorStore.Get db st = ((Slice.ofList ents, none), st1) ∧
      (AuthorStore.Get db st).1.1.elems = ents ∧
      (AuthorStore.Get db st).1.1.len = rows.delivered.length ∧
      (AuthorStore.Get db st).1.2 = none) ∧
    (∀ {σ V : Type} (db : DB σ V) (st st1 : σ) (rows : Rows V) (ents : List Book),
      db.Query "SELECT * FROM books" [] st = (.ok rows, st1) →
      List.Forall₂ (fun row b => ∃ c1 c2 c3 c4 c5, row = [c1, c2, c3, c4, c5] ∧
        db.asString c1 = .ok b.ID ∧ db.asString c2 = .ok b.AuthorsID ∧
        db.asString c3 = .ok b.Title ∧ db.asString c4 = .ok b.Genre ∧
        db.asString c5 = .ok b.ISBN ∧ b.Author = Author.zero)
        rows.delivered ents →
      BookStore.Get db st = ((Slice.ofList ents, none), st1) ∧
      (BookStore.Get db st).1.1.elems = ents ∧
      (BookStore.Get db st).1.1.len = rows.delivered.length ∧
      (BookStore.Get db st).1.2 = none) ∧
    (∀ {σ V : Type} (db : DB σ V) (st st1 : σ) (rows : Rows V) (ents : List Member),
      db.Query "SELECT * FROM members" [] st = (.ok rows, st1) →
      List.Forall₂ (fun row m => ∃ c1 c2, row = [c1, c2] ∧
        db.asString c1 = .ok m.ID ∧ db.asString c2 = .ok m.FullName)
        rows.delivered ents →
      MemberStore.Get db st = ((Slice.ofList ents, none), st1) ∧
      (MemberStore.Get db st).1.1.elems = ents ∧
      (MemberStore.Get db st).1.1.len = rows.delivered.length ∧
      (MemberStore.Get db st).1.2 = none) := by
  refine ⟨?_, ?_, ?_⟩
  · intro σ V db st st1 rows ents hq hrows
    have hmap : rows.delivered.map (scanAuthor db) = ents.map Except.ok :=
      map_scan_of_forall₂ (hrows.imp fun _ _ h => (scanAuthor_ok_iff db _ _).2 h)
    have hget : AuthorStore.Get db st = ((Slice.ofList ents, none), st1) := by
      simp [AuthorStore.Get, hq, scanLoop_from_nil _ _ _ hmap]
    simp [hget, elems_ofList, len_ofList, hrows.length_eq]
  · intro σ V db st st1 rows ents hq hrows
    have hmap : rows.delivered.map (scanBook db) = ents.map Except.ok :=
      map_scan_of_forall₂ (hrows.imp fun _ _ h => (scanBook_ok_iff db _ _).2 h)
    have hget : BookStore.Get db st = ((Slice.ofList ents, none), st1) := by
      simp [BookStore.Get, hq, scanLoop_from_nil _ _ _ hmap]
    simp [hget, elems_ofList, len_ofList, hrows.length_eq]
  · intro σ V db st st1 rows ents hq hrows
    have hmap : rows.delivered.map (scanMember db) = ents.map Except.ok :=
      map_scan_of_forall₂ (hrows.imp fun _ _ h => (scanMember_ok_iff db _ _).2 h)
    have hget : MemberStore.Get db st = ((Slice.ofList ents, none), st1) := by
      simp [MemberStore.Get, hq, scanLoop_from_nil _ _ _ hmap]
    simp [hget, elems_ofList, len_ofList, hrows.length_eq]

/-- Witness for C15: two member rows are returned as two members, first row first. -/
theorem get_returns_one_entity_per_row_in_order_witness :
    MemberStore.Get
        (sample.scripted
          (.ok ⟨[[.text "1", .text "Samir Kenzhe"], [.text "2", .text "Amina Tulegen"]], none⟩)
          none) 0 =
      ((some [⟨"1", "Samir Kenzhe"⟩, ⟨"2", "Amina Tulegen"⟩], none), 1) :=
  (get_returns_one_entity_per_row_in_order.2.2
    (sample.scripted
      (.ok ⟨[[.text "1", .text "Samir Kenzhe"], [.text "2", .text "Amina Tulegen"]], none⟩)
      none) 0 1
    ⟨[[.text "1", .text "Samir Kenzhe"], [.text "2", .text "Amina Tulegen"]], none⟩
    [⟨"1", "Samir Kenzhe"⟩, ⟨"2", "Amina Tulegen"⟩] rfl
    (.cons ⟨_, _, rfl, rfl, rfl⟩ (.cons ⟨_, _, rfl, rfl, rfl⟩ .nil))).1

end store

namespace store

open model

/-- Rows that each scan scan as a whole to some list of entities. -/
theorem exists_ents_of_all_ok {V α : Type} (scan : List V → Except String α) :
    ∀ (rows : List (List V)), (∀ r ∈ rows, ∃ a, scan r = .ok a) →
      ∃ ents : List α, rows.map scan = ents.map Except.ok := by
  intro rows
  induction rows with
  | nil => intro _; exact ⟨[], rfl⟩
  | cons r rs ih =>
    intro h
    obtain ⟨a, ha⟩ := h r (by simp)
    obtain ⟨as, has⟩ := ih (fun x hx => h x (by simp [hx]))
    exact ⟨a :: as, by simp [ha, has]⟩

/-- C16. A scan failure in a list read: for `AuthorStore.Get`, `BookStore.Get`,
`MemberStore.Get`, `BorrowedStore.Get` and `AuthorStore.GetAuthorsBooks`, when the rows
before some row all scan and that row fails to scan with error `e`, the read returns the nil
slice (the rows accumulated so far are dropped) together with `e` itself, and the handler
built on that store answers 500 "server error", not 200. -/
theorem scan_failure_returns_nil_and_the_scan_error :
    (∀ {σ V α : Type} (db : DB σ V) (st st1 : σ) (rows : Rows V)
        (pre : List (List V)) (row : List V) (post : List (List V)) (e : String)
        (c : fiber.Ctx α),
      db.Query "SELECT * FROM authors" [] st = (.ok rows, st1) →
      rows.delivered = pre ++ row :: post →
      (∀ r ∈ pre, ∃ a, scanAuthor db r = .ok a) → scanAuthor db row = .error e →
      AuthorStore.Get db st = ((none, some e), st1) ∧
      ((handler.AuthorHandler.Get (NewAuthorStore db) c st).resp =
          ⟨500, .map [("error", "server error")]⟩ ∧
        (handler.AuthorHandler.Get (NewAuthorStore db) c st).resp.status ≠ 200)) ∧
    (∀ {σ V α : Type} (db : DB σ V) (st st1 : σ) (rows : Rows V)
        (pre : List (List V)) (row : List V) (post : List (List V)) (e : String)
        (c : fiber.Ctx α),
      db.Query "SELECT * FROM books" [] st = (.ok rows, st1) →
      rows.delivered = pre ++ row :: post →
      (∀ r ∈ pre, ∃ a, scanBook db r = .ok a) → scanBook db row = .error e →
      BookStore.Get db st = ((none, some e), st1) ∧
      ((handler.BookHandler.Get (NewBookStore db) c st).resp =
          ⟨500, .map [("error", "server error")]⟩ ∧
        (handler.BookHandler.Get (NewBookStore db) c st).resp.status ≠ 200)) ∧
    (∀ {σ V α : Type} (db : DB σ V) (st st1 : σ) (rows : Rows V)
        (pre : List (List V)) (row : List V) (post : List (List V)) (e : String)
        (c : fiber.Ctx α),
      db.Query "SELECT * FROM members" [] st = (.ok rows, st1) →
      rows.delivered = pre ++ row :: post →
      (∀ r ∈ pre, ∃ a, scanMember db r = .ok a) → scanMember db row = .error e →
      MemberStore.Get db st = ((none, some e), st1) ∧
      ((handler.MemberHandler.Get (NewMemberStore db) c st).resp =
          ⟨500, .map [("error", "server error")]⟩ ∧
        (handler.MemberHandler.Get (NewMemberStore db) c st).resp.status ≠ 200)) ∧
    (∀ {σ V α : Type} (db : DB σ V) (id : String) (st st1 : σ) (rows : Rows V)
        (pre : List (List V)) (row : List V) (post : List (List V)) (e : String)
        (c : fiber.Ctx α),
      db.Query "SELECT books.title, authors.full_name, books.genre, books.isbn\n\t\t\t\t\t\t\t\t\tFROM books, authors, borrowed_books\n\t\t\t\t\t\t\t\t\tWHERE (authors.id = books.authors_id \n\t\t\t\t\t\t\t\t\t           AND books.id = borrowed_books.book_id \n\t\t\t\t\t\t\t\t\t           AND borrowed_books.member_id = $1)" [.str id] st = (.ok rows, st1) →
      rows.delivered = pre ++ row :: post →
      (∀ r ∈ pre, ∃ a, scanBorrowed db r = .ok a) → scanBorrowed db row = .error e →
      BorrowedStore.Get db id st = ((none, some e), st1) ∧
      (c.Params "id" = id →
        (handler.BorrowedHandler.Get (NewBorrowedStore db) c st).resp =
          ⟨500, .map [("error", "server error")]⟩ ∧
        (handler.BorrowedHandler.Get (NewBorrowedStore db) c st).resp.status ≠ 200)) ∧
    (∀ {σ V α : Type} (db : DB σ V) (id : String) (st st1 : σ) (rows : Rows V)
        (pre : List (List V)) (row : List V) (post : List (List V)) (e : String)
        (c : fiber.Ctx α),
      db.Query "SELECT title FROM books WHERE authors_id = $1" [.str id] st = (.ok rows, st1) →
      rows.delivered = pre ++ row :: post →
      (∀ r ∈ pre, ∃ a, scanTitle db r = .ok a) → scanTitle db row = .error e →
      AuthorStore.GetAuthorsBooks db id st = ((none, some e), st1) ∧
      (c.Params "id" = id →
        (handler.AuthorHandler.GetAuthorBooks (NewAuthorStore db) c st).resp =
          ⟨500, .map [("error", "server error")]⟩ ∧
        (handler.AuthorHandler.GetAuthorBooks (NewAuthorStore db) c st).resp.status ≠ 200)) := by
  refine ⟨?_, ?_, ?_, ?_, ?_⟩
  · intro σ V α db st st1 rows pre row post e c hq hrows hpre hrow
    obtain ⟨ents, hents⟩ := exists_ents_of_all_ok (scanAuthor db) pre hpre
    have hget : AuthorStore.Get db st = ((none, some e), st1) := by
      simp [AuthorStore.Get, hq, hrows, scanLoop_scan_error _ pre ents row post e none hents hrow]
    refine ⟨hget, ?_⟩
    simp [handler.AuthorHandler.Get, NewAuthorStore, hget, fiber.StatusInternalServerError]
  · intro σ V α db st st1 rows pre row post e c hq hrows hpre hrow
    obtain ⟨ents, hents⟩ := exists_ents_of_all_ok (scanBook db) pre hpre
    have hget : BookStore.Get db st = ((none, some e), st1) := by
      simp [BookStore.Get, hq, hrows, scanLoop_scan_error _ pre ents row post e none hents hrow]
    refine ⟨hget, ?_⟩
    simp [handler.BookHandler.Get, NewBookStore, hget, fiber.StatusInternalServerError]
  · intro σ V α db st st1 rows pre row post e c hq hrows hpre hrow
    obtain ⟨ents, hents⟩ := exists_ents_of_all_ok (scanMember db) pre hpre
    have hget : MemberStore.Get db st = ((none, some e), st1) := by
      simp [MemberStore.Get, hq, hrows, scanLoop_scan_error _ pre ents row post e none hents hrow]
    refine ⟨hget, ?_⟩
    simp [handler.MemberHandler.Get, NewMemberStore, hget, fiber.StatusInternalServerError]
  · intro σ V α db id st st1 rows pre row post e c hq hrows hpre hrow
    obtain ⟨ents, hents⟩ := exists_ents_of_all_ok (scanBorrowed db) pre hpre
    have hget : BorrowedStore.Get db id st = ((none, some e), st1) := by
      simp [BorrowedStore.Get, hq, hrows, scanLoop_scan_error _ pre ents row post e none hents hrow]
    refine ⟨hget, ?_⟩
    intro hid
    subst hid
    simp [handler.BorrowedHandler.Get, NewBorrowedStore, hget, fiber.StatusInternalServerError]
  · intro σ V α db id st st1 rows pre row post e c hq hrows hpre hrow
    obtain ⟨ents, hents⟩ := exists_ents_of_all_ok (scanTitle db) pre hpre
    have hget : AuthorStore.GetAuthorsBooks db id st = ((none, some e), st1) := by
      simp [AuthorStore.GetAuthorsBooks, hq, hrows, scanLoop_scan_error _ pre ents row post e none hents hrow]
    refine ⟨hget, ?_⟩
    intro hid
    subst hid
    simp [handler.AuthorHandler.GetAuthorBooks, NewAuthorStore, hget, fiber.StatusInternalServerError]

/-- Witness for C16: the second author row has one column only; the first row is dropped. -/
theorem scan_failure_returns_nil_and_the_scan_error_witness :
    AuthorStore.Get
        (sample.scripted
          (.ok ⟨[[.text "1", .null, .text "n1", .text "s1"], [.text "hello"]], none⟩)
          none) 0 =
      ((none, some "sql: expected 1 destination arguments in Scan, not 4"), 1) ∧
    ((handler.AuthorHandler.Get
        (NewAuthorStore (sample.scripted
          (.ok ⟨[[.text "1", .null, .text "n1", .text "s1"], [.text "hello"]], none⟩)
          none)) (sample.parsed ()) 0).resp =
        ⟨500, .map [("error", "server error")]⟩ ∧
      (handler.AuthorHandler.Get
        (NewAuthorStore (sample.scripted
          (.ok ⟨[[.text "1", .null, .text "n1", .text "s1"], [.text "hello"]], none⟩)
          none)) (sample.parsed ()) 0).resp.status ≠ 200) :=
  scan_failure_returns_nil_and_the_scan_error.1
    (sample.scripted
      (.ok ⟨[[.text "1", .null, .text "n1", .text "s1"], [.text "hello"]], none⟩)
      none) 0 1
    ⟨[[.text "1", .null, .text "n1", .text "s1"], [.text "hello"]], none⟩
    [[.text "1", .null, .text "n1", .text "s1"]] [.text "hello"] []
    "sql: expected 1 destination arguments in Scan, not 4" (sample.parsed ()) rfl rfl
    (by
      intro r hr
      simp only [List.mem_singleton] at hr
      subst hr
      exact ⟨⟨"1", none, "n1", "s1"⟩, rfl⟩)
    rfl

end store

namespace store

open model

/-- C17. `Exists` on a one-row result, for the Author, Book and Member stores: nil when the
row scans to true; a new error "<entity> does not exist" when it scans to false; the scan
error itself when the row does not scan into a single boolean (a column that does not
convert, or a number of columns other than one); and when the query fails, the query error
itself. -/
theorem exists_on_one_row_result :
    (∀ {σ V : Type} (db : DB σ V) (id : String) (st st1 : σ),
      (∀ e, db.Query "SELECT EXISTS (SELECT 1 FROM authors WHERE id = $1)" [.str id] st =
          (.error e, st1) → AuthorStore.Exists db id st = (some e, st1)) ∧
      (∀ (rows : Rows V) (row : List V),
        db.Query "SELECT EXISTS (SELECT 1 FROM authors WHERE id = $1)" [.str id] st =
          (.ok rows, st1) → rows.delivered = [row] →
        (scanExists db row = .ok true → AuthorStore.Exists db id st = (none, st1)) ∧
        (scanExists db row = .ok false →
          AuthorStore.Exists db id st = (some "author does not exist", st1)) ∧
        (∀ e, scanExists db row = .error e → AuthorStore.Exists db id st = (some e, st1)))) ∧
    (∀ {σ V : Type} (db : DB σ V) (id : String) (st st1 : σ),
      (∀ e, db.Query "SELECT EXISTS (SELECT 1 FROM books WHERE id = $1)" [.str id] st =
          (.error e, st1) → BookStore.Exists db id st = (some e, st1)) ∧
      (∀ (rows : Rows V) (row : List V),
        db.Query "SELECT EXISTS (SELECT 1 FROM books WHERE id = $1)" [.str id] st =
          (.ok rows, st1) → rows.delivered = [row] →
        (scanExists db row = .ok true → BookStore.Exists db id st = (none, st1)) ∧
        (scanExists db row = .ok false →
          BookStore.Exists db id st = (some "book does not exist", st1)) ∧
        (∀ e, scanExists db row = .error e → BookStore.Exists db id st = (some e, st1)))) ∧
    (∀ {σ V : Type} (db : DB σ V) (id : String) (st st1 : σ),
      (∀ e, db.Query "SELECT EXISTS (SELECT 1 FROM members WHERE id = $1)" [.str id] st =
          (.error e, st1) → MemberStore.Exists db id st = (some e, st1)) ∧
      (∀ (rows : Rows V) (row : List V),
        db.Query "SELECT EXISTS (SELECT 1 FROM members WHERE id = $1)" [.str id] st =
          (.ok rows, st1) → rows.delivered = [row] →
        (scanExists db row = .ok true → MemberStore.Exists db id st = (none, st1)) ∧
        (scanExists db row = .ok false →
          MemberStore.Exists db id st = (some "member does not exist", st1)) ∧
        (∀ e, scanExists db row = .error e → MemberStore.Exists db id st = (some e, st1)))) ∧
    (∀ {σ V : Type} (db : DB σ V) (row : List V),
      (∀ v, row = [v] → scanExists db row = db.asBool v) ∧
      (row.length ≠ 1 → scanExists db row = .error (scanArity row.length 1))) := by
  refine ⟨?_, ?_, ?_, ?_⟩
  · intro σ V db id st st1
    refine ⟨fun e hq => by simp [AuthorStore.Exists, hq], ?_⟩
    intro rows row hq hrows
    refine ⟨?_, ?_, ?_⟩
    · intro h
      simp [AuthorStore.Exists, hq, hrows, existsLoop, h]
    · intro h
      simp [AuthorStore.Exists, hq, hrows, existsLoop, h]
    · intro e h
      simp [AuthorStore.Exists, hq, hrows, existsLoop, h]
  · intro σ V db id st st1
    refine ⟨fun e hq => by simp [BookStore.Exists, hq], ?_⟩
    intro rows row hq hrows
    refine ⟨?_, ?_, ?_⟩
    · intro h
      simp [BookStore.Exists, hq, hrows, existsLoop, h]
    · intro h
      simp [BookStore.Exists, hq, hrows, existsLoop, h]
    · intro e h
      simp [BookStore.Exists, hq, hrows, existsLoop, h]
  · intro σ V db id st st1
    refine ⟨fun e hq => by simp [MemberStore.Exists, hq], ?_⟩
    intro rows row hq hrows
    refine ⟨?_, ?_, ?_⟩
    · intro h
      simp [MemberStore.Exists, hq, hrows, existsLoop, h]
    · intro h
      simp [MemberStore.Exists, hq, hrows, existsLoop, h]
    · intro e h
      simp [MemberStore.Exists, hq, hrows, existsLoop, h]
  · intro σ V db row
    constructor
    · rintro v rfl
      rfl
    · intro hlen
      rcases row with _ | ⟨c1, _ | ⟨c2, rest⟩⟩
      · rfl
      · simp at hlen
      · rfl

/-- Witness for C17: a member existence row that is false, and one with two columns. -/
theorem exists_on_one_row_result_witness :
    MemberStore.Exists (sample.scripted (.ok ⟨[[.bool false]], none⟩) none) "7" 0 =
      (some "member does not exist", 1) ∧
    MemberStore.Exists
        (sample.scripted (.ok ⟨[[.text "hello", .text "world"]], none⟩) none) "7" 0 =
      (some "sql: expected 2 destination arguments in Scan, not 1", 1) :=
  ⟨((exists_on_one_row_result.2.2.1
      (sample.scripted (.ok ⟨[[.bool false]], none⟩) none) "7" 0 1).2
      ⟨[[.bool false]], none⟩ [.bool false] rfl rfl).2.1 rfl,
    ((exists_on_one_row_result.2.2.1
      (sample.scripted (.ok ⟨[[.text "hello", .text "world"]], none⟩) none) "7" 0 1).2
      ⟨[[.text "hello", .text "world"]], none⟩ [.text "hello", .text "world"] rfl rfl).2.2
      "sql: expected 2 destination arguments in Scan, not 1" rfl⟩

end store

namespace store

open model

/-- A read loop that ends with a nil error scanned every row, and returns what it was
given followed by the scanned entities in row order. -/
theorem scanLoop_nil_error {V α : Type} (scan : List V → Except String α) :
    ∀ (rows : List (List V)) (acc s : Slice α), scanLoop scan rows acc = (s, none) →
      ∃ ents : List α, rows.map scan = ents.map Except.ok ∧ s.elems = acc.elems ++ ents := by
  intro rows
  induction rows with
  | nil =>
    intro acc s h
    simp only [scanLoop, Prod.mk.injEq, and_true] at h
    exact ⟨[], rfl, by simp [h]⟩
  | cons r rs ih =>
    intro acc s h
    cases hr : scan r with
    | error e => simp [scanLoop, hr] at h
    | ok a =>
      rw [scanLoop, hr] at h
      obtain ⟨ents, h1, h2⟩ := ih (Slice.append acc a) s h
      exact ⟨a :: ents, by simp [h1, hr], by simp [h2, elems_append]⟩

/-- Rows that scan as a whole to `ents` scan one by one to the entities of `ents`. -/
theorem forall₂_of_map_scan {V α : Type} (scan : List V → Except String α) :
    ∀ (rows : List (List V)) (ents : List α), rows.map scan = ents.map Except.ok →
      List.Forall₂ (fun r a => scan r = .ok a) rows ents := by
  intro rows
  induction rows with
  | nil =>
    intro ents h
    cases ents with
    | nil => exact .nil
    | cons a as => simp at h
  | cons r rs ih =>
    intro ents h
    cases ents with
    | nil => simp at h
    | cons a as =>
      simp only [List.map_cons, List.cons.injEq] at h
      exact .cons h.1 (ih as h.2)

/-- C18. The borrowed-books read: for every member id, when the query succeeds, rows that
convert give back one Book per row, in row order, and every Book that `BorrowedStore.Get`
returns with a nil error has Title, Genre and ISBN converted from columns 1, 3 and 4 of its
row, an embedded Author whose FullName is the conversion of column 2 (nil when that
conversion yields nil) and whose ID, NickName and Specialization are empty, and an empty ID
and AuthorsID of its own. -/
theorem borrowed_get_fills_title_author_name_genre_isbn :
    ∀ {σ V : Type} (db : DB σ V) (id : String) (st st1 : σ) (rows : Rows V),
      db.Query
        "SELECT books.title, authors.full_name, books.genre, books.isbn\n\t\t\t\t\t\t\t\t\tFROM books, authors, borrowed_books\n\t\t\t\t\t\t\t\t\tWHERE (authors.id = books.authors_id \n\t\t\t\t\t\t\t\t\t           AND books.id = borrowed_books.book_id \n\t\t\t\t\t\t\t\t\t           AND borrowed_books.member_id = $1)"
        [.str id] st = (.ok rows, st1) →
      (∀ ents : List Book,
        List.Forall₂ (fun row b => ∃ c1 c2 c3 c4, row = [c1, c2, c3, c4] ∧
          db.asString c1 = .ok b.Title ∧ db.asNullString c2 = .ok b.Author.FullName ∧
          db.asString c3 = .ok b.Genre ∧ db.asString c4 = .ok b.ISBN ∧ b.ID = "" ∧
          b.AuthorsID = "" ∧ b.Author.ID = "" ∧ b.Author.NickName = "" ∧
          b.Author.Specialization = "") rows.delivered ents →
        BorrowedStore.Get db id st = ((Slice.ofList ents, none), st1)) ∧
      (∀ books : Slice Book, (BorrowedStore.Get db id st).1 = (books, none) →
        List.Forall₂ (fun row b => ∃ c1 c2 c3 c4, row = [c1, c2, c3, c4] ∧
          db.asString c1 = .ok b.Title ∧ db.asNullString c2 = .ok b.Author.FullName ∧
          db.asString c3 = .ok b.Genre ∧ db.asString c4 = .ok b.ISBN ∧ b.ID = "" ∧
          b.AuthorsID = "" ∧ b.Author.ID = "" ∧ b.Author.NickName = "" ∧
          b.Author.Specialization = "") rows.delivered books.elems) := by
  intro σ V db id st st1 rows hq
  constructor
  · intro ents hrows
    have hmap : rows.delivered.map (scanBorrowed db) = ents.map Except.ok :=
      map_scan_of_forall₂ (hrows.imp fun _ _ h => (scanBorrowed_ok_iff db _ _).2 h)
    simp [BorrowedStore.Get, hq, scanLoop_from_nil _ _ _ hmap]
  · intro books h
    simp only [BorrowedStore.Get, hq] at h
    obtain ⟨ents, h1, h2⟩ := scanLoop_nil_error (scanBorrowed db) rows.delivered none books h
    have h3 : books.elems = ents := by simpa [Slice.elems] using h2
    rw [h3]
    exact (forall₂_of_map_scan _ _ _ h1).imp fun _ _ h => (scanBorrowed_ok_iff db _ _).1 h

/-- Witness for C18: one loan whose author has a name and one whose author's name is NULL. -/
theorem borrowed_get_fills_title_author_name_genre_isbn_witness :
    BorrowedStore.Get
        (sample.scripted
          (.ok ⟨[[.text "t1", .text "John Doe", .text "g1", .text "i1"],
                 [.text "t2", .null, .text "g2", .text "i2"]], none⟩) none) "7" 0 =
      ((some [⟨"", "", "t1", "g1", "i1", ⟨"", some "John Doe", "", ""⟩⟩,
              ⟨"", "", "t2", "g2", "i2", ⟨"", none, "", ""⟩⟩], none), 1) :=
  (borrowed_get_fills_title_author_name_genre_isbn
    (sample.scripted
      (.ok ⟨[[.text "t1", .text "John Doe", .text "g1", .text "i1"],
             [.text "t2", .null, .text "g2", .text "i2"]], none⟩) none) "7" 0 1
    ⟨[[.text "t1", .text "John Doe", .text "g1", .text "i1"],
      [.text "t2", .null, .text "g2", .text "i2"]], none⟩ rfl).1
    [⟨"", "", "t1", "g1", "i1", ⟨"", some "John Doe", "", ""⟩⟩,
      ⟨"", "", "t2", "g2", "i2", ⟨"", none, "", ""⟩⟩]
    (.cons ⟨_, _, _, _, rfl, rfl, rfl, rfl, rfl, rfl, rfl, rfl, rfl, rfl⟩
      (.cons ⟨_, _, _, _, rfl, rfl, rfl, rfl, rfl, rfl, rfl, rfl, rfl, rfl⟩ .nil))

end store

namespace store

open model

/-- C19. The titles read: for every author id, when the query succeeds and every delivered
row has one column that converts to a string, `AuthorStore.GetAuthorsBooks` returns exactly
those strings, one per row in row order, with a nil error, and the `GetAuthorBooks` handler
over that store answers 200 with that same slice of strings when it is not empty. -/
theorem author_books_are_the_titles_in_row_order :
    ∀ {σ V : Type} (db : DB σ V) (id : String) (st st1 : σ) (rows : Rows V)
      (titles : List String),
      db.Query "SELECT title FROM books WHERE authors_id = $1" [.str id] st = (.ok rows, st1) →
      List.Forall₂ (fun row t => ∃ c1, row = [c1] ∧ db.asString c1 = .ok t)
        rows.delivered titles →
      AuthorStore.GetAuthorsBooks db id st = ((Slice.ofList titles, none), st1) ∧
      (AuthorStore.GetAuthorsBooks db id st).1.1.elems = titles ∧
      (AuthorStore.GetAuthorsBooks db id st).1.1.len = rows.delivered.length ∧
      (∀ {α : Type} (c : fiber.Ctx α), c.Params "id" = id → titles ≠ [] →
        (handler.AuthorHandler.GetAuthorBooks (NewAuthorStore db) c st).resp =
          ⟨200, .strings (some titles)⟩) := by
  intro σ V db id st st1 rows titles hq hrows
  have hmap : rows.delivered.map (scanTitle db) = titles.map Except.ok :=
    map_scan_of_forall₂ (hrows.imp fun _ _ h => (scanTitle_ok_iff db _ _).2 h)
  have hget : AuthorStore.GetAuthorsBooks db id st = ((Slice.ofList titles, none), st1) := by
    simp [AuthorStore.GetAuthorsBooks, hq, scanLoop_from_nil _ _ _ hmap]
  refine ⟨hget, by simp [hget, elems_ofList], by simp [hget, len_ofList, hrows.length_eq], ?_⟩
  intro α c hid hne
  subst hid
  cases titles with
  | nil => exact absurd rfl hne
  | cons t ts =>
    simp [handler.AuthorHandler.GetAuthorBooks, NewAuthorStore, hget, Slice.ofList, Slice.len,
      fiber.StatusOK]

/-- Witness for C19: two title rows come back as the two titles, and as the 200 payload. -/
theorem author_books_are_the_titles_in_row_order_witness :
    AuthorStore.GetAuthorsBooks
        (sample.scripted (.ok ⟨[[.text "title 1"], [.text "title 2"]], none⟩) none) "7" 0 =
      ((some ["title 1", "title 2"], none), 1) ∧
    (handler.AuthorHandler.GetAuthorBooks
        (NewAuthorStore
          (sample.scripted (.ok ⟨[[.text "title 1"], [.text "title 2"]], none⟩) none))
        (sample.parsed ()) 0).resp = ⟨200, .strings (some ["title 1", "title 2"])⟩ :=
  ⟨(author_books_are_the_titles_in_row_order
      (sample.scripted (.ok ⟨[[.text "title 1"], [.text "title 2"]], none⟩) none) "7" 0 1
      ⟨[[.text "title 1"], [.text "title 2"]], none⟩ ["title 1", "title 2"] rfl
      (.cons ⟨_, rfl, rfl⟩ (.cons ⟨_, rfl, rfl⟩ .nil))).1,
    (author_books_are_the_titles_in_row_order
      (sample.scripted (.ok ⟨[[.text "title 1"], [.text "title 2"]], none⟩) none) "7" 0 1
      ⟨[[.text "title 1"], [.text "title 2"]], none⟩ ["title 1", "title 2"] rfl
      (.cons ⟨_, rfl, rfl⟩ (.cons ⟨_, rfl, rfl⟩ .nil))).2.2.2
      (sample.parsed ()) rfl (by decide)⟩

/-- C20. What `Update` sends: for every id and entity, `store.Update` hands the database one
statement, the UPDATE whose parameters are the non-id fields of the entity as they are (a nil
full_name included) followed by the id argument (Author: full_name, nick_name,
specialization, id; Book: authors_id, title, genre, isbn, id; Member: full_name, id); it
returns what that exec returned, with the entity as it was passed; and the entity's own ID
has no influence on the statement or on the result. -/
theorem update_sends_fields_then_id :
    (∀ {σ V : Type} (db : DB σ V) (id : String) (a : Author) (st : σ),
      AuthorStore.Update db id a st =
        (((db.Exec
            "UPDATE authors SET full_name = $1, nick_name = $2, specialization = $3 WHERE ID = $4"
            [.nullStr a.FullName, .str a.NickName, .str a.Specialization, .str id] st).1, a),
          (db.Exec
            "UPDATE authors SET full_name = $1, nick_name = $2, specialization = $3 WHERE ID = $4"
            [.nullStr a.FullName, .str a.NickName, .str a.Specialization, .str id] st).2) ∧
      (∀ log, (AuthorStore.Update (journaled db) id a (st, log)).2.2 = log ++
        [("UPDATE authors SET full_name = $1, nick_name = $2, specialization = $3 WHERE ID = $4",
          [.nullStr a.FullName, .str a.NickName, .str a.Specialization, .str id])]) ∧
      (AuthorStore.Update db id a st).1.2 = a ∧
      (∀ other : String,
        (AuthorStore.Update db id { a with ID := other } st).1.1 =
          (AuthorStore.Update db id a st).1.1 ∧
        (AuthorStore.Update db id { a with ID := other } st).2 =
          (AuthorStore.Update db id a st).2)) ∧
    (∀ {σ V : Type} (db : DB σ V) (id : String) (b : Book) (st : σ),
      BookStore.Update db id b st =
        (((db.Exec
            "UPDATE books SET authors_id = $1, title = $2, genre = $3, ISBN = $4 WHERE id = $5"
            [.str b.AuthorsID, .str b.Title, .str b.Genre, .str b.ISBN, .str id] st).1, b),
          (db.Exec
            "UPDATE books SET authors_id = $1, title = $2, genre = $3, ISBN = $4 WHERE id = $5"
            [.str b.AuthorsID, .str b.Title, .str b.Genre, .str b.ISBN, .str id] st).2) ∧
      (∀ log, (BookStore.Update (journaled db) id b (st, log)).2.2 = log ++
        [("UPDATE books SET authors_id = $1, title = $2, genre = $3, ISBN = $4 WHERE id = $5",
          [.str b.AuthorsID, .str b.Title, .str b.Genre, .str b.ISBN, .str id])]) ∧
      (BookStore.Update db id b st).1.2 = b ∧
      (∀ other : String,
        (BookStore.Update db id { b with ID := other } st).1.1 =
          (BookStore.Update db id b st).1.1 ∧
        (BookStore.Update db id { b with ID := other } st).2 =
          (BookStore.Update db id b st).2)) ∧
    (∀ {σ V : Type} (db : DB σ V) (id : String) (m : Member) (st : σ),
      MemberStore.Update db id m st =
        (((db.Exec "UPDATE members SET full_name = $1 WHERE id = $2"
            [.str m.FullName, .str id] st).1, m),
          (db.Exec "UPDATE members SET full_name = $1 WHERE id = $2"
            [.str m.FullName, .str id] st).2) ∧
      (∀ log, (MemberStore.Update (journaled db) id m (st, log)).2.2 = log ++
        [("UPDATE members SET full_name = $1 WHERE id = $2", [.str m.FullName, .str id])]) ∧
      (MemberStore.Update db id m st).1.2 = m ∧
      (∀ other : String,
        (MemberStore.Update db id { m with ID := other } st).1.1 =
          (MemberStore.Update db id m st).1.1 ∧
        (MemberStore.Update db id { m with ID := other } st).2 =
          (MemberStore.Update db id m st).2)) := by
  refine ⟨?_, ?_, ?_⟩
  · intro σ V db id a st
    have key : ∀ {τ : Type} (d : DB τ V) (x : Author) (t : τ),
        AuthorStore.Update d id x t =
          (((d.Exec
              "UPDATE authors SET full_name = $1, nick_name = $2, specialization = $3 WHERE ID = $4"
              [.nullStr x.FullName, .str x.NickName, .str x.Specialization, .str id] t).1, x),
            (d.Exec
              "UPDATE authors SET full_name = $1, nick_name = $2, specialization = $3 WHERE ID = $4"
              [.nullStr x.FullName, .str x.NickName, .str x.Specialization, .str id] t).2) := by
      intro τ d x t
      rcases h : d.Exec
        "UPDATE authors SET full_name = $1, nick_name = $2, specialization = $3 WHERE ID = $4"
        [.nullStr x.FullName, .str x.NickName, .str x.Specialization, .str id] t
        with ⟨_ | e, t1⟩ <;> simp [AuthorStore.Update, h]
    refine ⟨key db a st, ?_, ?_, ?_⟩
    · intro log
      rw [key]
      rfl
    · rw [key]
    · intro other
      rw [key, key]
      exact ⟨rfl, rfl⟩
  · intro σ V db id b st
    have key : ∀ {τ : Type} (d : DB τ V) (x : Book) (t : τ),
        BookStore.Update d id x t =
          (((d.Exec
              "UPDATE books SET authors_id = $1, title = $2, genre = $3, ISBN = $4 WHERE id = $5"
              [.str x.AuthorsID, .str x.Title, .str x.Genre, .str x.ISBN, .str id] t).1, x),
            (d.Exec
              "UPDATE books SET authors_id = $1, title = $2, genre = $3, ISBN = $4 WHERE id = $5"
              [.str x.AuthorsID, .str x.Title, .str x.Genre, .str x.ISBN, .str id] t).2) := by
      intro τ d x t
      rcases h : d.Exec
        "UPDATE books SET authors_id = $1, title = $2, genre = $3, ISBN = $4 WHERE id = $5"
        [.str x.AuthorsID, .str x.Title, .str x.Genre, .str x.ISBN, .str id] t
        with ⟨_ | e, t1⟩ <;> simp [BookStore.Update, h]
    refine ⟨key db b st, ?_, ?_, ?_⟩
    · intro log
      rw [key]
      rfl
    · rw [key]
    · intro other
      rw [key, key]
      exact ⟨rfl, rfl⟩
  · intro σ V db id m st
    have key : ∀ {τ : Type} (d : DB τ V) (x : Member) (t : τ),
        MemberStore.Update d id x t =
          (((d.Exec "UPDATE members SET full_name = $1 WHERE id = $2"
              [.str x.FullName, .str id] t).1, x),
            (d.Exec "UPDATE members SET full_name = $1 WHERE id = $2"
              [.str x.FullName, .str id] t).2) := by
      intro τ d x t
      rcases h : d.Exec "UPDATE members SET full_name = $1 WHERE id = $2"
        [.str x.FullName, .str id] t with ⟨_ | e, t1⟩ <;> simp [MemberStore.Update, h]
    refine ⟨key db m st, ?_, ?_, ?_⟩
    · intro log
      rw [key]
      rfl
    · rw [key]
    · intro other
      rw [key, key]
      exact ⟨rfl, rfl⟩

end store

namespace store

open model fiber handler

/-- C21. Bulk return of books: for every member id and every list of book ids, the empty
and the nil list included, `BorrowedStore.DeleteList` hands the database one statement whose
parameters are the member id and the whole list as one array, and returns what that exec
returned (nil or its one error); the DeleteList handler answers 400 exactly when the body
fails to parse, 500 exactly when the body parsed and the store returned an error, 200
exactly when the body parsed and the store returned nil, and nothing else. -/
theorem delete_list_is_one_statement_and_200_400_500 :
    (∀ {σ V : Type} (db : DB σ V) (id : String) (books : Slice String) (st : σ),
      BorrowedStore.DeleteList db id books st =
        db.Exec "DELETE FROM borrowed_books WHERE (member_id = $1 AND book_id = ANY($2))"
          [.str id, .strArray books] st ∧
      (∀ log, (BorrowedStore.DeleteList (journaled db) id books (st, log)).2.2 = log ++
        [("DELETE FROM borrowed_books WHERE (member_id = $1 AND book_id = ANY($2))",
          [.str id, .strArray books])])) ∧
    (∀ {σ : Type} (s : borrowedStore σ) (c : Ctx (Slice String)) (st : σ),
      ((BorrowedHandler.DeleteList s c st).resp.status = 200 ∨
        (BorrowedHandler.DeleteList s c st).resp.status = 400 ∨
        (BorrowedHandler.DeleteList s c st).resp.status = 500) ∧
      ((BorrowedHandler.DeleteList s c st).resp.status = 400 ↔
        ∃ e, c.BodyParser = .error e) ∧
      ((BorrowedHandler.DeleteList s c st).resp.status = 500 ↔
        ∃ b, c.BodyParser = .ok b ∧ (s.DeleteList (c.Params "id") b st).1 ≠ none) ∧
      ((BorrowedHandler.DeleteList s c st).resp.status = 200 ↔
        ∃ b, c.BodyParser = .ok b ∧ (s.DeleteList (c.Params "id") b st).1 = none)) := by
  refine ⟨?_, ?_⟩
  · intro σ V db id books st
    have key : ∀ {τ : Type} (d : DB τ V) (t : τ),
        BorrowedStore.DeleteList d id books t =
          d.Exec "DELETE FROM borrowed_books WHERE (member_id = $1 AND book_id = ANY($2))"
            [.str id, .strArray books] t := by
      intro τ d t
      rcases h : d.Exec
        "DELETE FROM borrowed_books WHERE (member_id = $1 AND book_id = ANY($2))"
        [.str id, .strArray books] t with ⟨_ | e, t1⟩ <;> simp [BorrowedStore.DeleteList, h]
    refine ⟨key db st, ?_⟩
    intro log
    rw [key]
    rfl
  · intro σ s c st
    cases hb : c.BodyParser with
    | error e => simp [BorrowedHandler.DeleteList, hb, StatusBadRequest]
    | ok b =>
      rcases h : s.DeleteList (c.Params "id") b st with ⟨_ | e1, st1⟩ <;>
        simp [BorrowedHandler.DeleteList, hb, h, StatusOK, StatusInternalServerError]

/-- C22. Returning one book: for every member id and book id, `BorrowedHandler.Delete` calls
the store once with the path's id as member id and its book_id as book id, in that order,
and answers 200 "borrowed book deleted" when the store returns nil and 500 "server error" for
every non-nil error, foreign-key texts included; it never answers 400 or 404. -/
theorem borrowed_delete_is_200_or_500 :
    ∀ {σ α : Type} (s : borrowedStore σ) (c : Ctx α) (st : σ),
      (BorrowedHandler.Delete s c st).calls =
        [.Delete (c.Params "id") (c.Params "book_id")] ∧
      ((s.Delete (c.Params "id") (c.Params "book_id") st).1 = none →
        (BorrowedHandler.Delete s c st).resp =
          ⟨200, .map [("message", "borrowed book deleted")]⟩) ∧
      (∀ e, (s.Delete (c.Params "id") (c.Params "book_id") st).1 = some e →
        (BorrowedHandler.Delete s c st).resp = ⟨500, .map [("error", "server error")]⟩) ∧
      (BorrowedHandler.Delete s c st).resp.status ≠ 400 ∧
      (BorrowedHandler.Delete s c st).resp.status ≠ 404 := by
  intro σ α s c st
  rcases h : s.Delete (c.Params "id") (c.Params "book_id") st with ⟨_ | e1, st1⟩ <;>
    simp [BorrowedHandler.Delete, h, StatusOK, StatusInternalServerError]

/-- Witness for C22: a single-loan delete that the database refuses with a foreign-key error
is a plain 500. -/
theorem borrowed_delete_is_200_or_500_witness :
    (BorrowedHandler.Delete
        (NewBorrowedStore (sample.scripted (.error "unused") (some sample.fkText)))
        (sample.parsed ()) 0).resp = ⟨500, .map [("error", "server error")]⟩ :=
  (borrowed_delete_is_200_or_500
    (NewBorrowedStore (sample.scripted (.error "unused") (some sample.fkText)))
    (sample.parsed ()) 0).2.2.1 sample.fkText rfl

end store

namespace store

open model fiber handler

/-- C23 (evaluation at the failing input). When the query starts and row iteration then
stops on a driver error, each list read returns the rows delivered so far with a nil error:
one author row, then the error, gives that one author and nil, and the handler answers 200
with the partial list; no row, then the error, gives the nil slice and nil for the Book,
Member, Borrowed and titles reads. -/
theorem list_read_returns_nil_error_when_iteration_fails :
    AuthorStore.Get
        (sample.scripted
          (.ok ⟨[[.text "1", .null, .text "n1", .text "s1"]], some "driver: bad connection"⟩)
          none) 0 = ((some [⟨"1", none, "n1", "s1"⟩], none), 1) ∧
    (AuthorHandler.Get
        (NewAuthorStore (sample.scripted
          (.ok ⟨[[.text "1", .null, .text "n1", .text "s1"]], some "driver: bad connection"⟩)
          none)) (sample.parsed ()) 0).resp =
      ⟨200, .authors (some [⟨"1", none, "n1", "s1"⟩])⟩ ∧
    BookStore.Get (sample.scripted (.ok ⟨[], some "driver: bad connection"⟩) none) 0 =
      ((none, none), 1) ∧
    MemberStore.Get
        (sample.scripted
          (.ok ⟨[[.text "1", .text "Samir Kenzhe"]], some "driver: bad connection"⟩) none) 0 =
      ((some [⟨"1", "Samir Kenzhe"⟩], none), 1) ∧
    BorrowedStore.Get
        (sample.scripted (.ok ⟨[], some "driver: bad connection"⟩) none) "7" 0 =
      ((none, none), 1) ∧
    AuthorStore.GetAuthorsBooks
        (sample.scripted (.ok ⟨[[.text "title 1"]], some "driver: bad connection"⟩) none)
        "7" 0 = ((some ["title 1"], none), 1) :=
  ⟨rfl, rfl, rfl, rfl, rfl, rfl⟩

end store

namespace app

open fiber

/-- C27. The health check answers 200 with "message": "OK" exactly when the database ping
returns nil, 500 with "error": "error pinging database" for every non-nil ping error, and no
other status. -/
theorem healthcheck_is_200_iff_ping_ok :
    ∀ {σ α : Type} (Ping : σ → GoError × σ) (c : Ctx α) (st : σ),
      ((healthcheck Ping c st).1 = ⟨200, .map [("message", "OK")]⟩ ↔ (Ping st).1 = none) ∧
      (∀ e, (Ping st).1 = some e →
        (healthcheck Ping c st).1 = ⟨500, .map [("error", "error pinging database")]⟩) ∧
      ((healthcheck Ping c st).1.status = 200 ∨ (healthcheck Ping c st).1.status = 500) := by
  intro σ α Ping c st
  rcases h : Ping st with ⟨_ | e, st1⟩ <;>
    simp [healthcheck, h, StatusOK, StatusInternalServerError]

/-- Witness for C27: a ping that fails. -/
theorem healthcheck_is_200_iff_ping_ok_witness :
    (healthcheck (fun n : Nat => (some "driver: bad connection", n + 1))
        (sample.parsed ()) 0).1 = ⟨500, .map [("error", "error pinging database")]⟩ :=
  (healthcheck_is_200_iff_ping_ok (fun n : Nat => (some "driver: bad connection", n + 1))
    (sample.parsed ()) 0).2.1 "driver: bad connection" rfl

/-- C26 (counterexample). `router` registers a HEAD route on /authors, which is none of the
18 (method, path) pairs of the interface table: it registers 24 routes, not 18. -/
theorem router_registers_head_routes_too :
    (⟨"HEAD", "/authors", .authorHandlerGet⟩ : Route) ∈ router [] ∧
    ("HEAD", "/authors") ∉ specInterfaceTable.map (fun r => (r.Method, r.path)) ∧
    specInterfaceTable.length = 18 ∧ (router []).length = 24 := by
  decide

/-- C26 (as amended). `router` adds to the route stack the routes of its 18 registration
calls, which are the 18 rows of the interface table, each with the handler its row implies,
and, because registering a GET path registers it for HEAD as well, a HEAD route with the same
path and handler for each of the six GET rows: 24 routes, none twice, and no other. -/
theorem router_is_the_interface_table_with_head_twins :
    (∀ a0 : App, router a0 = a0 ++ router []) ∧
    (router []).length = 24 ∧ (router []).Nodup ∧
    specInterfaceTable.length = 18 ∧ specInterfaceTable.Nodup ∧
    (headTwins specInterfaceTable).length = 6 ∧
    (∀ r ∈ router [], r ∈ specInterfaceTable ∨ r ∈ headTwins specInterfaceTable) ∧
    (∀ r ∈ specInterfaceTable, r ∈ router []) ∧
    (∀ r ∈ headTwins specInterfaceTable, r ∈ router []) ∧
    ((router []).filter fun r => r.Method != "HEAD").map (fun r => (r.Method, r.path)) =
      [("GET", "/healthz"), ("GET", "/authors"), ("POST", "/author"),
       ("PATCH", "/author/:id"), ("DELETE", "/author/:id"), ("GET", "/author/:id/books"),
       ("GET", "/books"), ("POST", "/book"), ("PATCH", "/book/:id"),
       ("DELETE", "/book/:id"), ("GET", "/members"), ("POST", "/member"),
       ("PATCH", "/member/:id"), ("DELETE", "/member/:id"), ("GET", "/member/:id/borrowed"),
       ("POST", "/member/borrowed"), ("DELETE", "/member/:id/borrowed/:book_id"),
       ("DELETE", "/member/:id/borrowed")] := by
  refine ⟨?_, by decide, by decide, by decide, by decide, by decide, by decide, by decide,
    by decide, by decide⟩
  intro a0
  simp [router, App.Get, App.Head, App.Post, App.Patch, App.Delete, App.Add]

end app

namespace store

open model fiber handler

/-- C28. What `Create` sends: for every entity, `store.Create` hands the database one
statement, the INSERT whose parameters are the entity's fields in column order, nothing
added and nothing dropped (Author: id, full_name, nick_name, specialization; Book: id,
authors_id, title, genre, isbn; Member: id, full_name; Borrowed: member_id, book_id); it
returns what that exec returned, so nil exactly when exec succeeded and the exec error
itself otherwise; the embedded Author of a Book has no influence on the statement or on the
result. -/
theorem create_sends_fields_in_column_order :
    (∀ {σ V : Type} (db : DB σ V) (a : Author) (st : σ),
      AuthorStore.Create db a st =
        (((db.Exec
            "INSERT INTO authors (id, full_name, nick_name, specialization) VALUES ($1, $2, $3, $4)"
            [.str a.ID, .nullStr a.FullName, .str a.NickName, .str a.Specialization] st).1, a),
          (db.Exec
            "INSERT INTO authors (id, full_name, nick_name, specialization) VALUES ($1, $2, $3, $4)"
            [.str a.ID, .nullStr a.FullName, .str a.NickName, .str a.Specialization] st).2) ∧
      (∀ log, (AuthorStore.Create (journaled db) a (st, log)).2.2 = log ++
        [("INSERT INTO authors (id, full_name, nick_name, specialization) VALUES ($1, $2, $3, $4)",
          [.str a.ID, .nullStr a.FullName, .str a.NickName, .str a.Specialization])]) ∧
      ((AuthorStore.Create db a st).1.1 = none ↔
        (db.Exec
          "INSERT INTO authors (id, full_name, nick_name, specialization) VALUES ($1, $2, $3, $4)"
          [.str a.ID, .nullStr a.FullName, .str a.NickName, .str a.Specialization] st).1 = none)) ∧
    (∀ {σ V : Type} (db : DB σ V) (a : Book) (st : σ),
      BookStore.Create db a st =
        (((db.Exec
            "INSERT INTO books (id, authors_id, title, genre, isbn) \n\t\t\t\t\t\t\t\tVALUES ($1, $2, $3, $4, $5)"
            [.str a.ID, .str a.AuthorsID, .str a.Title, .str a.Genre, .str a.ISBN] st).1, a),
          (db.Exec
            "INSERT INTO books (id, authors_id, title, genre, isbn) \n\t\t\t\t\t\t\t\tVALUES ($1, $2, $3, $4, $5)"
            [.str a.ID, .str a.AuthorsID, .str a.Title, .str a.Genre, .str a.ISBN] st).2) ∧
      (∀ log, (BookStore.Create (journaled db) a (st, log)).2.2 = log ++
        [("INSERT INTO books (id, authors_id, title, genre, isbn) \n\t\t\t\t\t\t\t\tVALUES ($1, $2, $3, $4, $5)",
          [.str a.ID, .str a.AuthorsID, .str a.Title, .str a.Genre, .str a.ISBN])]) ∧
      ((BookStore.Create db a st).1.1 = none ↔
        (db.Exec
          "INSERT INTO books (id, authors_id, title, genre, isbn) \n\t\t\t\t\t\t\t\tVALUES ($1, $2, $3, $4, $5)"
          [.str a.ID, .str a.AuthorsID, .str a.Title, .str a.Genre, .str a.ISBN] st).1 = none)) ∧
    (∀ {σ V : Type} (db : DB σ V) (a : Member) (st : σ),
      MemberStore.Create db a st =
        (((db.Exec
            "INSERT INTO members(id, full_name) VALUES ($1, $2)"
            [.str a.ID, .str a.FullName] st).1, a),
          (db.Exec
            "INSERT INTO members(id, full_name) VALUES ($1, $2)"
            [.str a.ID, .str a.FullName] st).2) ∧
      (∀ log, (MemberStore.Create (journaled db) a (st, log)).2.2 = log ++
        [("INSERT INTO members(id, full_name) VALUES ($1, $2)",
          [.str a.ID, .str a.FullName])]) ∧
      ((MemberStore.Create db a st).1.1 = none ↔
        (db.Exec
          "INSERT INTO members(id, full_name) VALUES ($1, $2)"
          [.str a.ID, .str a.FullName] st).1 = none)) ∧
    (∀ {σ V : Type} (db : DB σ V) (a : Borrowed) (st : σ),
      BorrowedStore.Create db a st =
        (((db.Exec
            "INSERT INTO borrowed_books (member_id, book_id) VALUES ($1, $2)"
            [.str a.MemberID, .str a.BookID] st).1, a),
          (db.Exec
            "INSERT INTO borrowed_books (member_id, book_id) VALUES ($1, $2)"
            [.str a.MemberID, .str a.BookID] st).2) ∧
      (∀ log, (BorrowedStore.Create (journaled db) a (st, log)).2.2 = log ++
        [("INSERT INTO borrowed_books (member_id, book_id) VALUES ($1, $2)",
          [.str a.MemberID, .str a.BookID])]) ∧
      ((BorrowedStore.Create db a st).1.1 = none ↔
        (db.Exec
          "INSERT INTO borrowed_books (member_id, book_id) VALUES ($1, $2)"
          [.str a.MemberID, .str a.BookID] st).1 = none)) ∧
    (∀ {σ V : Type} (db : DB σ V) (b : Book) (x : Author) (st : σ),
      (BookStore.Create db { b with Author := x } st).1.1 = (BookStore.Create db b st).1.1 ∧
      (BookStore.Create db { b with Author := x } st).2 = (BookStore.Create db b st).2) := by
  refine ⟨?_, ?_, ?_, ?_, ?_⟩
  · intro σ V db a st
    have key : ∀ {τ : Type} (d : DB τ V) (t : τ),
        AuthorStore.Create d a t =
          (((d.Exec
              "INSERT INTO authors (id, full_name, nick_name, specialization) VALUES ($1, $2, $3, $4)"
              [.str a.ID, .nullStr a.FullName, .str a.NickName, .str a.Specialization] t).1, a),
            (d.Exec
              "INSERT INTO authors (id, full_name, nick_name, specialization) VALUES ($1, $2, $3, $4)"
              [.str a.ID, .nullStr a.FullName, .str a.NickName, .str a.Specialization] t).2) := by
      intro τ d t
      rcases h : d.Exec
        "INSERT INTO authors (id, full_name, nick_name, specialization) VALUES ($1, $2, $3, $4)"
        [.str a.ID, .nullStr a.FullName, .str a.NickName, .str a.Specialization] t with ⟨_ | e, t1⟩ <;> simp [AuthorStore.Create, h]
    refine ⟨key db st, ?_, ?_⟩
    · intro log
      rw [key]
      rfl
    · rw [key]
  · intro σ V db a st
    have key : ∀ {τ : Type} (d : DB τ V) (t : τ),
        BookStore.Create d a t =
          (((d.Exec
              "INSERT INTO books (id, authors_id, title, genre, isbn) \n\t\t\t\t\t\t\t\tVALUES ($1, $2, $3, $4, $5)"
              [.str a.ID, .str a.AuthorsID, .str a.Title, .str a.Genre, .str a.ISBN] t).1, a),
            (d.Exec
              "INSERT INTO books (id, authors_id, title, genre, isbn) \n\t\t\t\t\t\t\t\tVALUES ($1, $2, $3, $4, $5)"
              [.str a.ID, .str a.AuthorsID, .str a.Title, .str a.Genre, .str a.ISBN] t).2) := by
      intro τ d t
      rcases h : d.Exec
        "INSERT INTO books (id, authors_id, title, genre, isbn) \n\t\t\t\t\t\t\t\tVALUES ($1, $2, $3, $4, $5)"
        [.str a.ID, .str a.AuthorsID, .str a.Title, .str a.Genre, .str a.ISBN] t with ⟨_ | e, t1⟩ <;> simp [BookStore.Create, h]
    refine ⟨key db st, ?_, ?_⟩
    · intro log
      rw [key]
      rfl
    · rw [key]
  · intro σ V db a st
    have key : ∀ {τ : Type} (d : DB τ V) (t : τ),
        MemberStore.Create d a t =
          (((d.Exec
              "INSERT INTO members(id, full_name) VALUES ($1, $2)"
              [.str a.ID, .str a.FullName] t).1, a),
            (d.Exec
              "INSERT INTO members(id, full_name) VALUES ($1, $2)"
              [.str a.ID, .str a.FullName] t).2) := by
      intro τ d t
      rcases h : d.Exec
        "INSERT INTO members(id, full_name) VALUES ($1, $2)"
        [.str a.ID, .str a.FullName] t with ⟨_ | e, t1⟩ <;> simp [MemberStore.Create, h]
    refine ⟨key db st, ?_, ?_⟩
    · intro log
      rw [key]
      rfl
    · rw [key]
  · intro σ V db a st
    have key : ∀ {τ : Type} (d : DB τ V) (t : τ),
        BorrowedStore.Create d a t =
          (((d.Exec
              "INSERT INTO borrowed_books (member_id, book_id) VALUES ($1, $2)"
              [.str a.MemberID, .str a.BookID] t).1, a),
            (d.Exec
              "INSERT INTO borrowed_books (member_id, book_id) VALUES ($1, $2)"
              [.str a.MemberID, .str a.BookID] t).2) := by
      intro τ d t
      rcases h : d.Exec
        "INSERT INTO borrowed_books (member_id, book_id) VALUES ($1, $2)"
        [.str a.MemberID, .str a.BookID] t with ⟨_ | e, t1⟩ <;> simp [BorrowedStore.Create, h]
    refine ⟨key db st, ?_, ?_⟩
    · intro log
      rw [key]
      rfl
    · rw [key]
  · intro σ V db b x st
    rcases h : db.Exec
      "INSERT INTO books (id, authors_id, title, genre, isbn) \n\t\t\t\t\t\t\t\tVALUES ($1, $2, $3, $4, $5)"
      [.str b.ID, .str b.AuthorsID, .str b.Title, .str b.Genre, .str b.ISBN] st
      with ⟨_ | e, t1⟩ <;> simp [BookStore.Create, h]

end store

namespace store

open model fiber handler

/-- C29. A list read over no rows: for the five list reads, a query that succeeds and ends
cleanly without delivering a row returns the nil slice (length zero) with a nil error, and
the handler over that store answers 404 with its not-found body, not 500 and not 200. -/
theorem empty_result_reads_nil_and_handler_404 :
    (∀ {σ V α : Type} (db : DB σ V) (c : Ctx α) (st st1 : σ) (rows : Rows V),
      db.Query "SELECT * FROM authors" [] st = (.ok rows, st1) →
      rows.delivered = [] → rows.Err = none →
      AuthorStore.Get db st = ((none, none), st1) ∧
      (AuthorHandler.Get (NewAuthorStore db) c st).resp = ⟨404, .map [("message", "authors not found")]⟩) ∧
    (∀ {σ V α : Type} (db : DB σ V) (c : Ctx α) (st st1 : σ) (rows : Rows V),
      db.Query "SELECT * FROM books" [] st = (.ok rows, st1) →
      rows.delivered = [] → rows.Err = none →
      BookStore.Get db st = ((none, none), st1) ∧
      (BookHandler.Get (NewBookStore db) c st).resp = ⟨404, .map [("message", "no books found")]⟩) ∧
    (∀ {σ V α : Type} (db : DB σ V) (c : Ctx α) (st st1 : σ) (rows : Rows V),
      db.Query "SELECT * FROM members" [] st = (.ok rows, st1) →
      rows.delivered = [] → rows.Err = none →
      MemberStore.Get db st = ((none, none), st1) ∧
      (MemberHandler.Get (NewMemberStore db) c st).resp = ⟨404, .map [("message", "no members found")]⟩) ∧
    (∀ {σ V α : Type} (db : DB σ V) (c : Ctx α) (st st1 : σ) (rows : Rows V),
      db.Query
        "SELECT books.title, authors.full_name, books.genre, books.isbn\n\t\t\t\t\t\t\t\t\tFROM books, authors, borrowed_books\n\t\t\t\t\t\t\t\t\tWHERE (authors.id = books.authors_id \n\t\t\t\t\t\t\t\t\t           AND books.id = borrowed_books.book_id \n\t\t\t\t\t\t\t\t\t           AND borrowed_books.member_id = $1)"
        [.str (c.Params "id")] st = (.ok rows, st1) →
      rows.delivered = [] → rows.Err = none →
      BorrowedStore.Get db (c.Params "id") st = ((none, none), st1) ∧
      (BorrowedHandler.Get (NewBorrowedStore db) c st).resp = ⟨404, .map [("message", "no books found for this member")]⟩) ∧
    (∀ {σ V α : Type} (db : DB σ V) (c : Ctx α) (st st1 : σ) (rows : Rows V),
      db.Query
        "SELECT title FROM books WHERE authors_id = $1"
        [.str (c.Params "id")] st = (.ok rows, st1) →
      rows.delivered = [] → rows.Err = none →
      AuthorStore.GetAuthorsBooks db (c.Params "id") st = ((none, none), st1) ∧
      (AuthorHandler.GetAuthorBooks (NewAuthorStore db) c st).resp = ⟨404, .map [("error", "book not found")]⟩) := by
  refine ⟨?_, ?_, ?_, ?_, ?_⟩
  · intro σ V α db c st st1 rows hq hrows _
    have hget : AuthorStore.Get db st = ((none, none), st1) := by
      simp [AuthorStore.Get, hq, hrows, scanLoop]
    exact ⟨hget, by simp [AuthorHandler.Get, NewAuthorStore, hget, Slice.len, StatusNotFound]⟩
  · intro σ V α db c st st1 rows hq hrows _
    have hget : BookStore.Get db st = ((none, none), st1) := by
      simp [BookStore.Get, hq, hrows, scanLoop]
    exact ⟨hget, by simp [BookHandler.Get, NewBookStore, hget, Slice.len, StatusNotFound]⟩
  · intro σ V α db c st st1 rows hq hrows _
    have hget : MemberStore.Get db st = ((none, none), st1) := by
      simp [MemberStore.Get, hq, hrows, scanLoop]
    exact ⟨hget, by simp [MemberHandler.Get, NewMemberStore, hget, Slice.len, StatusNotFound]⟩
  · intro σ V α db c st st1 rows hq hrows _
    have hget : BorrowedStore.Get db (c.Params "id") st = ((none, none), st1) := by
      simp [BorrowedStore.Get, hq, hrows, scanLoop]
    exact ⟨hget, by simp [BorrowedHandler.Get, NewBorrowedStore, hget, Slice.len, StatusNotFound]⟩
  · intro σ V α db c st st1 rows hq hrows _
    have hget : AuthorStore.GetAuthorsBooks db (c.Params "id") st = ((none, none), st1) := by
      simp [AuthorStore.GetAuthorsBooks, hq, hrows, scanLoop]
    exact ⟨hget, by simp [AuthorHandler.GetAuthorBooks, NewAuthorStore, hget, Slice.len, StatusNotFound]⟩

/-- Witness for C29: listing members when the table is empty. -/
theorem empty_result_reads_nil_and_handler_404_witness :
    MemberStore.Get (sample.scripted (.ok ⟨[], none⟩) none) 0 = ((none, none), 1) ∧
    (MemberHandler.Get (NewMemberStore (sample.scripted (.ok ⟨[], none⟩) none))
        (sample.parsed ()) 0).resp = ⟨404, .map [("message", "no members found")]⟩ :=
  empty_result_reads_nil_and_handler_404.2.2.1
    (sample.scripted (.ok ⟨[], none⟩) none) (sample.parsed ()) 0 1 ⟨[], none⟩ rfl rfl rfl

end store

namespace app

/-- Two pattern segments that match the same path segment overlap. -/
theorem seg_overlaps_of_accepts (p q : Seg) (x : List Char)
    (hp : p.accepts x = true) (hq : q.accepts x = true) : p.overlaps q = true := by
  cases p <;> cases q <;> simp_all [Seg.accepts, Seg.overlaps]

/-- Two patterns that match the same path overlap. -/
theorem overlaps_of_accepts :
    ∀ (ps qs : List Seg) (xs : List (List Char)),
      accepts ps xs = true → accepts qs xs = true → overlaps ps qs = true := by
  intro ps
  induction ps with
  | nil =>
    intro qs xs hp hq
    cases xs with
    | nil => cases qs <;> simp_all [accepts, overlaps]
    | cons x xs => simp [accepts] at hp
  | cons p ps ih =>
    intro qs xs hp hq
    cases xs with
    | nil => simp [accepts] at hp
    | cons x xs =>
      cases qs with
      | nil => simp [accepts] at hq
      | cons q qs =>
        simp only [accepts, Bool.and_eq_true] at hp hq
        simp only [overlaps, Bool.and_eq_true]
        exact ⟨seg_overlaps_of_accepts p q x hp.1 hq.1, ih qs xs hp.2 hq.2⟩

/-- No two different routes of `router` for the same method have overlapping patterns. -/
theorem router_patterns_do_not_overlap :
    ∀ r1 ∈ router [], ∀ r2 ∈ router [], r1.Method = r2.Method →
      overlaps (pattern r1.path) (pattern r2.path) = true → r1 = r2 := by
  decide

/-- A list without repetition whose elements are all equal has at most one element. -/
theorem length_le_one_of_all_eq {α : Type} :
    ∀ (l : List α), l.Nodup → (∀ a ∈ l, ∀ b ∈ l, a = b) → l.length ≤ 1 := by
  intro l hnd hall
  match l, hnd, hall with
  | [], _, _ => simp
  | [_], _, _ => simp
  | a :: b :: rest, hnd, hall =>
    have hab : a = b := hall a (by simp) b (by simp)
    subst hab
    simp at hnd

/-- C30. Routing is unambiguous: with a pattern read as literal and parameter segments, a
parameter matching any one non-empty segment, and with the framework matching on the path in
lower case and without trailing slashes, for every method and every request path two routes
of `router` (HEAD routes included) that both match are one and the same, so at most one
route matches and the handler chosen does not depend on the order of registration. -/
theorem routing_is_unambiguous :
    ∀ (method path : String),
      (∀ r1 r2 : Route, r1 ∈ router [] → r2 ∈ router [] →
        r1.accepts method path = true → r2.accepts method path = true → r1 = r2) ∧
      ((router []).filter fun r => r.accepts method path).length ≤ 1 ∧
      (∀ routes : List Route, routes.Perm (router []) →
        (routes.filter fun r => r.accepts method path).map Route.handler =
          ((router []).filter fun r => r.accepts method path).map Route.handler) := by
  intro method path
  have huniq : ∀ r1 r2 : Route, r1 ∈ router [] → r2 ∈ router [] →
      r1.accepts method path = true → r2.accepts method path = true → r1 = r2 := by
    intro r1 r2 h1 h2 a1 a2
    simp only [Route.accepts, Bool.and_eq_true, beq_iff_eq] at a1 a2
    exact router_patterns_do_not_overlap r1 h1 r2 h2 (a1.1.trans a2.1.symm)
      (overlaps_of_accepts _ _ _ a1.2 a2.2)
  have hnd : (router []).Nodup := by decide
  have hlen : ∀ routes : List Route, routes.Perm (router []) →
      (routes.filter fun r => r.accepts method path).length ≤ 1 := by
    intro routes hperm
    apply length_le_one_of_all_eq _ ((hperm.nodup_iff.2 hnd).filter _)
    intro a ha b hb
    simp only [List.mem_filter] at ha hb
    exact huniq a b (hperm.mem_iff.1 ha.1) (hperm.mem_iff.1 hb.1) ha.2 hb.2
  refine ⟨huniq, hlen (router []) (List.Perm.refl _), ?_⟩
  intro routes hperm
  have hp : (routes.filter fun r => r.accepts method path).Perm
      ((router []).filter fun r => r.accepts method path) := hperm.filter _
  have h1 := hlen routes hperm
  have h2 := hlen (router []) (List.Perm.refl _)
  have hl := hp.length_eq
  match hf : (routes.filter fun r => r.accepts method path),
      hg : ((router []).filter fun r => r.accepts method path) with
  | [], [] => rw [hf, hg]
  | [a], [b] =>
    rw [hf, hg] at hp
    have : a = b := by simpa using hp
    subst this
    rw [hf, hg]
  | [], _ :: _ => rw [hf, hg] at hl; simp at hl
  | _ :: _, [] => rw [hf, hg] at hl; simp at hl
  | _ :: _ :: _, _ => rw [hf] at h1; simp at h1
  | _, _ :: _ :: _ => rw [hg] at h2; simp at h2

/-- Witness for C30: a bulk-return request written in upper case and with a trailing slash
matches the DeleteList route and nothing else, in whatever order the routes stand. -/
theorem routing_is_unambiguous_witness :
    Route.accepts ⟨"DELETE", "/member/:id/borrowed", .borrowedHandlerDeleteList⟩
      "DELETE" "/Member/7/BORROWED/" = true ∧
    (⟨"DELETE", "/member/:id/borrowed", .borrowedHandlerDeleteList⟩ : Route) =
      ⟨"DELETE", "/member/:id/borrowed", .borrowedHandlerDeleteList⟩ ∧
    ((router []).reverse.filter fun r => r.accepts "DELETE" "/Member/7/BORROWED/").map
        Route.handler =
      ((router []).filter fun r => r.accepts "DELETE" "/Member/7/BORROWED/").map
        Route.handler :=
  ⟨by decide,
    (routing_is_unambiguous "DELETE" "/Member/7/BORROWED/").1
      ⟨"DELETE", "/member/:id/borrowed", .borrowedHandlerDeleteList⟩
      ⟨"DELETE", "/member/:id/borrowed", .borrowedHandlerDeleteList⟩
      (by decide) (by decide) (by decide) (by decide),
    (routing_is_unambiguous "DELETE" "/Member/7/BORROWED/").2.2 (router []).reverse
      (List.reverse_perm (router []))⟩

end app

namespace store

open model fiber handler

/-- Rows that are each the image of some entity are the image of a list of entities. -/
theorem exists_map_of_forall_exists {α β : Type} (f : α → β) :
    ∀ (l : List β), (∀ y ∈ l, ∃ a, y = f a) → ∃ ents : List α, l = ents.map f := by
  intro l
  induction l with
  | nil => intro _; exact ⟨[], rfl⟩
  | cons y ys ih =>
    intro h
    obtain ⟨a, ha⟩ := h y (by simp)
    obtain ⟨as, has⟩ := ih (fun x hx => h x (by simp [hx]))
    exact ⟨a :: as, by simp [ha, has]⟩

/-- The slice built from a list that ends with an element is not nil. -/
theorem ofList_append_singleton {α : Type} (l : List α) (x : α) :
    Slice.ofList (l ++ [x]) = some (l ++ [x]) := by
  cases l <;> rfl

/-- In the table model a stored author row reads back as the author that was stored. -/
theorem scanAuthor_authorRow (refuse : Stmt → GoError) (a : Author) :
    scanAuthor (tableDB refuse) (authorRow a) = .ok a := by
  cases a; rfl

/-- In the table model a stored book row reads back as the book that was stored, without
its embedded author. -/
theorem scanBook_bookRow (refuse : Stmt → GoError) (b : Book) :
    scanBook (tableDB refuse) (bookRow b) = .ok { b with Author := Author.zero } := by
  cases b; rfl

/-- In the table model a stored member row reads back as the member that was stored. -/
theorem scanMember_memberRow (refuse : Stmt → GoError) (m : Member) :
    scanMember (tableDB refuse) (memberRow m) = .ok m := by
  cases m; rfl

/-- The author INSERT is an INSERT into authors. -/
theorem insertsInto_authors :
    insertsInto "authors"
      "INSERT INTO authors (id, full_name, nick_name, specialization) VALUES ($1, $2, $3, $4)" =
      true := by
  decide

/-- The book INSERT is an INSERT into books and not into authors. -/
theorem insertsInto_books :
    insertsInto "authors"
      "INSERT INTO books (id, authors_id, title, genre, isbn) \n\t\t\t\t\t\t\t\tVALUES ($1, $2, $3, $4, $5)" =
      false ∧
    insertsInto "books"
      "INSERT INTO books (id, authors_id, title, genre, isbn) \n\t\t\t\t\t\t\t\tVALUES ($1, $2, $3, $4, $5)" =
      true := by
  decide

/-- The member INSERT is an INSERT into members and into no other table. -/
theorem insertsInto_members :
    insertsInto "authors" "INSERT INTO members(id, full_name) VALUES ($1, $2)" = false ∧
    insertsInto "books" "INSERT INTO members(id, full_name) VALUES ($1, $2)" = false ∧
    insertsInto "members" "INSERT INTO members(id, full_name) VALUES ($1, $2)" = true := by
  decide

/-- `AuthorStore.Create` over the table model. -/
theorem tableDB_create_author (refuse : Stmt → GoError) (a : Author) (t : Tables) :
    AuthorStore.Create (tableDB refuse) a t =
      match refuse
        ("INSERT INTO authors (id, full_name, nick_name, specialization) VALUES ($1, $2, $3, $4)",
          authorRow a) with
      | some e => ((some e, a), t)
      | none => ((none, a), { t with authors := t.authors ++ [authorRow a] }) := by
  cases h : refuse
    ("INSERT INTO authors (id, full_name, nick_name, specialization) VALUES ($1, $2, $3, $4)",
      authorRow a) <;>
    simp_all [AuthorStore.Create, tableDB, authorRow, insertsInto_authors]

/-- `BookStore.Create` over the table model. -/
theorem tableDB_create_book (refuse : Stmt → GoError) (b : Book) (t : Tables) :
    BookStore.Create (tableDB refuse) b t =
      match refuse
        ("INSERT INTO books (id, authors_id, title, genre, isbn) \n\t\t\t\t\t\t\t\tVALUES ($1, $2, $3, $4, $5)",
          bookRow b) with
      | some e => ((some e, b), t)
      | none => ((none, b), { t with books := t.books ++ [bookRow b] }) := by
  cases h : refuse
    ("INSERT INTO books (id, authors_id, title, genre, isbn) \n\t\t\t\t\t\t\t\tVALUES ($1, $2, $3, $4, $5)",
      bookRow b) <;>
    simp_all [BookStore.Create, tableDB, bookRow, insertsInto_books]

/-- `MemberStore.Create` over the table model. -/
theorem tableDB_create_member (refuse : Stmt → GoError) (m : Member) (t : Tables) :
    MemberStore.Create (tableDB refuse) m t =
      match refuse ("INSERT INTO members(id, full_name) VALUES ($1, $2)", memberRow m) with
      | some e => ((some e, m), t)
      | none => ((none, m), { t with members := t.members ++ [memberRow m] }) := by
  cases h : refuse ("INSERT INTO members(id, full_name) VALUES ($1, $2)", memberRow m) <;>
    simp_all [MemberStore.Create, tableDB, memberRow, insertsInto_members]

/-- `AuthorStore.Get` over the table model returns the stored authors in order. -/
theorem tableDB_get_authors (refuse : Stmt → GoError) (t : Tables) (ents : List Author)
    (h : t.authors = ents.map authorRow) :
    AuthorStore.Get (tableDB refuse) t = ((Slice.ofList ents, none), t) := by
  have hmap : t.authors.map (scanAuthor (tableDB refuse)) = ents.map Except.ok := by
    rw [h, List.map_map]
    exact List.map_congr_left fun a _ => scanAuthor_authorRow refuse a
  have hq : (tableDB refuse).Query "SELECT * FROM authors" [] t = (.ok ⟨t.authors, none⟩, t) := by
    simp [tableDB]
  simp [AuthorStore.Get, hq, scanLoop_from_nil _ _ _ hmap]

/-- `BookStore.Get` over the table model returns the stored books in order, each without an
embedded author. -/
theorem tableDB_get_books (refuse : Stmt → GoError) (t : Tables) (ents : List Book)
    (h : t.books = ents.map bookRow) :
    BookStore.Get (tableDB refuse) t =
      ((Slice.ofList (ents.map fun b => { b with Author := Author.zero }), none), t) := by
  have hmap : t.books.map (scanBook (tableDB refuse)) =
      (ents.map fun b => { b with Author := Author.zero }).map Except.ok := by
    rw [h, List.map_map, List.map_map]
    exact List.map_congr_left fun b _ => scanBook_bookRow refuse b
  have hq : (tableDB refuse).Query "SELECT * FROM books" [] t = (.ok ⟨t.books, none⟩, t) := by
    simp [tableDB]
  simp [BookStore.Get, hq, scanLoop_from_nil _ _ _ hmap]

/-- `MemberStore.Get` over the table model returns the stored members in order. -/
theorem tableDB_get_members (refuse : Stmt → GoError) (t : Tables) (ents : List Member)
    (h : t.members = ents.map memberRow) :
    MemberStore.Get (tableDB refuse) t = ((Slice.ofList ents, none), t) := by
  have hmap : t.members.map (scanMember (tableDB refuse)) = ents.map Except.ok := by
    rw [h, List.map_map]
    exact List.map_congr_left fun m _ => scanMember_memberRow refuse m
  have hq : (tableDB refuse).Query "SELECT * FROM members" [] t =
      (.ok ⟨t.members, none⟩, t) := by
    simp [tableDB]
  simp [MemberStore.Get, hq, scanLoop_from_nil _ _ _ hmap]

end store

namespace store

open model fiber handler

/-- C24 (counterexample). Over the table model, a book body that carries an author object is
created with 201, yet the list that follows holds no record whose id is the generated one
and whose non-id fields all equal the body's: the listed book has no embedded author. -/
theorem created_book_is_listed_without_its_author :
    (BookHandler.Create (NewBookStore sample.accepting) (sample.parsed sample.bookWithAuthor)
      "generated" sample.emptyTables).resp.status = 201 ∧
    (BookHandler.Get (NewBookStore sample.accepting) (sample.parsed ())
      (BookHandler.Create (NewBookStore sample.accepting)
        (sample.parsed sample.bookWithAuthor) "generated" sample.emptyTables).st).resp =
      ⟨200, .books (some [⟨"generated", "a1", "perfect book title", "fantasy", "978",
        Author.zero⟩])⟩ ∧
    ¬ ∃ l : List Book,
      (BookHandler.Get (NewBookStore sample.accepting) (sample.parsed ())
        (BookHandler.Create (NewBookStore sample.accepting)
          (sample.parsed sample.bookWithAuthor) "generated" sample.emptyTables).st).resp =
        ⟨200, .books (some l)⟩ ∧
      ∃ r ∈ l, r.ID = "generated" ∧ r.AuthorsID = sample.bookWithAuthor.AuthorsID ∧
        r.Title = sample.bookWithAuthor.Title ∧ r.Genre = sample.bookWithAuthor.Genre ∧
        r.ISBN = sample.bookWithAuthor.ISBN ∧ r.Author = sample.bookWithAuthor.Author := by
  have hget : (BookHandler.Get (NewBookStore sample.accepting) (sample.parsed ())
      (BookHandler.Create (NewBookStore sample.accepting)
        (sample.parsed sample.bookWithAuthor) "generated" sample.emptyTables).st).resp =
      ⟨200, .books (some [⟨"generated", "a1", "perfect book title", "fantasy", "978",
        Author.zero⟩])⟩ := by
    decide
  refine ⟨by decide, hget, ?_⟩
  rintro ⟨l, hl, r, hr, -, -, -, -, -, hauthor⟩
  rw [hget] at hl
  simp only [Response.mk.injEq, Body.books.injEq, Option.some.injEq, true_and] at hl
  subst hl
  simp only [List.mem_singleton] at hr
  subst hr
  revert hauthor
  decide

end store

namespace store

open model fiber handler

/-- C24 (as amended). Over the table model, starting from tables whose rows were stored by
INSERTs: after the Author, Book or Member Create handler answers 201 for a parsed body `b`
and generated identifier `g`, the tables are again of that kind and the list handler answers
200 with a sequence that holds the record whose id is `g` and whose stored fields are those
of `b` (Author: full_name, nick_name, specialization; Book: authors_id, title, genre, isbn,
with the embedded Author at its zero value; Member: full_name). -/
theorem created_record_is_listed_with_stored_fields :
    (Tables.mk [] [] []).stored ∧
    (∀ {α : Type} (refuse : Stmt → GoError) (t : Tables) (c : Ctx Author) (c2 : Ctx α)
        (g : String) (b : Author),
      t.stored → c.BodyParser = .ok b →
      (AuthorHandler.Create (NewAuthorStore (tableDB refuse)) c g t).resp.status = 201 →
      (AuthorHandler.Create (NewAuthorStore (tableDB refuse)) c g t).st.stored ∧
      ∃ l, (AuthorHandler.Get (NewAuthorStore (tableDB refuse)) c2
          (AuthorHandler.Create (NewAuthorStore (tableDB refuse)) c g t).st).resp =
            ⟨200, .authors (some l)⟩ ∧
        (⟨g, b.FullName, b.NickName, b.Specialization⟩ : Author) ∈ l) ∧
    (∀ {α : Type} (refuse : Stmt → GoError) (t : Tables) (c : Ctx Book) (c2 : Ctx α)
        (g : String) (b : Book),
      t.stored → c.BodyParser = .ok b →
      (BookHandler.Create (NewBookStore (tableDB refuse)) c g t).resp.status = 201 →
      (BookHandler.Create (NewBookStore (tableDB refuse)) c g t).st.stored ∧
      ∃ l, (BookHandler.Get (NewBookStore (tableDB refuse)) c2
          (BookHandler.Create (NewBookStore (tableDB refuse)) c g t).st).resp =
            ⟨200, .books (some l)⟩ ∧
        (⟨g, b.AuthorsID, b.Title, b.Genre, b.ISBN, Author.zero⟩ : Book) ∈ l) ∧
    (∀ {α : Type} (refuse : Stmt → GoError) (t : Tables) (c : Ctx Member) (c2 : Ctx α)
        (g : String) (b : Member),
      t.stored → c.BodyParser = .ok b →
      (MemberHandler.Create (NewMemberStore (tableDB refuse)) c g t).resp.status = 201 →
      (MemberHandler.Create (NewMemberStore (tableDB refuse)) c g t).st.stored ∧
      ∃ l, (MemberHandler.Get (NewMemberStore (tableDB refuse)) c2
          (MemberHandler.Create (NewMemberStore (tableDB refuse)) c g t).st).resp =
            ⟨200, .members (some l)⟩ ∧
        (⟨g, b.FullName⟩ : Member) ∈ l) := by
  refine ⟨by simp [Tables.stored], ?_, ?_, ?_⟩
  · intro α refuse t c c2 g b hst hb h201
    have hc := tableDB_create_author refuse { b with ID := g } t
    cases hr : refuse
      ("INSERT INTO authors (id, full_name, nick_name, specialization) VALUES ($1, $2, $3, $4)",
        authorRow { b with ID := g }) with
    | some e =>
      rw [hr] at hc
      simp [AuthorHandler.Create, NewAuthorStore, hb, hc, StatusBadRequest] at h201
    | none =>
      rw [hr] at hc
      have hcreate : (AuthorHandler.Create (NewAuthorStore (tableDB refuse)) c g t).st =
          { t with authors := t.authors ++ [authorRow { b with ID := g }] } := by
        simp [AuthorHandler.Create, NewAuthorStore, hb, hc]
      rw [hcreate]
      obtain ⟨ents, hents⟩ := exists_map_of_forall_exists authorRow t.authors hst.1
      have hget := tableDB_get_authors refuse
        { t with authors := t.authors ++ [authorRow { b with ID := g }] }
        (ents ++ [{ b with ID := g }]) (by simp [hents])
      refine ⟨⟨?_, hst.2.1, hst.2.2⟩, ents ++ [{ b with ID := g }], ?_, by simp⟩
      · intro row hrow
        simp only [List.mem_append, List.mem_singleton] at hrow
        rcases hrow with h | h
        · exact hst.1 row h
        · exact ⟨_, h⟩
      · simp [AuthorHandler.Get, NewAuthorStore, hget, ofList_append_singleton, Slice.len,
          StatusOK]
  · intro α refuse t c c2 g b hst hb h201
    have hc := tableDB_create_book refuse { b with ID := g } t
    cases hr : refuse
      ("INSERT INTO books (id, authors_id, title, genre, isbn) \n\t\t\t\t\t\t\t\tVALUES ($1, $2, $3, $4, $5)",
        bookRow { b with ID := g }) with
    | some e =>
      rw [hr] at hc
      simp [BookHandler.Create, NewBookStore, hb, hc, StatusBadRequest] at h201
    | none =>
      rw [hr] at hc
      have hcreate : (BookHandler.Create (NewBookStore (tableDB refuse)) c g t).st =
          { t with books := t.books ++ [bookRow { b with ID := g }] } := by
        simp [BookHandler.Create, NewBookStore, hb, hc]
      rw [hcreate]
      obtain ⟨ents, hents⟩ := exists_map_of_forall_exists bookRow t.books hst.2.1
      have hget := tableDB_get_books refuse
        { t with books := t.books ++ [bookRow { b with ID := g }] }
        (ents ++ [{ b with ID := g }]) (by simp [hents])
      refine ⟨⟨hst.1, ?_, hst.2.2⟩,
        (ents.map fun b => { b with Author := Author.zero }) ++
          [⟨g, b.AuthorsID, b.Title, b.Genre, b.ISBN, Author.zero⟩], ?_, by simp⟩
      · intro row hrow
        simp only [List.mem_append, List.mem_singleton] at hrow
        rcases hrow with h | h
        · exact hst.2.1 row h
        · exact ⟨_, h⟩
      · simp only [List.map_append, List.map_cons, List.map_nil] at hget
        simp [BookHandler.Get, NewBookStore, hget, ofList_append_singleton, Slice.len,
          StatusOK]
  · intro α refuse t c c2 g b hst hb h201
    have hc := tableDB_create_member refuse { b with ID := g } t
    cases hr : refuse ("INSERT INTO members(id, full_name) VALUES ($1, $2)",
        memberRow { b with ID := g }) with
    | some e =>
      rw [hr] at hc
      simp [MemberHandler.Create, NewMemberStore, hb, hc, StatusBadRequest] at h201
    | none =>
      rw [hr] at hc
      have hcreate : (MemberHandler.Create (NewMemberStore (tableDB refuse)) c g t).st =
          { t with members := t.members ++ [memberRow { b with ID := g }] } := by
        simp [MemberHandler.Create, NewMemberStore, hb, hc]
      rw [hcreate]
      obtain ⟨ents, hents⟩ := exists_map_of_forall_exists memberRow t.members hst.2.2
      have hget := tableDB_get_members refuse
        { t with members := t.members ++ [memberRow { b with ID := g }] }
        (ents ++ [{ b with ID := g }]) (by simp [hents])
      refine ⟨⟨hst.1, hst.2.1, ?_⟩, ents ++ [{ b with ID := g }], ?_, by simp⟩
      · intro row hrow
        simp only [List.mem_append, List.mem_singleton] at hrow
        rcases hrow with h | h
        · exact hst.2.2 row h
        · exact ⟨_, h⟩
      · simp [MemberHandler.Get, NewMemberStore, hget, ofList_append_singleton, Slice.len,
          StatusOK]

end store

namespace handler

open model fiber

/-- C25 (counterexample). The bulk-return handler over a store whose error text is "server
error" answers with a body that contains that very text. -/
theorem response_body_can_contain_the_store_error_text :
    (store.NewBorrowedStore (sample.scripted (.error "unused") (some "server error"))).DeleteList
        "7" (some ["b1"]) 0 = (some "server error", 1) ∧
    (BorrowedHandler.DeleteList
        (store.NewBorrowedStore (sample.scripted (.error "unused") (some "server error")))
        (sample.parsed (some ["b1"])) 0).resp = ⟨500, .map [("error", "server error")]⟩ ∧
    (BorrowedHandler.DeleteList
        (store.NewBorrowedStore (sample.scripted (.error "unused") (some "server error")))
        (sample.parsed (some ["b1"])) 0).resp.body.containsText "server error" = true := by
  refine ⟨rfl, rfl, ?_⟩
  decide

/-- C25 (as amended). The response does not depend on the text of a store error except
through the foreign-key test on delete: for every handler, two runs on the same request in
which the store call returns non-nil errors of any two texts give the same status and body,
provided, for the Author, Book and Member Delete handlers, that the two texts agree on
containing "violates foreign key constraint". -/
theorem response_is_independent_of_error_text :
    (∀ {σ τ : Type} (s1 : authorStore σ) (s2 : authorStore τ) (c : Ctx Author) (g : String) (st1 : σ)
        (st2 : τ) (b : Author) (e1 e2 : String),
      c.BodyParser = .ok b → (s1.Create { b with ID := g } st1).1.1 = some e1 →
      (s2.Create { b with ID := g } st2).1.1 = some e2 →
      (AuthorHandler.Create s1 c g st1).resp = (AuthorHandler.Create s2 c g st2).resp) ∧
    (∀ {σ τ : Type} (s1 : bookStore σ) (s2 : bookStore τ) (c : Ctx Book) (g : String) (st1 : σ)
        (st2 : τ) (b : Book) (e1 e2 : String),
      c.BodyParser = .ok b → (s1.Create { b with ID := g } st1).1.1 = some e1 →
      (s2.Create { b with ID := g } st2).1.1 = some e2 →
      (BookHandler.Create s1 c g st1).resp = (BookHandler.Create s2 c g st2).resp) ∧
    (∀ {σ τ : Type} (s1 : memberStore σ) (s2 : memberStore τ) (c : Ctx Member) (g : String) (st1 : σ)
        (st2 : τ) (b : Member) (e1 e2 : String),
      c.BodyParser = .ok b → (s1.Create { b with ID := g } st1).1.1 = some e1 →
      (s2.Create { b with ID := g } st2).1.1 = some e2 →
      (MemberHandler.Create s1 c g st1).resp = (MemberHandler.Create s2 c g st2).resp) ∧
    (∀ {σ τ : Type} (s1 : borrowedStore σ) (s2 : borrowedStore τ) (c : Ctx Borrowed) (st1 : σ)
        (st2 : τ) (b : Borrowed) (e1 e2 : String),
      c.BodyParser = .ok b → (s1.Create b st1).1.1 = some e1 →
      (s2.Create b st2).1.1 = some e2 →
      (BorrowedHandler.Create s1 c st1).resp = (BorrowedHandler.Create s2 c st2).resp) ∧
    (∀ {σ τ α : Type} (s1 : authorStore σ) (s2 : authorStore τ) (c : Ctx α) (st1 : σ) (st2 : τ)
        (e1 e2 : String),
      (s1.Get st1).1.2 = some e1 → (s2.Get st2).1.2 = some e2 →
      (AuthorHandler.Get s1 c st1).resp = (AuthorHandler.Get s2 c st2).resp) ∧
    (∀ {σ τ α : Type} (s1 : bookStore σ) (s2 : bookStore τ) (c : Ctx α) (st1 : σ) (st2 : τ)
        (e1 e2 : String),
      (s1.Get st1).1.2 = some e1 → (s2.Get st2).1.2 = some e2 →
      (BookHandler.Get s1 c st1).resp = (BookHandler.Get s2 c st2).resp) ∧
    (∀ {σ τ α : Type} (s1 : memberStore σ) (s2 : memberStore τ) (c : Ctx α) (st1 : σ) (st2 : τ)
        (e1 e2 : String),
      (s1.Get st1).1.2 = some e1 → (s2.Get st2).1.2 = some e2 →
      (MemberHandler.Get s1 c st1).resp = (MemberHandler.Get s2 c st2).resp) ∧
    (∀ {σ τ α : Type} (s1 : borrowedStore σ) (s2 : borrowedStore τ) (c : Ctx α) (st1 : σ) (st2 : τ)
        (e1 e2 : String),
      (s1.Get (c.Params "id") st1).1.2 = some e1 → (s2.Get (c.Params "id") st2).1.2 = some e2 →
      (BorrowedHandler.Get s1 c st1).resp = (BorrowedHandler.Get s2 c st2).resp) ∧
    (∀ {σ τ α : Type} (s1 : authorStore σ) (s2 : authorStore τ) (c : Ctx α) (st1 : σ) (st2 : τ)
        (e1 e2 : String),
      (s1.GetAuthorsBooks (c.Params "id") st1).1.2 = some e1 → (s2.GetAuthorsBooks (c.Params "id") st2).1.2 = some e2 →
      (AuthorHandler.GetAuthorBooks s1 c st1).resp = (AuthorHandler.GetAuthorBooks s2 c st2).resp) ∧
    (∀ {σ τ : Type} (s1 : authorStore σ) (s2 : authorStore τ) (c : Ctx Author) (st1 : σ) (st2 : τ)
        (b : Author) (e1 e2 : String),
      c.BodyParser = .ok b →
      ((s1.Exists (c.Params "id") st1).1 = some e1 →
        (s2.Exists (c.Params "id") st2).1 = some e2 →
        (AuthorHandler.Update s1 c st1).resp = (AuthorHandler.Update s2 c st2).resp) ∧
      ((s1.Exists (c.Params "id") st1).1 = none →
        (s2.Exists (c.Params "id") st2).1 = none →
        (s1.Update (c.Params "id") b (s1.Exists (c.Params "id") st1).2).1.1 = some e1 →
        (s2.Update (c.Params "id") b (s2.Exists (c.Params "id") st2).2).1.1 = some e2 →
        (AuthorHandler.Update s1 c st1).resp = (AuthorHandler.Update s2 c st2).resp)) ∧
    (∀ {σ τ : Type} (s1 : bookStore σ) (s2 : bookStore τ) (c : Ctx Book) (st1 : σ) (st2 : τ)
        (b : Book) (e1 e2 : String),
      c.BodyParser = .ok b →
      ((s1.Exists (c.Params "id") st1).1 = some e1 →
        (s2.Exists (c.Params "id") st2).1 = some e2 →
        (BookHandler.Update s1 c st1).resp = (BookHandler.Update s2 c st2).resp) ∧
      ((s1.Exists (c.Params "id") st1).1 = none →
        (s2.Exists (c.Params "id") st2).1 = none →
        (s1.Update (c.Params "id") b (s1.Exists (c.Params "id") st1).2).1.1 = some e1 →
        (s2.Update (c.Params "id") b (s2.Exists (c.Params "id") st2).2).1.1 = some e2 →
        (BookHandler.Update s1 c st1).resp = (BookHandler.Update s2 c st2).resp)) ∧
    (∀ {σ τ : Type} (s1 : memberStore σ) (s2 : memberStore τ) (c : Ctx Member) (st1 : σ) (st2 : τ)
        (b : Member) (e1 e2 : String),
      c.BodyParser = .ok b →
      ((s1.Exists (c.Params "id") st1).1 = some e1 →
        (s2.Exists (c.Params "id") st2).1 = some e2 →
        (MemberHandler.Update s1 c st1).resp = (MemberHandler.Update s2 c st2).resp) ∧
      ((s1.Exists (c.Params "id") st1).1 = none →
        (s2.Exists (c.Params "id") st2).1 = none →
        (s1.Update (c.Params "id") b (s1.Exists (c.Params "id") st1).2).1.1 = some e1 →
        (s2.Update (c.Params "id") b (s2.Exists (c.Params "id") st2).2).1.1 = some e2 →
        (MemberHandler.Update s1 c st1).resp = (MemberHandler.Update s2 c st2).resp)) ∧
    (∀ {σ τ α : Type} (s1 : authorStore σ) (s2 : authorStore τ) (c : Ctx α) (st1 : σ) (st2 : τ)
        (e1 e2 : String),
      (s1.Delete (c.Params "id") st1).1 = some e1 →
      (s2.Delete (c.Params "id") st2).1 = some e2 →
      strings.Contains e1 "violates foreign key constraint" =
        strings.Contains e2 "violates foreign key constraint" →
      (AuthorHandler.Delete s1 c st1).resp = (AuthorHandler.Delete s2 c st2).resp) ∧
    (∀ {σ τ α : Type} (s1 : bookStore σ) (s2 : bookStore τ) (c : Ctx α) (st1 : σ) (st2 : τ)
        (e1 e2 : String),
      (s1.Delete (c.Params "id") st1).1 = some e1 →
      (s2.Delete (c.Params "id") st2).1 = some e2 →
      strings.Contains e1 "violates foreign key constraint" =
        strings.Contains e2 "violates foreign key constraint" →
      (BookHandler.Delete s1 c st1).resp = (BookHandler.Delete s2 c st2).resp) ∧
    (∀ {σ τ α : Type} (s1 : memberStore σ) (s2 : memberStore τ) (c : Ctx α) (st1 : σ) (st2 : τ)
        (e1 e2 : String),
      (s1.Delete (c.Params "id") st1).1 = some e1 →
      (s2.Delete (c.Params "id") st2).1 = some e2 →
      strings.Contains e1 "violates foreign key constraint" =
        strings.Contains e2 "violates foreign key constraint" →
      (MemberHandler.Delete s1 c st1).resp = (MemberHandler.Delete s2 c st2).resp) ∧
    (∀ {σ τ α : Type} (s1 : borrowedStore σ) (s2 : borrowedStore τ) (c : Ctx α) (st1 : σ)
        (st2 : τ) (e1 e2 : String),
      (s1.Delete (c.Params "id") (c.Params "book_id") st1).1 = some e1 →
      (s2.Delete (c.Params "id") (c.Params "book_id") st2).1 = some e2 →
      (BorrowedHandler.Delete s1 c st1).resp = (BorrowedHandler.Delete s2 c st2).resp) ∧
    (∀ {σ τ : Type} (s1 : borrowedStore σ) (s2 : borrowedStore τ) (c : Ctx (Slice String))
        (st1 : σ) (st2 : τ) (b : Slice String) (e1 e2 : String),
      c.BodyParser = .ok b → (s1.DeleteList (c.Params "id") b st1).1 = some e1 →
      (s2.DeleteList (c.Params "id") b st2).1 = some e2 →
      (BorrowedHandler.DeleteList s1 c st1).resp =
        (BorrowedHandler.DeleteList s2 c st2).resp) := by
  refine ⟨?_, ?_, ?_, ?_, ?_, ?_, ?_, ?_, ?_, ?_, ?_, ?_, ?_, ?_, ?_, ?_, ?_⟩
  · intro σ τ s1 s2 c g st1 st2 b e1 e2 hb h1 h2
    rcases k1 : s1.Create { b with ID := g } st1 with ⟨⟨x1, a1⟩, t1⟩
    rcases k2 : s2.Create { b with ID := g } st2 with ⟨⟨x2, a2⟩, t2⟩
    simp only [k1] at h1
    simp only [k2] at h2
    subst h1 h2
    simp [AuthorHandler.Create, hb, k1, k2]
  · intro σ τ s1 s2 c g st1 st2 b e1 e2 hb h1 h2
    rcases k1 : s1.Create { b with ID := g } st1 with ⟨⟨x1, a1⟩, t1⟩
    rcases k2 : s2.Create { b with ID := g } st2 with ⟨⟨x2, a2⟩, t2⟩
    simp only [k1] at h1
    simp only [k2] at h2
    subst h1 h2
    simp [BookHandler.Create, hb, k1, k2]
  · intro σ τ s1 s2 c g st1 st2 b e1 e2 hb h1 h2
    rcases k1 : s1.Create { b with ID := g } st1 with ⟨⟨x1, a1⟩, t1⟩
    rcases k2 : s2.Create { b with ID := g } st2 with ⟨⟨x2, a2⟩, t2⟩
    simp only [k1] at h1
    simp only [k2] at h2
    subst h1 h2
    simp [MemberHandler.Create, hb, k1, k2]
  · intro σ τ s1 s2 c st1 st2 b e1 e2 hb h1 h2
    rcases k1 : s1.Create b st1 with ⟨⟨x1, a1⟩, t1⟩
    rcases k2 : s2.Create b st2 with ⟨⟨x2, a2⟩, t2⟩
    simp only [k1] at h1
    simp only [k2] at h2
    subst h1 h2
    simp [BorrowedHandler.Create, hb, k1, k2]
  · intro σ τ α s1 s2 c st1 st2 e1 e2 h1 h2
    rcases k1 : s1.Get st1 with ⟨⟨q1, x1⟩, t1⟩
    rcases k2 : s2.Get st2 with ⟨⟨q2, x2⟩, t2⟩
    simp only [k1] at h1
    simp only [k2] at h2
    subst h1 h2
    simp [AuthorHandler.Get, k1, k2]
  · intro σ τ α s1 s2 c st1 st2 e1 e2 h1 h2
    rcases k1 : s1.Get st1 with ⟨⟨q1, x1⟩, t1⟩
    rcases k2 : s2.Get st2 with ⟨⟨q2, x2⟩, t2⟩
    simp only [k1] at h1
    simp only [k2] at h2
    subst h1 h2
    simp [BookHandler.Get, k1, k2]
  · intro σ τ α s1 s2 c st1 st2 e1 e2 h1 h2
    rcases k1 : s1.Get st1 with ⟨⟨q1, x1⟩, t1⟩
    rcases k2 : s2.Get st2 with ⟨⟨q2, x2⟩, t2⟩
    simp only [k1] at h1
    simp only [k2] at h2
    subst h1 h2
    simp [MemberHandler.Get, k1, k2]
  · intro σ τ α s1 s2 c st1 st2 e1 e2 h1 h2
    rcases k1 : s1.Get (c.Params "id") st1 with ⟨⟨q1, x1⟩, t1⟩
    rcases k2 : s2.Get (c.Params "id") st2 with ⟨⟨q2, x2⟩, t2⟩
    simp only [k1] at h1
    simp only [k2] at h2
    subst h1 h2
    simp [BorrowedHandler.Get, k1, k2]
  · intro σ τ α s1 s2 c st1 st2 e1 e2 h1 h2
    rcases k1 : s1.GetAuthorsBooks (c.Params "id") st1 with ⟨⟨q1, x1⟩, t1⟩
    rcases k2 : s2.GetAuthorsBooks (c.Params "id") st2 with ⟨⟨q2, x2⟩, t2⟩
    simp only [k1] at h1
    simp only [k2] at h2
    subst h1 h2
    simp [AuthorHandler.GetAuthorBooks, k1, k2]
  · intro σ τ s1 s2 c st1 st2 b e1 e2 hb
    rcases k1 : s1.Exists (c.Params "id") st1 with ⟨x1, t1⟩
    rcases k2 : s2.Exists (c.Params "id") st2 with ⟨x2, t2⟩
    constructor
    · intro h1 h2
      simp only at h1 h2
      subst h1 h2
      simp [AuthorHandler.Update, hb, k1, k2]
    · intro h1 h2 u1 u2
      simp only at h1 h2 u1 u2
      subst h1 h2
      rcases m1 : s1.Update (c.Params "id") b t1 with ⟨⟨y1, a1⟩, w1⟩
      rcases m2 : s2.Update (c.Params "id") b t2 with ⟨⟨y2, a2⟩, w2⟩
      simp only [m1] at u1
      simp only [m2] at u2
      subst u1 u2
      simp [AuthorHandler.Update, hb, k1, k2, m1, m2]
  · intro σ τ s1 s2 c st1 st2 b e1 e2 hb
    rcases k1 : s1.Exists (c.Params "id") st1 with ⟨x1, t1⟩
    rcases k2 : s2.Exists (c.Params "id") st2 with ⟨x2, t2⟩
    constructor
    · intro h1 h2
      simp only at h1 h2
      subst h1 h2
      simp [BookHandler.Update, hb, k1, k2]
    · intro h1 h2 u1 u2
      simp only at h1 h2 u1 u2
      subst h1 h2
      rcases m1 : s1.Update (c.Params "id") b t1 with ⟨⟨y1, a1⟩, w1⟩
      rcases m2 : s2.Update (c.Params "id") b t2 with ⟨⟨y2, a2⟩, w2⟩
      simp only [m1] at u1
      simp only [m2] at u2
      subst u1 u2
      simp [BookHandler.Update, hb, k1, k2, m1, m2]
  · intro σ τ s1 s2 c st1 st2 b e1 e2 hb
    rcases k1 : s1.Exists (c.Params "id") st1 with ⟨x1, t1⟩
    rcases k2 : s2.Exists (c.Params "id") st2 with ⟨x2, t2⟩
    constructor
    · intro h1 h2
      simp only at h1 h2
      subst h1 h2
      simp [MemberHandler.Update, hb, k1, k2]
    · intro h1 h2 u1 u2
      simp only at h1 h2 u1 u2
      subst h1 h2
      rcases m1 : s1.Update (c.Params "id") b t1 with ⟨⟨y1, a1⟩, w1⟩
      rcases m2 : s2.Update (c.Params "id") b t2 with ⟨⟨y2, a2⟩, w2⟩
      simp only [m1] at u1
      simp only [m2] at u2
      subst u1 u2
      simp [MemberHandler.Update, hb, k1, k2, m1, m2]
  · intro σ τ α s1 s2 c st1 st2 e1 e2 h1 h2 hfk
    rcases k1 : s1.Delete (c.Params "id") st1 with ⟨x1, t1⟩
    rcases k2 : s2.Delete (c.Params "id") st2 with ⟨x2, t2⟩
    simp only [k1] at h1
    simp only [k2] at h2
    subst h1 h2
    cases hc : strings.Contains e2 "violates foreign key constraint" <;>
      simp [AuthorHandler.Delete, k1, k2, hfk, hc]
  · intro σ τ α s1 s2 c st1 st2 e1 e2 h1 h2 hfk
    rcases k1 : s1.Delete (c.Params "id") st1 with ⟨x1, t1⟩
    rcases k2 : s2.Delete (c.Params "id") st2 with ⟨x2, t2⟩
    simp only [k1] at h1
    simp only [k2] at h2
    subst h1 h2
    cases hc : strings.Contains e2 "violates foreign key constraint" <;>
      simp [BookHandler.Delete, k1, k2, hfk, hc]
  · intro σ τ α s1 s2 c st1 st2 e1 e2 h1 h2 hfk
    rcases k1 : s1.Delete (c.Params "id") st1 with ⟨x1, t1⟩
    rcases k2 : s2.Delete (c.Params "id") st2 with ⟨x2, t2⟩
    simp only [k1] at h1
    simp only [k2] at h2
    subst h1 h2
    cases hc : strings.Contains e2 "violates foreign key constraint" <;>
      simp [MemberHandler.Delete, k1, k2, hfk, hc]
  · intro σ τ α s1 s2 c st1 st2 e1 e2 h1 h2
    rcases k1 : s1.Delete (c.Params "id") (c.Params "book_id") st1 with ⟨x1, t1⟩
    rcases k2 : s2.Delete (c.Params "id") (c.Params "book_id") st2 with ⟨x2, t2⟩
    simp only [k1] at h1
    simp only [k2] at h2
    subst h1 h2
    simp [BorrowedHandler.Delete, k1, k2]
  · intro σ τ s1 s2 c st1 st2 b e1 e2 hb h1 h2
    rcases k1 : s1.DeleteList (c.Params "id") b st1 with ⟨x1, t1⟩
    rcases k2 : s2.DeleteList (c.Params "id") b st2 with ⟨x2, t2⟩
    simp only [k1] at h1
    simp only [k2] at h2
    subst h1 h2
    simp [BorrowedHandler.DeleteList, hb, k1, k2]

/-- Witness for C25: two author deletes refused with different foreign-key texts answer
alike. -/
theorem response_is_independent_of_error_text_witness :
    (AuthorHandler.Delete
        (store.NewAuthorStore (sample.scripted (.error "unused") (some sample.fkText)))
        (sample.parsed ()) 0).resp =
      (AuthorHandler.Delete
        (store.NewAuthorStore
          (sample.scripted (.error "unused") (some "x violates foreign key constraint y")))
        (sample.parsed ()) 5).resp :=
  response_is_independent_of_error_text.2.2.2.2.2.2.2.2.2.2.2.2.1
    (store.NewAuthorStore (sample.scripted (.error "unused") (some sample.fkText)))
    (store.NewAuthorStore
      (sample.scripted (.error "unused") (some "x violates foreign key constraint y")))
    (sample.parsed ()) 0 5 sample.fkText "x violates foreign key constraint y" rfl rfl
    (by decide)

end handler

namespace store

open model fiber handler

/-- Witness for C24: an author created over empty tables is the one record of the list. -/
theorem created_record_is_listed_with_stored_fields_witness :
    (AuthorHandler.Create (NewAuthorStore (tableDB fun _ => none))
        (sample.parsed sample.author) "generated" ⟨[], [], []⟩).st.stored ∧
    ∃ l, (AuthorHandler.Get (NewAuthorStore (tableDB fun _ => none)) (sample.parsed ())
        (AuthorHandler.Create (NewAuthorStore (tableDB fun _ => none))
          (sample.parsed sample.author) "generated" ⟨[], [], []⟩).st).resp =
          ⟨200, .authors (some l)⟩ ∧
      (⟨"generated", sample.author.FullName, sample.author.NickName,
        sample.author.Specialization⟩ : Author) ∈ l :=
  created_record_is_listed_with_stored_fields.2.1 (fun _ => none) ⟨[], [], []⟩
    (sample.parsed sample.author) (sample.parsed ()) "generated" sample.author
    created_record_is_listed_with_stored_fields.1 rfl (by decide)

end store

namespace app

/-- Witness for C26: the HEAD route on /authors is the HEAD twin of a GET row. -/
theorem router_is_the_interface_table_with_head_twins_witness :
    (⟨"HEAD", "/authors", .authorHandlerGet⟩ : Route) ∈ router [] ∧
    ((⟨"HEAD", "/authors", .authorHandlerGet⟩ : Route) ∈ specInterfaceTable ∨
      (⟨"HEAD", "/authors", .authorHandlerGet⟩ : Route) ∈ headTwins specInterfaceTable) :=
  ⟨by decide,
    router_is_the_interface_table_with_head_twins.2.2.2.2.2.2.1
      ⟨"HEAD", "/authors", .authorHandlerGet⟩ (by decide)⟩

end app
